import Mathlib

/-!
# Acquisition service of the ZTE C320 OLT poller

A shallow embedding of `internal/usecase/onu.go` (profile lookup, free-slot
inventory, port listing, paginated listing) together with the data types of
`internal/model/onu.go` and `config/config.go`.

Go values are rendered as follows.
* `int` is `Int`; arithmetic that can leave the 64-bit range goes through `wrap64`.
* A slice is `Option (List α)`: `none` is the nil slice, `some l` a non-nil slice.
* A `(value, error)` result is a pair whose second component is `Option GoError`
  (`none` is the nil error).
* A run-time abort (nil dereference, slice bounds) is `Outcome.abort`.
* The collaborators behind interfaces (SNMP repository, Redis repository) and the
  decoders of `internal/utils` are fields of `Env`; every call is recorded in a trace.
-/

namespace OltZte

/-! ## Data model (`internal/model/onu.go`, `config/config.go`) -/

/-- A non-nil Go `error`, identified by its message. -/
structure GoError where
  msg : String
deriving DecidableEq, Repr

/-- Go slice: `none` is the nil slice. -/
abbrev Slice (α : Type) := Option (List α)

/-- Elements of a slice (`range` over a nil slice visits nothing). -/
def Slice.elems {α : Type} : Slice α → List α
  | none => []
  | some l => l

/-- Go `append(s, x)`: the result is never nil. -/
def Slice.push {α : Type} (s : Slice α) (x : α) : Slice α :=
  some (s.elems ++ [x])

/-- Go `len(s)`. -/
def Slice.len {α : Type} (s : Slice α) : Int :=
  (s.elems.length : Int)

/-- Struct `model.OltConfig`. -/
structure OltConfig where
  BaseOID : String := ""
  OnuIDNameOID : String := ""
  OnuTypeOID : String := ""
  OnuSerialNumberOID : String := ""
  OnuRxPowerOID : String := ""
  OnuTxPowerOID : String := ""
  OnuStatusOID : String := ""
  OnuPhaseStateOID : String := ""
  OnuIPAddressOID : String := ""
  OnuDescriptionOID : String := ""
  OnuLastOnlineOID : String := ""
  OnuLastOfflineOID : String := ""
  OnuLastOfflineReasonOID : String := ""
  OnuGponOpticalDistanceOID : String := ""
deriving DecidableEq, Repr

/-- Struct `model.ONUInfoPerBoard`. -/
structure ONUInfoPerBoard where
  Board : Int := 0
  PON : Int := 0
  ID : Int := 0
  Name : String := ""
  OnuType : String := ""
  SerialNumber : String := ""
  RXPower : String := ""
  Status : String := ""
deriving DecidableEq, Repr

/-- Struct `model.OnuID`. -/
structure OnuID where
  Board : Int := 0
  PON : Int := 0
  ID : Int := 0
deriving DecidableEq, Repr

/-- Struct `model.OnuOnlyID`. -/
structure OnuOnlyID where
  ID : Int := 0
deriving DecidableEq, Repr

/-- Struct `model.OnuSerialNumber`. -/
structure OnuSerialNumber where
  Board : Int := 0
  PON : Int := 0
  ID : Int := 0
  SerialNumber : String := ""
deriving DecidableEq, Repr

/-- Struct `model.PaginationResult`. -/
structure PaginationResult where
  OnuInformationList : Slice ONUInfoPerBoard := none
  Count : Int := 0
deriving DecidableEq, Repr

/-- Struct `config.OltConfig` (the base prefixes). -/
structure OltCfg where
  BaseOID1 : String := ""
  BaseOID2 : String := ""
  OnuIDNameAllPon : String := ""
  OnuTypeAllPon : String := ""
deriving DecidableEq, Repr

/-- The structs `config.Board1Pon1` ... `config.Board2Pon16`: thirty-two Go types with
the same thirteen string fields, rendered as one Lean structure. -/
structure BoardPon where
  OnuIDNameOID : String := ""
  OnuTypeOID : String := ""
  OnuSerialNumberOID : String := ""
  OnuRxPowerOID : String := ""
  OnuTxPowerOID : String := ""
  OnuStatusOID : String := ""
  OnuPhaseStateOID : String := ""
  OnuIPAddressOID : String := ""
  OnuDescriptionOID : String := ""
  OnuLastOnlineOID : String := ""
  OnuLastOfflineOID : String := ""
  OnuLastOfflineReasonOID : String := ""
  OnuGponOpticalDistanceOID : String := ""
deriving DecidableEq, Repr

/-- Struct `config.Config`, without the connection settings of SNMP and Redis. -/
structure Config where
  OltCfg : OltCfg := {}
  Board1Pon1 : BoardPon := {}
  Board1Pon2 : BoardPon := {}
  Board1Pon3 : BoardPon := {}
  Board1Pon4 : BoardPon := {}
  Board1Pon5 : BoardPon := {}
  Board1Pon6 : BoardPon := {}
  Board1Pon7 : BoardPon := {}
  Board1Pon8 : BoardPon := {}
  Board1Pon9 : BoardPon := {}
  Board1Pon10 : BoardPon := {}
  Board1Pon11 : BoardPon := {}
  Board1Pon12 : BoardPon := {}
  Board1Pon13 : BoardPon := {}
  Board1Pon14 : BoardPon := {}
  Board1Pon15 : BoardPon := {}
  Board1Pon16 : BoardPon := {}
  Board2Pon1 : BoardPon := {}
  Board2Pon2 : BoardPon := {}
  Board2Pon3 : BoardPon := {}
  Board2Pon4 : BoardPon := {}
  Board2Pon5 : BoardPon := {}
  Board2Pon6 : BoardPon := {}
  Board2Pon7 : BoardPon := {}
  Board2Pon8 : BoardPon := {}
  Board2Pon9 : BoardPon := {}
  Board2Pon10 : BoardPon := {}
  Board2Pon11 : BoardPon := {}
  Board2Pon12 : BoardPon := {}
  Board2Pon13 : BoardPon := {}
  Board2Pon14 : BoardPon := {}
  Board2Pon15 : BoardPon := {}
  Board2Pon16 : BoardPon := {}
deriving DecidableEq, Repr

/-! ## OID profile resolver (`getOltConfig`, `getBoardConfig`, `getBoard1Config`, `getBoard2Config`) -/

/-- The struct literal every `case` of `getBoard1Config` and `getBoard2Config` returns:
`BaseOID` from the given base prefix and twelve OIDs from the same-named fields of one
configuration entry; `OnuPhaseStateOID` is not assigned and keeps its zero value. -/
def oltConfigLiteral (base : String) (e : BoardPon) : OltConfig :=
  { BaseOID := base
    OnuIDNameOID := e.OnuIDNameOID
    OnuTypeOID := e.OnuTypeOID
    OnuSerialNumberOID := e.OnuSerialNumberOID
    OnuRxPowerOID := e.OnuRxPowerOID
    OnuTxPowerOID := e.OnuTxPowerOID
    OnuStatusOID := e.OnuStatusOID
    OnuIPAddressOID := e.OnuIPAddressOID
    OnuDescriptionOID := e.OnuDescriptionOID
    OnuLastOnlineOID := e.OnuLastOnlineOID
    OnuLastOfflineOID := e.OnuLastOfflineOID
    OnuLastOfflineReasonOID := e.OnuLastOfflineReasonOID
    OnuGponOpticalDistanceOID := e.OnuGponOpticalDistanceOID }

/-- Function `getBoard1Config`: a `switch` over the port with cases 1 to 16; the
`default` branch logs "Invalid PON ID" and returns the nil pointer (`none`). -/
def getBoard1Config (cfg : Config) (ponID : Int) : Option OltConfig :=
  match ponID with
  | 1 => some (oltConfigLiteral cfg.OltCfg.BaseOID1 cfg.Board1Pon1)
  | 2 => some (oltConfigLiteral cfg.OltCfg.BaseOID1 cfg.Board1Pon2)
  | 3 => some (oltConfigLiteral cfg.OltCfg.BaseOID1 cfg.Board1Pon3)
  | 4 => some (oltConfigLiteral cfg.OltCfg.BaseOID1 cfg.Board1Pon4)
  | 5 => some (oltConfigLiteral cfg.OltCfg.BaseOID1 cfg.Board1Pon5)
  | 6 => some (oltConfigLiteral cfg.OltCfg.BaseOID1 cfg.Board1Pon6)
  | 7 => some (oltConfigLiteral cfg.OltCfg.BaseOID1 cfg.Board1Pon7)
  | 8 => some (oltConfigLiteral cfg.OltCfg.BaseOID1 cfg.Board1Pon8)
  | 9 => some (oltConfigLiteral cfg.OltCfg.BaseOID1 cfg.Board1Pon9)
  | 10 => some (oltConfigLiteral cfg.OltCfg.BaseOID1 cfg.Board1Pon10)
  | 11 => some (oltConfigLiteral cfg.OltCfg.BaseOID1 cfg.Board1Pon11)
  | 12 => some (oltConfigLiteral cfg.OltCfg.BaseOID1 cfg.Board1Pon12)
  | 13 => some (oltConfigLiteral cfg.OltCfg.BaseOID1 cfg.Board1Pon13)
  | 14 => some (oltConfigLiteral cfg.OltCfg.BaseOID1 cfg.Board1Pon14)
  | 15 => some (oltConfigLiteral cfg.OltCfg.BaseOID1 cfg.Board1Pon15)
  | 16 => some (oltConfigLiteral cfg.OltCfg.BaseOID1 cfg.Board1Pon16)
  | _ => none

/-- Function `getBoard2Config`: a `switch` over the port with cases 1 to 16; the
`default` branch logs "Invalid PON ID" and returns the nil pointer (`none`). -/
def getBoard2Config (cfg : Config) (ponID : Int) : Option OltConfig :=
  match ponID with
  | 1 => some (oltConfigLiteral cfg.OltCfg.BaseOID1 cfg.Board2Pon1)
  | 2 => some (oltConfigLiteral cfg.OltCfg.BaseOID1 cfg.Board2Pon2)
  | 3 => some (oltConfigLiteral cfg.OltCfg.BaseOID1 cfg.Board2Pon3)
  | 4 => some (oltConfigLiteral cfg.OltCfg.BaseOID1 cfg.Board2Pon4)
  | 5 => some (oltConfigLiteral cfg.OltCfg.BaseOID1 cfg.Board2Pon5)
  | 6 => some (oltConfigLiteral cfg.OltCfg.BaseOID1 cfg.Board2Pon6)
  | 7 => some (oltConfigLiteral cfg.OltCfg.BaseOID1 cfg.Board2Pon7)
  | 8 => some (oltConfigLiteral cfg.OltCfg.BaseOID1 cfg.Board2Pon8)
  | 9 => some (oltConfigLiteral cfg.OltCfg.BaseOID1 cfg.Board2Pon9)
  | 10 => some (oltConfigLiteral cfg.OltCfg.BaseOID1 cfg.Board2Pon10)
  | 11 => some (oltConfigLiteral cfg.OltCfg.BaseOID1 cfg.Board2Pon11)
  | 12 => some (oltConfigLiteral cfg.OltCfg.BaseOID1 cfg.Board2Pon12)
  | 13 => some (oltConfigLiteral cfg.OltCfg.BaseOID1 cfg.Board2Pon13)
  | 14 => some (oltConfigLiteral cfg.OltCfg.BaseOID1 cfg.Board2Pon14)
  | 15 => some (oltConfigLiteral cfg.OltCfg.BaseOID1 cfg.Board2Pon15)
  | 16 => some (oltConfigLiteral cfg.OltCfg.BaseOID1 cfg.Board2Pon16)
  | _ => none

/-- Function `getBoardConfig`: dispatch on the board; boards other than 1 and 2 give
the error "invalid Board ID". The pointer of boards 1 and 2 is passed on with a nil error,
also when it is nil. -/
def getBoardConfig (cfg : Config) (boardID ponID : Int) : Option OltConfig × Option GoError :=
  match boardID with
  | 1 => (getBoard1Config cfg ponID, none)
  | 2 => (getBoard2Config cfg ponID, none)
  | _ => (none, some ⟨"invalid Board ID"⟩)

/-- Function `getOltConfig`: forwards `getBoardConfig`, replacing the profile by nil when
an error is reported. -/
def getOltConfig (cfg : Config) (boardID ponID : Int) : Option OltConfig × Option GoError :=
  match getBoardConfig cfg boardID ponID with
  | (_, some err) => (none, some err)
  | (c, none) => (c, none)

/-! ## Collaborators and effects -/

/-- The dynamic type of `gosnmp.SnmpPDU.Value` (a Go `interface{}`). -/
inductive SnmpValue where
  | null
  | int (i : Int)
  | bytes (b : List Nat)
  | str (s : String)
deriving DecidableEq, Repr

/-- Struct `gosnmp.SnmpPDU`, with the two fields the service reads. -/
structure SnmpPDU where
  Name : String := ""
  Value : SnmpValue := SnmpValue.null
deriving DecidableEq, Repr

/-- Struct `gosnmp.SnmpPacket`, with the field the service reads. -/
structure SnmpPacket where
  Variables : List SnmpPDU := []
deriving DecidableEq, Repr

/-- Expression `packet.Variables[0].Value`; it is evaluated only on packets that
`getFromSNMPWithSingleflight` returned, which have at least one variable. -/
def SnmpPacket.firstValue (packet : SnmpPacket) : SnmpValue :=
  match packet.Variables with
  | v :: _ => v.Value
  | [] => SnmpValue.null

/-- One call on a collaborator: the Redis repository or the SNMP repository. -/
inductive Event where
  | redisGetONUInfoList (key : String)
  | redisSaveONUInfoList (key : String) (seconds : Int) (payload : Slice ONUInfoPerBoard)
  | redisGetOnuIDCtx (key : String)
  | redisSetOnuIDCtx (key : String) (seconds : Int) (payload : Slice OnuID)
  | snmpWalk (oid : String)
  | snmpGet (oid : String)
deriving DecidableEq, Repr

/-- The calls made so far, oldest first. -/
abbrev Trace := List Event

/-- A cache write. -/
def Event.isCacheWrite : Event → Bool
  | Event.redisSaveONUInfoList _ _ _ => true
  | Event.redisSetOnuIDCtx _ _ _ => true
  | _ => false

/-- A cache read. -/
def Event.isCacheRead : Event → Bool
  | Event.redisGetONUInfoList _ => true
  | Event.redisGetOnuIDCtx _ => true
  | _ => false

/-- A device walk. -/
def Event.isWalk : Event → Bool
  | Event.snmpWalk _ => true
  | _ => false

/-- A single-object device fetch. -/
def Event.isGet : Event → Bool
  | Event.snmpGet _ => true
  | _ => false

/-- The decoders of package `internal/utils` the service calls. Their file is not part of
the sources at hand, so they are parameters of the model. -/
structure Utils where
  ExtractONUID : String → String
  ExtractIDOnuID : String → Int
  ExtractName : SnmpValue → String
  ExtractSerialNumber : SnmpValue → String
  ConvertAndMultiply : SnmpValue → String × Option GoError
  ExtractAndGetStatus : SnmpValue → String

/-- Everything an `onuUsecase` is built from, plus the behaviour of what lies behind its
interfaces. Each collaborator answers as a function of the calls made so far and of its
arguments, so a repeated call may be answered differently.

* `Walk t oid` is `snmpRepository.Walk`: the PDUs handed to the callback, in order, and the
  returned error. The callbacks of this service always return nil.
* `Get t oid` is `snmpRepository.Get` on the one-element list `[oid]`; the implementation in
  `internal/repository/snmp.go` returns either an error or a packet.
* `GetONUInfoList`, `SaveONUInfoList`, `GetOnuIDCtx`, `SetOnuIDCtx` are the methods of the
  Redis repository.
* `rangeOrder m` is the order in which a `range` over the map `m` visits its entries, which
  Go leaves unspecified. -/
structure Env where
  cfg : Config
  utils : Utils
  Walk : Trace → String → List SnmpPDU × Option GoError
  Get : Trace → String → Except GoError SnmpPacket
  GetONUInfoList : Trace → String → Slice ONUInfoPerBoard × Option GoError
  SaveONUInfoList : Trace → String → Int → Slice ONUInfoPerBoard → Option GoError
  GetOnuIDCtx : Trace → String → Slice OnuID × Option GoError
  SetOnuIDCtx : Trace → String → Int → Slice OnuID → Option GoError
  rangeOrder : List (String × SnmpPDU) → List (String × SnmpPDU)

/-- How a Go call ends: it returns a value or the goroutine aborts with a run-time error. -/
inductive Outcome (α : Type) where
  | ret (v : α)
  | abort (reason : String)
deriving DecidableEq, Repr

/-- A finished call of a public operation: how it ended and the calls it made. -/
structure Run (α : Type) where
  out : Outcome α
  trace : Trace

/-- Function `strconv.Itoa`. -/
def itoa (i : Int) : String := toString i

/-- Go `int` arithmetic on a 64-bit platform: the two's-complement representative. -/
def wrap64 (x : Int) : Int :=
  (x + 9223372036854775808) % 18446744073709551616 - 9223372036854775808

/-- Function `sort.Slice(s, func(i, j) bool { return s[i].ID < s[j].ID })`. The library sort
is not stable; the model keeps equal keys in their original order. The sequence of keys of
the result does not depend on that choice. -/
def sortSlice {α : Type} (key : α → Int) (s : Slice α) : Slice α :=
  s.map (List.insertionSort (fun a b => key a ≤ key b))

/-- Slice expression `s[low:high]` for `high ≤ len(s)`: aborts unless `0 ≤ low ≤ high`;
the nil slice stays nil. -/
def subslice {α : Type} (s : Slice α) (low high : Int) : Outcome (Slice α) :=
  if 0 ≤ low ∧ low ≤ high ∧ high ≤ s.len then
    Outcome.ret (s.map (fun l => (l.drop low.toNat).take (high.toNat - low.toNat)))
  else
    Outcome.abort "slice bounds out of range"

/-! ## Single-field fetches -/

/-- Function `getFromSNMPWithSingleflight`: one `Get`; a failed `Get` and a packet without
variables both become an error. -/
def getFromSNMPWithSingleflight (env : Env) (t : Trace) (oid : String) :
    Except GoError SnmpPacket × Trace :=
  match env.Get t oid with
  | Except.error _ => (Except.error ⟨"failed to perform SNMP Get"⟩, t ++ [Event.snmpGet oid])
  | Except.ok packet =>
    if packet.Variables.length = 0 then
      (Except.error ⟨"no variables in the response"⟩, t ++ [Event.snmpGet oid])
    else
      (Except.ok packet, t ++ [Event.snmpGet oid])

/-- Function `getName`. -/
def getName (env : Env) (t : Trace) (OnuIDNameOID onuID : String) : Except GoError String × Trace :=
  let oid := env.cfg.OltCfg.BaseOID1 ++ OnuIDNameOID ++ "." ++ onuID
  match getFromSNMPWithSingleflight env t oid with
  | (Except.error err, t1) => (Except.error err, t1)
  | (Except.ok result, t1) => (Except.ok (env.utils.ExtractName result.firstValue), t1)

/-- Function `getONUType`. -/
def getONUType (env : Env) (t : Trace) (OnuTypeOID onuID : String) : Except GoError String × Trace :=
  let oid := env.cfg.OltCfg.BaseOID2 ++ OnuTypeOID ++ "." ++ onuID
  match getFromSNMPWithSingleflight env t oid with
  | (Except.error err, t1) => (Except.error err, t1)
  | (Except.ok result, t1) => (Except.ok (env.utils.ExtractName result.firstValue), t1)

/-- Function `getSerialNumber`. -/
def getSerialNumber (env : Env) (t : Trace) (OnuSerialNumberOID onuID : String) :
    Except GoError String × Trace :=
  let oid := env.cfg.OltCfg.BaseOID1 ++ OnuSerialNumberOID ++ "." ++ onuID
  match getFromSNMPWithSingleflight env t oid with
  | (Except.error err, t1) => (Except.error err, t1)
  | (Except.ok result, t1) => (Except.ok (env.utils.ExtractSerialNumber result.firstValue), t1)

/-- Function `getRxPower`; the error of `ConvertAndMultiply` is discarded. -/
def getRxPower (env : Env) (t : Trace) (OnuRxPowerOID onuID : String) :
    Except GoError String × Trace :=
  let oid := env.cfg.OltCfg.BaseOID1 ++ OnuRxPowerOID ++ "." ++ onuID ++ ".1"
  match getFromSNMPWithSingleflight env t oid with
  | (Except.error err, t1) => (Except.error err, t1)
  | (Except.ok result, t1) => (Except.ok (env.utils.ConvertAndMultiply result.firstValue).1, t1)

/-- Function `getStatus`. -/
def getStatus (env : Env) (t : Trace) (OnuStatusOID onuID : String) :
    Except GoError String × Trace :=
  let oid := env.cfg.OltCfg.BaseOID1 ++ OnuStatusOID ++ "." ++ onuID
  match getFromSNMPWithSingleflight env t oid with
  | (Except.error err, t1) => (Except.error err, t1)
  | (Except.ok result, t1) => (Except.ok (env.utils.ExtractAndGetStatus result.firstValue), t1)

/-! ## Go maps -/

/-- A Go map as the list of its entries, one per key. -/
abbrev GoMap (κ ν : Type) := List (κ × ν)

/-- Assignment `m[k] = v`: overwrite the entry of `k` or add one. -/
def GoMap.set {κ ν : Type} [DecidableEq κ] (m : GoMap κ ν) (k : κ) (v : ν) : GoMap κ ν :=
  if m.any (fun e => decide (e.1 = k)) then
    m.map (fun e => if e.1 = k then (k, v) else e)
  else
    m ++ [(k, v)]

/-- The `ok` of `_, ok := m[k]`. -/
def GoMap.has {κ ν : Type} [DecidableEq κ] (m : GoMap κ ν) (k : κ) : Bool :=
  m.any (fun e => decide (e.1 = k))

/-! ## Port listing (`GetByBoardIDAndPonID`) -/

/-- Body of the loop `for _, pdu := range snmpDataMap` of `GetByBoardIDAndPonID`: build
the record of one entry; each of the four fetches fills its field only when it succeeds. -/
def onuInfoOfPdu (env : Env) (oltConfig : OltConfig) (boardID ponID : Int) (t : Trace)
    (pdu : SnmpPDU) : ONUInfoPerBoard × Trace :=
  let onuInfo : ONUInfoPerBoard :=
    { Board := boardID, PON := ponID, ID := env.utils.ExtractIDOnuID pdu.Name,
      Name := env.utils.ExtractName pdu.Value }
  let r1 := getONUType env t oltConfig.OnuTypeOID (itoa onuInfo.ID)
  let onuInfo := match r1.1 with
    | Except.ok onuType => { onuInfo with OnuType := onuType }
    | Except.error _ => onuInfo
  let r2 := getSerialNumber env r1.2 oltConfig.OnuSerialNumberOID (itoa onuInfo.ID)
  let onuInfo := match r2.1 with
    | Except.ok sn => { onuInfo with SerialNumber := sn }
    | Except.error _ => onuInfo
  let r3 := getRxPower env r2.2 oltConfig.OnuRxPowerOID (itoa onuInfo.ID)
  let onuInfo := match r3.1 with
    | Except.ok rx => { onuInfo with RXPower := rx }
    | Except.error _ => onuInfo
  let r4 := getStatus env r3.2 oltConfig.OnuStatusOID (itoa onuInfo.ID)
  let onuInfo := match r4.1 with
    | Except.ok status => { onuInfo with Status := status }
    | Except.error _ => onuInfo
  (onuInfo, r4.2)

/-- The loop `for _, pdu := range snmpDataMap` of `GetByBoardIDAndPonID` over the entries
in visiting order, appending to `onuInformationList`. -/
def onuInfoLoop (env : Env) (oltConfig : OltConfig) (boardID ponID : Int) :
    Trace → List (String × SnmpPDU) → Slice ONUInfoPerBoard → Slice ONUInfoPerBoard × Trace
  | t, [], acc => (acc, t)
  | t, e :: rest, acc =>
    let r := onuInfoOfPdu env oltConfig boardID ponID t e.2
    onuInfoLoop env oltConfig boardID ponID r.2 rest (acc.push r.1)

/-- Function `GetByBoardIDAndPonID`. The coalescing group runs the closure once per call
here (one caller); the wrapper returns what the closure returns. -/
def GetByBoardIDAndPonID (env : Env) (boardID ponID : Int) :
    Run (Slice ONUInfoPerBoard × Option GoError) :=
  match getOltConfig env.cfg boardID ponID with
  | (_, some err) => ⟨Outcome.ret (none, some err), []⟩
  | (oltConfig, none) =>
    let redisKey := "board_" ++ itoa boardID ++ "_pon_" ++ itoa ponID
    let cached := env.GetONUInfoList [] redisKey
    let t1 : Trace := [Event.redisGetONUInfoList redisKey]
    if cached.2 = none ∧ cached.1 ≠ none then
      ⟨Outcome.ret (cached.1, none), t1⟩
    else
      match oltConfig with
      | none => ⟨Outcome.abort "nil pointer dereference", t1⟩
      | some oc =>
        let oid := oc.BaseOID ++ oc.OnuIDNameOID
        let walked := env.Walk t1 oid
        let t2 := t1 ++ [Event.snmpWalk oid]
        let snmpDataMap : GoMap String SnmpPDU :=
          walked.1.foldl (fun m pdu => m.set (env.utils.ExtractONUID pdu.Name) pdu) []
        match walked.2 with
        | some err => ⟨Outcome.ret (none, some err), t2⟩
        | none =>
          let built := onuInfoLoop env oc boardID ponID t2 (env.rangeOrder snmpDataMap) none
          let onuInformationList := sortSlice ONUInfoPerBoard.ID built.1
          let t3 := built.2 ++ [Event.redisSaveONUInfoList redisKey 300 onuInformationList]
          match env.SaveONUInfoList built.2 redisKey 300 onuInformationList with
          | some _ => ⟨Outcome.ret (onuInformationList, none), t3⟩
          | none => ⟨Outcome.ret (onuInformationList, none), t3⟩

/-! ## Free-slot inventory (`GetEmptyOnuID`, `UpdateEmptyOnuID`) -/

/-- Function `GetEmptyOnuID`. -/
def GetEmptyOnuID (env : Env) (boardID ponID : Int) : Run (Slice OnuID × Option GoError) :=
  match getOltConfig env.cfg boardID ponID with
  | (_, some err) => ⟨Outcome.ret (none, some err), []⟩
  | (oltConfig, none) =>
    let redisKey := "board_" ++ itoa boardID ++ "_pon_" ++ itoa ponID ++ "_empty_onu_id"
    let cached := env.GetOnuIDCtx [] redisKey
    let t1 : Trace := [Event.redisGetOnuIDCtx redisKey]
    if cached.2 = none ∧ cached.1 ≠ none then
      ⟨Outcome.ret (cached.1, none), t1⟩
    else
      match oltConfig with
      | none => ⟨Outcome.abort "nil pointer dereference", t1⟩
      | some oc =>
        let snmpOID := oc.BaseOID ++ oc.OnuIDNameOID
        let walked := env.Walk t1 snmpOID
        let t2 := t1 ++ [Event.snmpWalk snmpOID]
        let emptyOnuIDList : List OnuID :=
          walked.1.foldl
            (fun acc pdu => acc ++ [{ Board := boardID, PON := ponID,
                                      ID := env.utils.ExtractIDOnuID pdu.Name }]) []
        match walked.2 with
        | some err => ⟨Outcome.ret (none, some err), t2⟩
        | none =>
          let numbersToRemove : GoMap Int Bool :=
            emptyOnuIDList.foldl (fun m onuInfo => m.set onuInfo.ID true) []
          let emptyOnuIDList : List OnuID :=
            (List.range' 1 128).foldl
              (fun acc (i : Nat) =>
                if !(numbersToRemove.has (i : Int)) then
                  acc ++ [{ Board := boardID, PON := ponID, ID := (i : Int) }]
                else acc) []
          let emptyOnuIDList := sortSlice OnuID.ID (some emptyOnuIDList)
          let t3 := t2 ++ [Event.redisSetOnuIDCtx redisKey 300 emptyOnuIDList]
          match env.SetOnuIDCtx t2 redisKey 300 emptyOnuIDList with
          | some err => ⟨Outcome.ret (none, some err), t3⟩
          | none => ⟨Outcome.ret (emptyOnuIDList, none), t3⟩

/-- Function `UpdateEmptyOnuID`; it returns only an error. -/
def UpdateEmptyOnuID (env : Env) (boardID ponID : Int) : Run (Option GoError) :=
  match getOltConfig env.cfg boardID ponID with
  | (_, some err) => ⟨Outcome.ret (some err), []⟩
  | (none, none) => ⟨Outcome.abort "nil pointer dereference", []⟩
  | (some oc, none) =>
    let snmpOID := oc.BaseOID ++ oc.OnuIDNameOID
    let walked := env.Walk [] snmpOID
    let t1 : Trace := [Event.snmpWalk snmpOID]
    let emptyOnuIDList : List OnuID :=
      walked.1.foldl
        (fun acc pdu => acc ++ [{ Board := boardID, PON := ponID,
                                  ID := env.utils.ExtractIDOnuID pdu.Name }]) []
    match walked.2 with
    | some _ => ⟨Outcome.ret (some ⟨"failed to perform SNMP Walk"⟩), t1⟩
    | none =>
      let numbersToRemove : GoMap Int Bool :=
        emptyOnuIDList.foldl (fun m onuInfo => m.set onuInfo.ID true) []
      let emptyOnuIDList : List OnuID :=
        (List.range' 1 128).foldl
          (fun acc (i : Nat) =>
            if !(numbersToRemove.has (i : Int)) then
              acc ++ [{ Board := boardID, PON := ponID, ID := (i : Int) }]
            else acc) []
      let emptyOnuIDList := sortSlice OnuID.ID (some emptyOnuIDList)
      let redisKey := "board_" ++ itoa boardID ++ "_pon_" ++ itoa ponID ++ "_empty_onu_id"
      let t2 := t1 ++ [Event.redisSetOnuIDCtx redisKey 300 emptyOnuIDList]
      match env.SetOnuIDCtx t1 redisKey 300 emptyOnuIDList with
      | some _ => ⟨Outcome.ret (some ⟨"failed to set data to Redis"⟩), t2⟩
      | none => ⟨Outcome.ret none, t2⟩

/-! ## Identifier and serial listing (`GetOnuIDAndSerialNumber`) -/

/-- The loop `for _, onuInfo := range onuIDList` of `GetOnuIDAndSerialNumber`: an entry is
appended only when its serial number was fetched. -/
def serialLoop (env : Env) (oltConfig : OltConfig) (boardID ponID : Int) :
    Trace → List OnuID → Slice OnuSerialNumber → Slice OnuSerialNumber × Trace
  | t, [], acc => (acc, t)
  | t, onuInfo :: rest, acc =>
    let r := getSerialNumber env t oltConfig.OnuSerialNumberOID (itoa onuInfo.ID)
    match r.1 with
    | Except.ok onuSerialNumber =>
      serialLoop env oltConfig boardID ponID r.2 rest
        (acc.push { Board := boardID, PON := ponID, ID := onuInfo.ID,
                    SerialNumber := onuSerialNumber })
    | Except.error _ => serialLoop env oltConfig boardID ponID r.2 rest acc

/-- Function `GetOnuIDAndSerialNumber`. -/
def GetOnuIDAndSerialNumber (env : Env) (boardID ponID : Int) :
    Run (Slice OnuSerialNumber × Option GoError) :=
  match getOltConfig env.cfg boardID ponID with
  | (_, some err) => ⟨Outcome.ret (none, some err), []⟩
  | (none, none) => ⟨Outcome.abort "nil pointer dereference", []⟩
  | (some oc, none) =>
    let snmpOID := oc.BaseOID ++ oc.OnuIDNameOID
    let walked := env.Walk [] snmpOID
    let t1 : Trace := [Event.snmpWalk snmpOID]
    let onuIDList : List OnuID :=
      walked.1.foldl
        (fun acc pdu => acc ++ [{ Board := boardID, PON := ponID,
                                  ID := env.utils.ExtractIDOnuID pdu.Name }]) []
    match walked.2 with
    | some err => ⟨Outcome.ret (none, some err), t1⟩
    | none =>
      let built := serialLoop env oc boardID ponID t1 onuIDList none
      ⟨Outcome.ret (sortSlice OnuSerialNumber.ID built.1, none), built.2⟩

/-! ## Paginated listing (`GetByBoardIDAndPonIDWithPagination`) -/

/-- Body of the loop `for _, onuID := range onlyOnuIDList` of
`GetByBoardIDAndPonIDWithPagination`: the record of one id, with five fetches. -/
def pageInfoOfID (env : Env) (oltConfig : OltConfig) (boardID ponID : Int) (t : Trace)
    (onuID : OnuOnlyID) : ONUInfoPerBoard × Trace :=
  let onuInfo : ONUInfoPerBoard := { Board := boardID, PON := ponID, ID := onuID.ID }
  let r0 := getName env t oltConfig.OnuIDNameOID (itoa onuInfo.ID)
  let onuInfo := match r0.1 with
    | Except.ok onuName => { onuInfo with Name := onuName }
    | Except.error _ => onuInfo
  let r1 := getONUType env r0.2 oltConfig.OnuTypeOID (itoa onuInfo.ID)
  let onuInfo := match r1.1 with
    | Except.ok onuType => { onuInfo with OnuType := onuType }
    | Except.error _ => onuInfo
  let r2 := getSerialNumber env r1.2 oltConfig.OnuSerialNumberOID (itoa onuInfo.ID)
  let onuInfo := match r2.1 with
    | Except.ok onuSerialNumber => { onuInfo with SerialNumber := onuSerialNumber }
    | Except.error _ => onuInfo
  let r3 := getRxPower env r2.2 oltConfig.OnuRxPowerOID (itoa onuInfo.ID)
  let onuInfo := match r3.1 with
    | Except.ok onuRXPower => { onuInfo with RXPower := onuRXPower }
    | Except.error _ => onuInfo
  let r4 := getStatus env r3.2 oltConfig.OnuStatusOID (itoa onuInfo.ID)
  let onuInfo := match r4.1 with
    | Except.ok onuStatus => { onuInfo with Status := onuStatus }
    | Except.error _ => onuInfo
  (onuInfo, r4.2)

/-- The loop `for _, onuID := range onlyOnuIDList` of `GetByBoardIDAndPonIDWithPagination`,
appending to `onuInformationList`. -/
def pageInfoLoop (env : Env) (oltConfig : OltConfig) (boardID ponID : Int) :
    Trace → List OnuOnlyID → Slice ONUInfoPerBoard → Slice ONUInfoPerBoard × Trace
  | t, [], acc => (acc, t)
  | t, onuID :: rest, acc =>
    let r := pageInfoOfID env oltConfig boardID ponID t onuID
    pageInfoLoop env oltConfig boardID ponID r.2 rest (acc.push r.1)

/-- The closure `GetByBoardIDAndPonIDWithPagination` hands to the coalescing group. -/
def paginationClosure (env : Env) (boardID ponID pageIndex pageSize : Int) :
    Run (Option PaginationResult × Option GoError) :=
  match getOltConfig env.cfg boardID ponID with
  | (_, some err) => ⟨Outcome.ret (none, some err), []⟩
  | (none, none) => ⟨Outcome.abort "nil pointer dereference", []⟩
  | (some oc, none) =>
    let snmpOID := oc.BaseOID ++ oc.OnuIDNameOID
    let walked := env.Walk [] snmpOID
    let t1 : Trace := [Event.snmpWalk snmpOID]
    let onlyOnuIDList : Slice OnuOnlyID :=
      walked.1.foldl (fun acc pdu => acc.push { ID := env.utils.ExtractIDOnuID pdu.Name }) none
    match walked.2 with
    | some err => ⟨Outcome.ret (none, some err), t1⟩
    | none =>
      let count := onlyOnuIDList.len
      let startIndex := wrap64 (wrap64 (pageIndex - 1) * pageSize)
      let endIndex := wrap64 (startIndex + pageSize)
      let endIndex := if endIndex > onlyOnuIDList.len then onlyOnuIDList.len else endIndex
      match subslice onlyOnuIDList startIndex endIndex with
      | Outcome.abort reason => ⟨Outcome.abort reason, t1⟩
      | Outcome.ret onlyOnuIDList =>
        let built := pageInfoLoop env oc boardID ponID t1 onlyOnuIDList.elems none
        let onuInformationList := sortSlice ONUInfoPerBoard.ID built.1
        ⟨Outcome.ret (some { OnuInformationList := onuInformationList, Count := count }, none),
          built.2⟩

/-- Function `GetByBoardIDAndPonIDWithPagination`: `(nil, 0)` when the closure reports an
error, else the list and the count of its result. -/
def GetByBoardIDAndPonIDWithPagination (env : Env) (boardID ponID pageIndex pageSize : Int) :
    Run (Slice ONUInfoPerBoard × Int) :=
  let r := paginationClosure env boardID ponID pageIndex pageSize
  match r.out with
  | Outcome.abort reason => ⟨Outcome.abort reason, r.trace⟩
  | Outcome.ret (_, some _) => ⟨Outcome.ret (none, 0), r.trace⟩
  | Outcome.ret (some paginationResult, none) =>
    ⟨Outcome.ret (paginationResult.OnuInformationList, paginationResult.Count), r.trace⟩
  | Outcome.ret (none, none) => ⟨Outcome.abort "interface conversion", r.trace⟩

/-! ## Sample collaborators for evaluating the operations -/

/-- The number written in decimal after the last dot of an object name. -/
def trailingNumber (name : String) : Int :=
  let tail := (name.data.reverse.takeWhile (fun c => c != '.')).reverse
  ((tail.foldl (fun acc c => acc * 10 + (c.toNat - 48)) 0 : Nat) : Int)

/-- Decoders for the samples: the id of a PDU is the trailing number of its name. -/
def sampleUtils : Utils :=
  { ExtractONUID := fun name => name
    ExtractIDOnuID := trailingNumber
    ExtractName := fun v => match v with
      | SnmpValue.str s => s
      | _ => ""
    ExtractSerialNumber := fun v => match v with
      | SnmpValue.str s => s
      | _ => ""
    ConvertAndMultiply := fun v => match v with
      | SnmpValue.int i => (toString i, none)
      | _ => ("", some ⟨"not an integer"⟩)
    ExtractAndGetStatus := fun v => match v with
      | SnmpValue.int 1 => "Online"
      | _ => "Offline" }

/-- The PDUs a walk delivers for the given ids, in that order. -/
def pdusOfIds (ids : List Int) : List SnmpPDU :=
  ids.map (fun i => { Name := itoa i, Value := SnmpValue.str "onu" })

/-- A device whose walk delivers the given ids and ends with `walkErr`, and which answers no
single fetch, over a Redis that is empty and whose writes end with `writeErr`. -/
def sampleEnv (ids : List Int) (walkErr writeErr : Option GoError) : Env :=
  { cfg := {}
    utils := sampleUtils
    Walk := fun _ _ => (pdusOfIds ids, walkErr)
    Get := fun _ _ => Except.error ⟨"timeout"⟩
    GetONUInfoList := fun _ _ => (none, none)
    SaveONUInfoList := fun _ _ _ _ => writeErr
    GetOnuIDCtx := fun _ _ => (none, none)
    SetOnuIDCtx := fun _ _ _ _ => writeErr
    rangeOrder := fun m => m }

/-! ## Vocabulary of the statements -/

/-- The ids a walk delivers: `ExtractIDOnuID` of each PDU name, in delivery order. -/
def walkedIds (env : Env) (pdus : List SnmpPDU) : List Int :=
  pdus.map (fun pdu => env.utils.ExtractIDOnuID pdu.Name)

/-- The inventory reconciler as the specification words it: the ids 1 to 128, ascending,
without the discovered ones, each tagged with the board and the port. -/
def freeSlots (boardID ponID : Int) (discoveredIds : List Int) : List OnuID :=
  ((List.range' 1 128).filter (fun (n : Nat) => !(discoveredIds.contains (n : Int)))).map
    (fun (n : Nat) => { Board := boardID, PON := ponID, ID := (n : Int) })

/-- The Redis key of the free-slot list of a port. -/
def emptyOnuIDKey (boardID ponID : Int) : String :=
  "board_" ++ itoa boardID ++ "_pon_" ++ itoa ponID ++ "_empty_onu_id"

/-- The Redis key of the listing of a port. -/
def onuInfoKey (boardID ponID : Int) : String :=
  "board_" ++ itoa boardID ++ "_pon_" ++ itoa ponID

/-- The page as the specification words it: the ids whose rank in ascending id order over
all discovered ids is `(pageIndex-1)*pageSize + 1` to `pageIndex*pageSize`. -/
def rankedPage (discoveredIds : List Int) (pageIndex pageSize : Int) : List Int :=
  ((discoveredIds.insertionSort (fun x y => x ≤ y)).drop
    ((pageIndex - 1) * pageSize).toNat).take pageSize.toNat

/-- The ids 1 to `n` in ascending order. -/
def idsUpTo (n : Nat) : List Int := (List.range' 1 n).map Int.ofNat

/-- No call of the trace writes the cache. -/
def noCacheWrite (t : Trace) : Prop := ∀ e ∈ t, e.isCacheWrite = false

/-- No call of the trace touches the device. -/
def noDeviceCall (t : Trace) : Prop := ∀ e ∈ t, e.isWalk = false ∧ e.isGet = false

/-! ## Terminal detail (`GetByBoardIDPonIDAndOnuID`) -/

/-- Struct `model.ONUCustomerInfo`. -/
structure ONUCustomerInfo where
  Board : Int := 0
  PON : Int := 0
  ID : Int := 0
  Name : String := ""
  Description : String := ""
  OnuType : String := ""
  SerialNumber : String := ""
  RXPower : String := ""
  TXPower : String := ""
  Status : String := ""
  IPAddress : String := ""
  LastOnline : String := ""
  LastOffline : String := ""
  Uptime : String := ""
  LastDownTimeDuration : String := ""
  LastOfflineReason : String := ""
  GponOpticalDistance : String := ""
  PhaseState : String := ""
deriving DecidableEq, Repr

/-- What the detail operation uses beyond `Env`: four more decoders of `internal/utils`
(their file is not part of the sources at hand) and the clock of package `time`.

* `timeParse s` is `time.Parse("2006-01-02 15:04:05", s)`, the instant in nanoseconds since
  the Unix epoch.
* `timeNow t` is `time.Now()` read after the calls `t`, in nanoseconds since the Unix epoch.
* `ConvertDurationToString d` takes a `time.Duration`, a number of nanoseconds. -/
structure DetailLib where
  ExtractLastOfflineReason : SnmpValue → String
  ExtractGponOpticalDistance : SnmpValue → String
  ConvertByteArrayToDateTime : List Nat → String × Option GoError
  ConvertDurationToString : Int → String
  timeParse : String → Except GoError Int
  timeNow : Trace → Int

/-- Method `Time.Sub`: the difference as a `Duration`, saturated at the ends of the 64-bit
range. -/
def timeSub (t u : Int) : Int :=
  if t - u > 9223372036854775807 then 9223372036854775807
  else if t - u < -9223372036854775808 then -9223372036854775808
  else t - u

/-- Function `getTxPower`; the error of `ConvertAndMultiply` is discarded. -/
def getTxPower (env : Env) (t : Trace) (OnuTxPowerOID onuID : String) :
    Except GoError String × Trace :=
  let oid := env.cfg.OltCfg.BaseOID2 ++ OnuTxPowerOID ++ "." ++ onuID ++ ".1"
  match getFromSNMPWithSingleflight env t oid with
  | (Except.error err, t1) => (Except.error err, t1)
  | (Except.ok result, t1) => (Except.ok (env.utils.ConvertAndMultiply result.firstValue).1, t1)

/-- Function `getIPAddress`. -/
def getIPAddress (env : Env) (t : Trace) (OnuIPAddressOID onuID : String) :
    Except GoError String × Trace :=
  let oid := env.cfg.OltCfg.BaseOID2 ++ OnuIPAddressOID ++ "." ++ onuID ++ ".1"
  match getFromSNMPWithSingleflight env t oid with
  | (Except.error err, t1) => (Except.error err, t1)
  | (Except.ok result, t1) => (Except.ok (env.utils.ExtractName result.firstValue), t1)

/-- Function `getDescription`. -/
def getDescription (env : Env) (t : Trace) (OnuDescriptionOID onuID : String) :
    Except GoError String × Trace :=
  let oid := env.cfg.OltCfg.BaseOID1 ++ OnuDescriptionOID ++ "." ++ onuID
  match getFromSNMPWithSingleflight env t oid with
  | (Except.error err, t1) => (Except.error err, t1)
  | (Except.ok result, t1) => (Except.ok (env.utils.ExtractName result.firstValue), t1)

/-- Function `getLastOnline`. The value of the first variable is converted by the unchecked
type assertion `.([]byte)`, which aborts on any other dynamic type; the pair of
`ConvertByteArrayToDateTime` is returned as it is. -/
def getLastOnline (env : Env) (lib : DetailLib) (t : Trace) (OnuLastOnlineOID onuID : String) :
    Outcome (String × Option GoError) × Trace :=
  let oid := env.cfg.OltCfg.BaseOID1 ++ OnuLastOnlineOID ++ "." ++ onuID
  match getFromSNMPWithSingleflight env t oid with
  | (Except.error err, t1) => (Outcome.ret ("", some err), t1)
  | (Except.ok result, t1) =>
    match result.firstValue with
    | SnmpValue.bytes value => (Outcome.ret (lib.ConvertByteArrayToDateTime value), t1)
    | _ => (Outcome.abort "interface conversion: interface is not []uint8", t1)

/-- Function `getLastOffline`: its own `Get`, then the same unchecked type assertion. -/
def getLastOffline (env : Env) (lib : DetailLib) (t : Trace) (OnuLastOfflineOID onuID : String) :
    Outcome (String × Option GoError) × Trace :=
  let baseOID := env.cfg.OltCfg.BaseOID1
  let oid := baseOID ++ OnuLastOfflineOID ++ "." ++ onuID
  match env.Get t oid with
  | Except.error _ =>
    (Outcome.ret ("", some ⟨"failed to perform SNMP Get"⟩), t ++ [Event.snmpGet oid])
  | Except.ok resultData =>
    match resultData.Variables with
    | v :: _ =>
      match v.Value with
      | SnmpValue.bytes value =>
        (Outcome.ret (lib.ConvertByteArrayToDateTime value), t ++ [Event.snmpGet oid])
      | _ =>
        (Outcome.abort "interface conversion: interface is not []uint8",
          t ++ [Event.snmpGet oid])
    | [] =>
      (Outcome.ret ("", some ⟨"no variables in the response"⟩), t ++ [Event.snmpGet oid])

/-- Function `getLastOfflineReason`. -/
def getLastOfflineReason (env : Env) (lib : DetailLib) (t : Trace)
    (OnuLastOfflineReasonOID onuID : String) : Except GoError String × Trace :=
  let oid := env.cfg.OltCfg.BaseOID1 ++ OnuLastOfflineReasonOID ++ "." ++ onuID
  match getFromSNMPWithSingleflight env t oid with
  | (Except.error err, t1) => (Except.error err, t1)
  | (Except.ok result, t1) => (Except.ok (lib.ExtractLastOfflineReason result.firstValue), t1)

/-- Function `getOnuGponOpticalDistance`. -/
def getOnuGponOpticalDistance (env : Env) (lib : DetailLib) (t : Trace)
    (OnuGponOpticalDistanceOID onuID : String) : Except GoError String × Trace :=
  let oid := env.cfg.OltCfg.BaseOID1 ++ OnuGponOpticalDistanceOID ++ "." ++ onuID
  match getFromSNMPWithSingleflight env t oid with
  | (Except.error err, t1) => (Except.error err, t1)
  | (Except.ok result, t1) => (Except.ok (lib.ExtractGponOpticalDistance result.firstValue), t1)

/-- Function `getUptimeDuration`: now minus the parsed last-online instant, plus seven hours
(25200000000000 nanoseconds); an error when the string does not parse. -/
def getUptimeDuration (lib : DetailLib) (t : Trace) (lastOnline : String) :
    Except GoError String :=
  let currentTime := lib.timeNow t
  match lib.timeParse lastOnline with
  | Except.error err => Except.error err
  | Except.ok lastOnlineTime =>
    let duration := wrap64 (timeSub currentTime lastOnlineTime + 25200000000000)
    Except.ok (lib.ConvertDurationToString duration)

/-- Function `getLastDownDuration`: the parsed last-online instant minus the parsed
last-offline instant; an error when either string does not parse. -/
def getLastDownDuration (lib : DetailLib) (lastOffline lastOnline : String) :
    Except GoError String :=
  match lib.timeParse lastOffline with
  | Except.error err => Except.error err
  | Except.ok lastOfflineTime =>
    match lib.timeParse lastOnline with
    | Except.error err => Except.error err
    | Except.ok lastOnlineTime =>
      let duration := timeSub lastOnlineTime lastOfflineTime
      Except.ok (lib.ConvertDurationToString duration)

/-- One statement of the form
`if v, err := u.getX(oid, strconv.Itoa(onuInfo.ID)); err == nil { onuInfo.X = v }`:
the fetch at the id of the record, then the assignment when the fetch succeeded. -/
def fetchStep (fetch : Trace → String → Except GoError String × Trace)
    (assign : ONUCustomerInfo → String → ONUCustomerInfo)
    (s : ONUCustomerInfo × Trace) : ONUCustomerInfo × Trace :=
  match (fetch s.2 (itoa s.1.ID)).1 with
  | Except.ok v => (assign s.1 v, (fetch s.2 (itoa s.1.ID)).2)
  | Except.error _ => (s.1, (fetch s.2 (itoa s.1.ID)).2)

/-- Statement `if uptime, err := u.getUptimeDuration(onuInfo.LastOnline); err == nil {...}`. -/
def uptimeStep (lib : DetailLib) (t : Trace) (onuInfo : ONUCustomerInfo) : ONUCustomerInfo :=
  match getUptimeDuration lib t onuInfo.LastOnline with
  | Except.ok uptime => { onuInfo with Uptime := uptime }
  | Except.error _ => onuInfo

/-- Statement `if downtime, err := u.getLastDownDuration(onuInfo.LastOffline,
onuInfo.LastOnline); err == nil {...}`. -/
def lastDownStep (lib : DetailLib) (onuInfo : ONUCustomerInfo) : ONUCustomerInfo :=
  match getLastDownDuration lib onuInfo.LastOffline onuInfo.LastOnline with
  | Except.ok downtime => { onuInfo with LastDownTimeDuration := downtime }
  | Except.error _ => onuInfo

/-- The last four steps of the loop body of `GetByBoardIDPonIDAndOnuID`, after the two
timestamp fetches: uptime, last-down duration, offline reason and optical distance. -/
def detailTail (env : Env) (lib : DetailLib) (oltConfig : OltConfig) (t : Trace)
    (onuInfo : ONUCustomerInfo) : ONUCustomerInfo × Trace :=
  fetchStep (fun t id => getOnuGponOpticalDistance env lib t oltConfig.OnuGponOpticalDistanceOID id)
      (fun x dist => { x with GponOpticalDistance := dist })
    (fetchStep (fun t id => getLastOfflineReason env lib t oltConfig.OnuLastOfflineReasonOID id)
      (fun x reason => { x with LastOfflineReason := reason })
    (lastDownStep lib (uptimeStep lib t onuInfo), t))

/-- The first steps of the loop body of `GetByBoardIDPonIDAndOnuID`, up to the description:
the record of the entry, then the fetches of type, serial number, rx power, tx power, status,
IP address and description in that order (the innermost step runs first). -/
def detailHead (env : Env) (oltConfig : OltConfig) (boardID ponID : Int) (t : Trace)
    (pdu : SnmpPDU) : ONUCustomerInfo × Trace :=
  fetchStep (fun t id => getDescription env t oltConfig.OnuDescriptionOID id)
      (fun x desc => { x with Description := desc })
    (fetchStep (fun t id => getIPAddress env t oltConfig.OnuIPAddressOID id)
      (fun x ip => { x with IPAddress := ip })
    (fetchStep (fun t id => getStatus env t oltConfig.OnuStatusOID id)
      (fun x status => { x with Status := status })
    (fetchStep (fun t id => getTxPower env t oltConfig.OnuTxPowerOID id)
      (fun x tx => { x with TXPower := tx })
    (fetchStep (fun t id => getRxPower env t oltConfig.OnuRxPowerOID id)
      (fun x rx => { x with RXPower := rx })
    (fetchStep (fun t id => getSerialNumber env t oltConfig.OnuSerialNumberOID id)
      (fun x serial => { x with SerialNumber := serial })
    (fetchStep (fun t id => getONUType env t oltConfig.OnuTypeOID id)
      (fun x onuType => { x with OnuType := onuType })
    ({ Board := boardID, PON := ponID, ID := env.utils.ExtractIDOnuID pdu.Name,
       Name := env.utils.ExtractName pdu.Value }, t)))))))

/-- The assignment guarded by `err == nil` after a timestamp fetch: the string of the pair is
stored when its error is nil. -/
def storeIfNoError (r : String × Option GoError)
    (assign : ONUCustomerInfo → String → ONUCustomerInfo) (x : ONUCustomerInfo) :
    ONUCustomerInfo :=
  match r.2 with
  | none => assign x r.1
  | some _ => x

/-- Body of the loop `for _, pdu := range snmpDataMap` of `GetByBoardIDPonIDAndOnuID`:
`detailHead`, the last-online and the last-offline fetch (either may abort), `detailTail`. A
timestamp is stored only when its fetch and its conversion report no error. -/
def customerInfoOfPdu (env : Env) (lib : DetailLib) (oltConfig : OltConfig)
    (boardID ponID : Int) (t : Trace) (pdu : SnmpPDU) : Outcome ONUCustomerInfo × Trace :=
  let h := detailHead env oltConfig boardID ponID t pdu
  match getLastOnline env lib h.2 oltConfig.OnuLastOnlineOID (itoa h.1.ID) with
  | (Outcome.abort reason, t1) => (Outcome.abort reason, t1)
  | (Outcome.ret lastOnline, t1) =>
    let onuInfo := storeIfNoError lastOnline (fun x v => { x with LastOnline := v }) h.1
    match getLastOffline env lib t1 oltConfig.OnuLastOfflineOID (itoa onuInfo.ID) with
    | (Outcome.abort reason, t2) => (Outcome.abort reason, t2)
    | (Outcome.ret lastOffline, t2) =>
      let r := detailTail env lib oltConfig t2
        (storeIfNoError lastOffline (fun x v => { x with LastOffline := v }) onuInfo)
      (Outcome.ret r.1, r.2)

/-- The loop `for _, pdu := range snmpDataMap` of `GetByBoardIDPonIDAndOnuID`: every entry
overwrites `onuInformationList`, so the record of the entry visited last remains. -/
def customerInfoLoop (env : Env) (lib : DetailLib) (oltConfig : OltConfig)
    (boardID ponID : Int) :
    Trace → List (String × SnmpPDU) → ONUCustomerInfo → Outcome ONUCustomerInfo × Trace
  | t, [], acc => (Outcome.ret acc, t)
  | t, e :: rest, _ =>
    match customerInfoOfPdu env lib oltConfig boardID ponID t e.2 with
    | (Outcome.abort reason, t1) => (Outcome.abort reason, t1)
    | (Outcome.ret onuInfo, t1) => customerInfoLoop env lib oltConfig boardID ponID t1 rest onuInfo

/-- Function `GetByBoardIDPonIDAndOnuID`: no cache; a failed walk becomes the error "failed to
walk OID" beside the zero record. -/
def GetByBoardIDPonIDAndOnuID (env : Env) (lib : DetailLib) (boardID ponID onuID : Int) :
    Run (ONUCustomerInfo × Option GoError) :=
  match getOltConfig env.cfg boardID ponID with
  | (_, some err) => ⟨Outcome.ret ({}, some err), []⟩
  | (none, none) => ⟨Outcome.abort "nil pointer dereference", []⟩
  | (some oc, none) =>
    let oid := oc.BaseOID ++ oc.OnuIDNameOID ++ "." ++ itoa onuID
    let walked := env.Walk [] oid
    let t1 : Trace := [Event.snmpWalk oid]
    let snmpDataMap : GoMap String SnmpPDU :=
      walked.1.foldl (fun m pdu => m.set (env.utils.ExtractONUID pdu.Name) pdu) []
    match walked.2 with
    | some _ => ⟨Outcome.ret ({}, some ⟨"failed to walk OID"⟩), t1⟩
    | none =>
      match customerInfoLoop env lib oc boardID ponID t1 (env.rangeOrder snmpDataMap) {} with
      | (Outcome.abort reason, t2) => ⟨Outcome.abort reason, t2⟩
      | (Outcome.ret onuInformationList, t2) => ⟨Outcome.ret (onuInformationList, none), t2⟩

/-! ## Metrics sweep (`internal/exporter/collector.go`, `internal/exporter/exporter.go`) -/

/-- The gauge vectors of package `exporter`. -/
inductive GaugeName where
  | OnuInfoGauge
  | OnuStatusGauge
  | OnuRxPowerGauge
  | OnuTxPowerGauge
  | OnuUptimeGauge
  | OnuLastDownDurationGauge
  | OnuLastOnlineGauge
  | OnuLastOfflineGauge
  | OnuGponOpticalDistanceGauge
deriving DecidableEq, Repr

/-- The variable label names each gauge vector is declared with in `exporter.go`.
`OnuStatusGauge` is used by `collect` but its declaration is not part of the sources at
hand, so its label names are a parameter. -/
def variableLabels (statusLabels : List String) : GaugeName → List String
  | GaugeName.OnuInfoGauge =>
    ["board", "pon", "onu_id", "name", "serial_number", "onu_type", "description",
     "ip_address", "offline_reason", "status"]
  | GaugeName.OnuStatusGauge => statusLabels
  | GaugeName.OnuRxPowerGauge => ["board", "pon", "onu_id"]
  | GaugeName.OnuTxPowerGauge => ["board", "pon", "onu_id"]
  | GaugeName.OnuUptimeGauge => ["board", "pon", "onu_id"]
  | GaugeName.OnuLastDownDurationGauge => ["board", "pon", "onu_id"]
  | GaugeName.OnuLastOnlineGauge => ["board", "pon", "onu_id"]
  | GaugeName.OnuLastOfflineGauge => ["board", "pon", "onu_id"]
  | GaugeName.OnuGponOpticalDistanceGauge => ["board", "pon", "onu_id"]

/-- A `float64` handed to `Set`, kept symbolic: the conversion of an integer, or the value
`strconv.ParseFloat` returned for a string. -/
inductive Sample where
  | ofInt (n : Int)
  | parsed (s : String)
deriving DecidableEq, Repr

/-- One step of a sweep pass that is visible outside `collect`. -/
inductive SweepEvent where
  | reset (gauge : GaugeName)
  | callGetByBoardIDAndPonID (boardID ponID : Int)
  | callGetByBoardIDPonIDAndOnuID (boardID ponID onuID : Int)
  | gaugeSet (gauge : GaugeName) (labels : GoMap String String) (value : Sample)
deriving DecidableEq, Repr

/-- What `collect` is run against.

* `GetByBoardIDAndPonID`, `GetByBoardIDPonIDAndOnuID` are the methods of the interface
  `usecase.OnuUseCaseInterface`, answering as a function of the steps so far.
* `ParseFloat s` tells whether `strconv.ParseFloat(s, 64)` returns a nil error, and
  `below100 s` whether the value it returns is `< 100`.
* `Sscanf s` is what `fmt.Sscanf(s, "%d days %d hours %d minutes %d seconds", ...)` leaves
  in `days`, `hours`, `minutes`, `seconds`.
* `timeParseUnix s` is `time.Parse("2006-01-02 15:04:05", s)` followed by `Unix()`.
* `OnuStatusGaugeLabels` are the label names `OnuStatusGauge` is declared with. -/
structure SweepEnv where
  GetByBoardIDAndPonID : List SweepEvent → Int → Int → Slice ONUInfoPerBoard × Option GoError
  GetByBoardIDPonIDAndOnuID :
    List SweepEvent → Int → Int → Int → ONUCustomerInfo × Option GoError
  ParseFloat : String → Bool
  below100 : String → Bool
  Sscanf : String → Int × Int × Int × Int
  timeParseUnix : String → Except GoError Int
  OnuStatusGaugeLabels : List String

/-- The state of a pass: the steps made, and the run-time error once the goroutine has
aborted (after which nothing more happens). -/
structure Sweep where
  trace : List SweepEvent := []
  aborted : Option String := none
deriving DecidableEq, Repr

/-- The check of `GaugeVec.GetMetricWith`: the label map must have as many entries as the
vector has variable labels, and an entry for each of them. -/
def labelsMatch (declared : List String) (labels : GoMap String String) : Bool :=
  labels.length == declared.length && declared.all (fun name => labels.has name)

/-- Expression `gauge.With(labels).Set(value)`. `With` aborts where `GetMetricWith` would
return an error, that is when the labels do not match the declaration. -/
def gaugeWithSet (env : SweepEnv) (gauge : GaugeName) (labels : GoMap String String)
    (value : Sample) (s : Sweep) : Sweep :=
  if s.aborted.isSome then s
  else if labelsMatch (variableLabels env.OnuStatusGaugeLabels gauge) labels then
    { s with trace := s.trace ++ [SweepEvent.gaugeSet gauge labels value] }
  else
    { s with aborted := some "label name missing in label map" }

/-- Function `parseDurationStringToSeconds`. -/
def parseDurationStringToSeconds (env : SweepEnv) (durationStr : String) : Sample :=
  let days := (env.Sscanf durationStr).1
  let hours := (env.Sscanf durationStr).2.1
  let minutes := (env.Sscanf durationStr).2.2.1
  let seconds := (env.Sscanf durationStr).2.2.2
  let totalSeconds :=
    wrap64 (wrap64 (wrap64 (wrap64 (wrap64 (days * 24) * 3600) + wrap64 (hours * 3600))
      + wrap64 (minutes * 60)) + seconds)
  Sample.ofInt totalSeconds

/-- Function `parseTimestampStringToEpoch`: 0 when the string does not parse. -/
def parseTimestampStringToEpoch (env : SweepEnv) (timestampStr : String) : Sample :=
  match env.timeParseUnix timestampStr with
  | Except.error _ => Sample.ofInt 0
  | Except.ok unix => Sample.ofInt unix

/-- The map literal `labels` of `collect`. -/
def sweepLabels (detailedOnu : ONUCustomerInfo) : GoMap String String :=
  [("board", itoa detailedOnu.Board), ("pon", itoa detailedOnu.PON),
   ("onu_id", itoa detailedOnu.ID)]

/-- The map literal `infoLabels` of `collect`. -/
def sweepInfoLabels (detailedOnu : ONUCustomerInfo) : GoMap String String :=
  [("board", itoa detailedOnu.Board), ("pon", itoa detailedOnu.PON),
   ("onu_id", itoa detailedOnu.ID), ("name", detailedOnu.Name),
   ("serial_number", detailedOnu.SerialNumber), ("onu_type", detailedOnu.OnuType),
   ("description", detailedOnu.Description), ("ip_address", detailedOnu.IPAddress),
   ("offline_reason", detailedOnu.LastOfflineReason), ("phase_state", detailedOnu.PhaseState)]

/-- The power block of `collect`: inside the phase/status guard, each of the two readings
is published when it parses and the parsed value is below 100. -/
def publishPower (env : SweepEnv) (detailedOnu : ONUCustomerInfo) (s : Sweep) : Sweep :=
  if detailedOnu.PhaseState = "ready" ∨ detailedOnu.Status = "Online" then
    let s :=
      if env.ParseFloat detailedOnu.RXPower then
        if env.below100 detailedOnu.RXPower then
          gaugeWithSet env GaugeName.OnuRxPowerGauge (sweepLabels detailedOnu)
            (Sample.parsed detailedOnu.RXPower) s
        else s
      else s
    if env.ParseFloat detailedOnu.TXPower then
      if env.below100 detailedOnu.TXPower then
        gaugeWithSet env GaugeName.OnuTxPowerGauge (sweepLabels detailedOnu)
          (Sample.parsed detailedOnu.TXPower) s
      else s
    else s
  else s

/-- The part "Update Prometheus Metrics" of `collect` for one detailed terminal. -/
def publish (env : SweepEnv) (detailedOnu : ONUCustomerInfo) (s : Sweep) : Sweep :=
  let s := gaugeWithSet env GaugeName.OnuInfoGauge (sweepInfoLabels detailedOnu)
    (Sample.ofInt 1) s
  let statusValue : Int := if detailedOnu.Status = "Online" then 1 else 0
  let s := gaugeWithSet env GaugeName.OnuStatusGauge (sweepLabels detailedOnu)
    (Sample.ofInt statusValue) s
  let s := publishPower env detailedOnu s
  let s := gaugeWithSet env GaugeName.OnuUptimeGauge (sweepLabels detailedOnu)
    (parseDurationStringToSeconds env detailedOnu.Uptime) s
  let s := gaugeWithSet env GaugeName.OnuLastDownDurationGauge (sweepLabels detailedOnu)
    (parseDurationStringToSeconds env detailedOnu.LastDownTimeDuration) s
  let s := gaugeWithSet env GaugeName.OnuLastOnlineGauge (sweepLabels detailedOnu)
    (parseTimestampStringToEpoch env detailedOnu.LastOnline) s
  let s := gaugeWithSet env GaugeName.OnuLastOfflineGauge (sweepLabels detailedOnu)
    (parseTimestampStringToEpoch env detailedOnu.LastOffline) s
  if env.ParseFloat detailedOnu.GponOpticalDistance then
    gaugeWithSet env GaugeName.OnuGponOpticalDistanceGauge (sweepLabels detailedOnu)
      (Sample.parsed detailedOnu.GponOpticalDistance) s
  else s

/-- One iteration of `for _, discoveredOnu := range discoveredOnus`: the detail call, and
the publication unless it returned an error. -/
def sweepOnu (env : SweepEnv) (boardID ponID : Int) (s : Sweep)
    (discoveredOnu : ONUInfoPerBoard) : Sweep :=
  if s.aborted.isSome then s
  else
    let onuID := discoveredOnu.ID
    let r := env.GetByBoardIDPonIDAndOnuID s.trace boardID ponID onuID
    let s1 : Sweep :=
      { s with trace := s.trace ++ [SweepEvent.callGetByBoardIDPonIDAndOnuID boardID ponID onuID] }
    match r.2 with
    | some _ => s1
    | none => publish env r.1 s1

/-- One iteration of `for ponID := ponMin; ponID <= ponMax; ponID++`: the discovery call,
then the terminals it returned unless it failed or found none. -/
def sweepPon (env : SweepEnv) (boardID : Int) (s : Sweep) (ponID : Int) : Sweep :=
  if s.aborted.isSome then s
  else
    let r := env.GetByBoardIDAndPonID s.trace boardID ponID
    let s1 : Sweep :=
      { s with trace := s.trace ++ [SweepEvent.callGetByBoardIDAndPonID boardID ponID] }
    match r.2 with
    | some _ => s1
    | none =>
      if Slice.len r.1 = 0 then s1
      else r.1.elems.foldl (sweepOnu env boardID ponID) s1

/-- The values of `i` in `for i := lo; i <= hi; i++`, for `hi` below the largest `int`. -/
def intRange (lo hi : Int) : List Int :=
  (List.range (hi - lo + 1).toNat).map (fun k => lo + (k : Int))

/-- Function `collect`: nine resets, then the boards and, inside, the ports of the range. -/
def collect (env : SweepEnv) (boardMin boardMax ponMin ponMax : Int) : Sweep :=
  let s : Sweep :=
    { trace :=
        [SweepEvent.reset GaugeName.OnuInfoGauge, SweepEvent.reset GaugeName.OnuStatusGauge,
         SweepEvent.reset GaugeName.OnuRxPowerGauge, SweepEvent.reset GaugeName.OnuTxPowerGauge,
         SweepEvent.reset GaugeName.OnuUptimeGauge,
         SweepEvent.reset GaugeName.OnuLastDownDurationGauge,
         SweepEvent.reset GaugeName.OnuLastOnlineGauge,
         SweepEvent.reset GaugeName.OnuLastOfflineGauge,
         SweepEvent.reset GaugeName.OnuGponOpticalDistanceGauge] }
  (intRange boardMin boardMax).foldl
    (fun s boardID => (intRange ponMin ponMax).foldl (sweepPon env boardID) s) s

/-! ## Sample device, clock and use case for evaluating the detail operation and the sweep -/

/-- A configuration whose entry for board 1, port 1 gives every field its own OID. -/
def sampleCfg : Config :=
  { OltCfg := { BaseOID1 := "1", BaseOID2 := "2" }
    Board1Pon1 :=
      { OnuIDNameOID := ".1", OnuTypeOID := ".2", OnuSerialNumberOID := ".3",
        OnuRxPowerOID := ".4", OnuTxPowerOID := ".5", OnuStatusOID := ".6",
        OnuIPAddressOID := ".7", OnuDescriptionOID := ".8", OnuLastOnlineOID := ".9",
        OnuLastOfflineOID := ".10", OnuLastOfflineReasonOID := ".11",
        OnuGponOpticalDistanceOID := ".12" } }

/-- A number below 100 written with at least two digits. -/
def pad2 (n : Nat) : String :=
  if n < 10 then "0" ++ toString n else toString n

/-- A sample power decoder: the raw integer times 0.002 minus 30, cut to two decimals. -/
def samplePower (v : SnmpValue) : String × Option GoError :=
  match v with
  | SnmpValue.int raw =>
    let hundredths : Int := raw / 5 - 3000
    let sign := if hundredths < 0 then "-" else ""
    (sign ++ toString (hundredths.natAbs / 100) ++ "." ++ pad2 (hundredths.natAbs % 100), none)
  | _ => ("", some ⟨"value is not an integer"⟩)

/-- A device for `sampleCfg`: its walk delivers `pdus`, a single fetch of an OID listed in
`table` answers with one variable of that value and any other fetch fails; Redis is empty. -/
def deviceEnv (pdus : List SnmpPDU) (table : List (String × SnmpValue)) : Env :=
  { cfg := sampleCfg
    utils := { sampleUtils with ConvertAndMultiply := samplePower }
    Walk := fun _ _ => (pdus, none)
    Get := fun _ oid =>
      match table.lookup oid with
      | some v => Except.ok { Variables := [{ Name := oid, Value := v }] }
      | none => Except.error ⟨"timeout"⟩
    GetONUInfoList := fun _ _ => (none, none)
    SaveONUInfoList := fun _ _ _ _ => none
    GetOnuIDCtx := fun _ _ => (none, none)
    SetOnuIDCtx := fun _ _ _ _ => none
    rangeOrder := fun m => m }

/-- A sample duration formatter: whole days, hours, minutes and seconds of a non-negative
number of nanoseconds. -/
def sampleDuration (d : Int) : String :=
  let total := d.toNat / 1000000000
  toString (total / 86400) ++ " days " ++ toString (total % 86400 / 3600) ++ " hours "
    ++ toString (total % 3600 / 60) ++ " minutes " ++ toString (total % 60) ++ " seconds"

/-- A sample decoder of the eight-byte date-and-time encoding (year in two bytes, month, day,
hour, minute, second, tenths). -/
def sampleDateTime (b : List Nat) : String × Option GoError :=
  match b with
  | [yh, yl, mo, d, h, mi, s, _] =>
    (toString (yh * 256 + yl) ++ "-" ++ pad2 mo ++ "-" ++ pad2 d ++ " " ++ pad2 h ++ ":"
      ++ pad2 mi ++ ":" ++ pad2 s, none)
  | _ => ("", some ⟨"invalid byte array length"⟩)

/-- A sample clock: it is 2024-01-02 00:00:00, and only the two instants 2024-01-01 00:00:00
and 2023-12-31 20:00:00 parse. -/
def sampleLib : DetailLib :=
  { ExtractLastOfflineReason := fun v => match v with
      | SnmpValue.str s => s
      | _ => ""
    ExtractGponOpticalDistance := fun v => match v with
      | SnmpValue.int i => toString i
      | _ => ""
    ConvertByteArrayToDateTime := sampleDateTime
    ConvertDurationToString := sampleDuration
    timeParse := fun s =>
      if s = "2024-01-01 00:00:00" then Except.ok 1704067200000000000
      else if s = "2023-12-31 20:00:00" then Except.ok 1704052800000000000
      else Except.error ⟨"parsing time: cannot parse"⟩
    timeNow := fun _ => 1704153600000000000 }

/-- The answers of a device about terminal 5 of board 1, port 1, apart from its two
timestamps: online, rx reading 5750 and tx reading 16000. -/
def terminal5 : List (String × SnmpValue) :=
  [("2.2.5", SnmpValue.str "F660"), ("1.3.5", SnmpValue.str "ZTEG00000005"),
   ("1.4.5.1", SnmpValue.int 5750), ("2.5.5.1", SnmpValue.int 16000),
   ("1.6.5", SnmpValue.int 1), ("2.7.5.1", SnmpValue.str "10.0.0.5"),
   ("1.8.5", SnmpValue.str "customer 5"), ("1.11.5", SnmpValue.str "LOS"),
   ("1.12.5", SnmpValue.int 1200)]

/-- The identity entry of terminal 5 as the scoped walk delivers it. -/
def pdu5 : SnmpPDU := { Name := "1.1.5", Value := SnmpValue.str "onu" }

/-- A use case for the sweep: every port holds the terminals `onus`, and the detail of a
terminal is `detail` of its id. A string parses as a number unless it is empty, and the
sample reading "101.07" is the only one not below 100; `OnuStatusGauge` is declared like the
other per-terminal gauges. -/
def sampleSweepEnv (onus : List ONUInfoPerBoard)
    (detail : Int → ONUCustomerInfo × Option GoError) : SweepEnv :=
  { GetByBoardIDAndPonID := fun _ _ _ => (some onus, none)
    GetByBoardIDPonIDAndOnuID := fun _ _ _ onuID => detail onuID
    ParseFloat := fun s => s != ""
    below100 := fun s => s != "101.07"
    Sscanf := fun _ => (0, 0, 0, 0)
    timeParseUnix := fun _ => Except.error ⟨"parsing time: cannot parse"⟩
    OnuStatusGaugeLabels := ["board", "pon", "onu_id"] }

/-- The map `snmpDataMap` after a walk that delivered `pdus`: one entry per distinct key
`ExtractONUID pdu.Name`. -/
def snmpDataMapOf (env : Env) (pdus : List SnmpPDU) : GoMap String SnmpPDU :=
  pdus.foldl (fun m pdu => m.set (env.utils.ExtractONUID pdu.Name) pdu) []

/-- The string a record field holds after its fetch: the fetched value, or the empty string
(the zero value the field started with) when the fetch failed. -/
def fieldOf (r : Except GoError String) : String :=
  match r with
  | Except.ok v => v
  | Except.error _ => ""

/-! ## Decimal text and coalescing keys -/

/-- The value of a decimal digit character. -/
def digitValue (c : Char) : Nat := c.toNat - 48

/-- The number a run of decimal digits denotes. -/
def decimalValue (cs : List Char) : Nat :=
  cs.foldl (fun acc c => acc * 10 + digitValue c) 0

/-- The six public operations of `onuUsecase` with the arguments their coalescing key is
built from. -/
inductive Call where
  | GetByBoardIDAndPonID (boardID ponID : Int)
  | GetByBoardIDPonIDAndOnuID (boardID ponID onuID : Int)
  | GetEmptyOnuID (boardID ponID : Int)
  | GetOnuIDAndSerialNumber (boardID ponID : Int)
  | UpdateEmptyOnuID (boardID ponID : Int)
  | GetByBoardIDAndPonIDWithPagination (boardID ponID pageIndex pageSize : Int)
deriving DecidableEq, Repr

/-- The `key := fmt.Sprintf(...)` of each public operation, the key it hands to `u.sg.Do`;
verb `%d` of an `int` prints what `strconv.Itoa` prints. -/
def Call.key : Call → String
  | Call.GetByBoardIDAndPonID boardID ponID =>
    "onuinfo-b" ++ itoa boardID ++ "-p" ++ itoa ponID
  | Call.GetByBoardIDPonIDAndOnuID boardID ponID onuID =>
    "onu:" ++ itoa boardID ++ ":" ++ itoa ponID ++ ":" ++ itoa onuID
  | Call.GetEmptyOnuID boardID ponID =>
    "empty_onu_id:" ++ itoa boardID ++ ":" ++ itoa ponID
  | Call.GetOnuIDAndSerialNumber boardID ponID =>
    "onu_id_and_serial_number:" ++ itoa boardID ++ ":" ++ itoa ponID
  | Call.UpdateEmptyOnuID boardID ponID =>
    "update_empty_onu_id:" ++ itoa boardID ++ ":" ++ itoa ponID
  | Call.GetByBoardIDAndPonIDWithPagination boardID ponID pageIndex pageSize =>
    "get_onu_info:" ++ itoa boardID ++ ":" ++ itoa ponID ++ ":" ++ itoa pageIndex ++ ":"
      ++ itoa pageSize

/-- The configuration entries of a board in the order of its ports 1 to 16. -/
def boardEntries (cfg : Config) (boardID : Int) : List BoardPon :=
  if boardID = 1 then
    [cfg.Board1Pon1, cfg.Board1Pon2, cfg.Board1Pon3, cfg.Board1Pon4, cfg.Board1Pon5,
     cfg.Board1Pon6, cfg.Board1Pon7, cfg.Board1Pon8, cfg.Board1Pon9, cfg.Board1Pon10,
     cfg.Board1Pon11, cfg.Board1Pon12, cfg.Board1Pon13, cfg.Board1Pon14, cfg.Board1Pon15,
     cfg.Board1Pon16]
  else if boardID = 2 then
    [cfg.Board2Pon1, cfg.Board2Pon2, cfg.Board2Pon3, cfg.Board2Pon4, cfg.Board2Pon5,
     cfg.Board2Pon6, cfg.Board2Pon7, cfg.Board2Pon8, cfg.Board2Pon9, cfg.Board2Pon10,
     cfg.Board2Pon11, cfg.Board2Pon12, cfg.Board2Pon13, cfg.Board2Pon14, cfg.Board2Pon15,
     cfg.Board2Pon16]
  else []

/-- The configuration entry named after a board and a port (`Board<b>Pon<p>`). -/
def configEntry (cfg : Config) (boardID ponID : Int) : BoardPon :=
  (boardEntries cfg boardID).getD (ponID - 1).toNat {}

/-! ## Page bookkeeping (`pkg/pagination/pagination.go`) -/

/-- Package variable `DefaultPageSize`, with its initial value; nothing in the package
assigns it. -/
def pagination.DefaultPageSize : Int := 10

/-- Package variable `MaxPageSize`, with its initial value; nothing in the package assigns
it. -/
def pagination.MaxPageSize : Int := 100

/-- Struct `pagination.Pages`; `Data` is left out, `New` leaves it nil. -/
structure pagination.Pages where
  Code : Int
  Status : String
  Page : Int
  PageSize : Int
  PageCount : Int
  TotalRows : Int
deriving DecidableEq, Repr

/-- Function `pagination.New`. The sum `total + pageSize - 1` is computed in `int`, and `/`
on `int` truncates towards zero. -/
def pagination.New (page pageSize total : Int) : pagination.Pages :=
  let page := if page ≤ 0 then 0 else page
  let pageSize := if pageSize ≤ 0 then pagination.DefaultPageSize else pageSize
  let pageSize := if pageSize > pagination.MaxPageSize then pagination.MaxPageSize else pageSize
  let pageCount : Int :=
    if total ≥ 0 then Int.tdiv (wrap64 (wrap64 (total + pageSize) - 1)) pageSize else -1
  { Code := 200, Status := "OK", Page := page, PageSize := pageSize, TotalRows := total,
    PageCount := pageCount }

/-! ## Scanning a duration (`fmt.Sscanf` as `parseDurationStringToSeconds` calls it)

The scanner of package `fmt` is not part of the sources at hand. The definitions below follow
its documented behaviour for the one format the sweep uses,
"%d days %d hours %d minutes %d seconds": a verb `%d` skips leading spaces, takes an optional
sign and the longest run of decimal digits, and fails on no digit or on a number outside
`int`; a space of the format that stands alone matches the end of the input or one or more
spaces other than a newline; any other character of the format matches itself; the scan
stops at the first failure and leaves the operands not yet stored as they were. -/

/-- Function `isSpace` of package `fmt`: the white-space characters of Unicode. -/
def fmtIsSpace (c : Char) : Bool :=
  (0x09 ≤ c.toNat && c.toNat ≤ 0x0d) || c.toNat == 0x20 || c.toNat == 0x85
    || c.toNat == 0xa0 || c.toNat == 0x1680 || (0x2000 ≤ c.toNat && c.toNat ≤ 0x200a)
    || c.toNat == 0x2028 || c.toNat == 0x2029 || c.toNat == 0x202f || c.toNat == 0x205f
    || c.toNat == 0x3000

/-- A space other than the newline, the only kind of space this format lets pass. -/
def isBlank (c : Char) : Bool :=
  fmtIsSpace c && c != '\n'

/-- Verb `%d` with an `*int` operand: the number scanned and the rest of the input, or
`none` when the scan fails. -/
def scanInt (input : List Char) : Option (Int × List Char) :=
  let cs := input.dropWhile isBlank
  let negative := cs.head? = some '-'
  let cs := if cs.head? = some '-' ∨ cs.head? = some '+' then cs.tail else cs
  let digits := cs.takeWhile Char.isDigit
  let value : Int := if negative then -(decimalValue digits : Int) else (decimalValue digits : Int)
  if digits = [] then none
  else if -9223372036854775808 ≤ value ∧ value ≤ 9223372036854775807 then
    some (value, cs.dropWhile Char.isDigit)
  else none

/-- A space of the format, standing alone. -/
def matchSpaces (input : List Char) : Option (List Char) :=
  match input with
  | [] => some []
  | c :: _ => if isBlank c then some (input.dropWhile isBlank) else none

/-- Characters of the format other than spaces and verbs: each must be the next character of
the input. -/
def matchLiteral : List Char → List Char → Option (List Char)
  | [], input => some input
  | _ :: _, [] => none
  | f :: fs, c :: cs => if f = c then matchLiteral fs cs else none

/-- The part " word " of the format between two verbs. -/
def matchWord (word : String) (input : List Char) : Option (List Char) :=
  (matchSpaces input).bind (fun r => (matchLiteral word.data r).bind matchSpaces)

/-- Call `fmt.Sscanf(durationStr, "%d days %d hours %d minutes %d seconds", &days, &hours,
&minutes, &seconds)` on four variables that start at 0: what the call leaves in them. -/
def sscanfDuration (durationStr : String) : Int × Int × Int × Int :=
  match scanInt durationStr.data with
  | none => (0, 0, 0, 0)
  | some (days, r1) =>
    match (matchWord "days" r1).bind scanInt with
    | none => (days, 0, 0, 0)
    | some (hours, r2) =>
      match (matchWord "hours" r2).bind scanInt with
      | none => (days, hours, 0, 0)
      | some (minutes, r3) =>
        match (matchWord "minutes" r3).bind scanInt with
        | none => (days, hours, minutes, 0)
        | some (seconds, _) => (days, hours, minutes, seconds)

/-- The sample use case of the sweep, scanning durations as package `fmt` does. -/
def scanningSweepEnv : SweepEnv :=
  { sampleSweepEnv [] (fun _ => ({}, none)) with Sscanf := sscanfDuration }

/-! ## JSON responses (`internal/utils/error.go`, `internal/utils/response.go`)

Packages `net/http` and `encoding/json` are not part of the sources at hand. The response
writer is modelled as the recorder of `net/http/httptest`, which the tests of these helpers
use; the JSON encoder is a parameter `marshal` giving the JSON text of a value or the error
of a value that cannot be encoded (a channel, for instance). -/

/-- Struct `httptest.ResponseRecorder`: the status code, the header map, the body written so
far, and whether the header has been written. -/
structure ResponseRecorder where
  Code : Int := 200
  HeaderMap : GoMap String String := []
  Body : String := ""
  wroteHeader : Bool := false
deriving DecidableEq, Repr

/-- Function `httptest.NewRecorder`. -/
def NewRecorder : ResponseRecorder := {}

/-- Expression `w.Header().Set(key, value)`. -/
def ResponseRecorder.HeaderSet (w : ResponseRecorder) (key value : String) : ResponseRecorder :=
  { w with HeaderMap := w.HeaderMap.set key value }

/-- Method `WriteHeader`: nothing once the header is written; otherwise a status code
outside 100..999 is a run-time panic, and a code inside is recorded. -/
def ResponseRecorder.WriteHeader (w : ResponseRecorder) (code : Int) : Outcome ResponseRecorder :=
  if w.wroteHeader then Outcome.ret w
  else if code < 100 ∨ code > 999 then Outcome.abort ("invalid WriteHeader code " ++ itoa code)
  else Outcome.ret { w with Code := code, wroteHeader := true }

/-- Method `Write`: the header is written with status 200 unless it has been written, then
the bytes are appended to the body. -/
def ResponseRecorder.Write (w : ResponseRecorder) (buf : String) : ResponseRecorder :=
  let w := if w.wroteHeader then w else { w with Code := 200, wroteHeader := true }
  { w with Body := w.Body ++ buf }

/-- Expression `json.NewEncoder(w).Encode(v)`: the JSON text of `v` and a newline in one
`Write`, or the error of the encoder and nothing written. -/
def jsonEncode {α : Type} (marshal : α → Except GoError String) (w : ResponseRecorder)
    (v : α) : ResponseRecorder × Option GoError :=
  match marshal v with
  | Except.error err => (w, some err)
  | Except.ok text => (w.Write (text ++ "\n"), none)

/-- Function `SendJSONResponse`; the error of `Encode` is dropped. -/
def SendJSONResponse {α : Type} (marshal : α → Except GoError String) (w : ResponseRecorder)
    (statusCode : Int) (response : α) : Outcome ResponseRecorder :=
  match (w.HeaderSet "Content-Type" "application/json").WriteHeader statusCode with
  | Outcome.abort reason => Outcome.abort reason
  | Outcome.ret w1 => Outcome.ret (jsonEncode marshal w1 response).1

/-- Struct `ErrorResponse`. `Message` is an `interface{}`; the three helpers store the
string `err.Error()` in it. -/
structure ErrorResponse where
  Code : Int
  Status : String
  Message : String
deriving DecidableEq, Repr

/-- Function `ErrorBadRequest` (`http.StatusBadRequest` is 400). -/
def ErrorBadRequest (marshal : ErrorResponse → Except GoError String) (w : ResponseRecorder)
    (err : GoError) : Outcome ResponseRecorder :=
  let webResponse : ErrorResponse :=
    { Code := 400, Status := "Bad Request", Message := err.msg }
  SendJSONResponse marshal w 400 webResponse

/-- Function `ErrorInternalServerError` (`http.StatusInternalServerError` is 500). -/
def ErrorInternalServerError (marshal : ErrorResponse → Except GoError String)
    (w : ResponseRecorder) (err : GoError) : Outcome ResponseRecorder :=
  let webResponse : ErrorResponse :=
    { Code := 500, Status := "Internal Server Error", Message := err.msg }
  SendJSONResponse marshal w 500 webResponse

/-- Function `ErrorNotFound` (`http.StatusNotFound` is 404). -/
def ErrorNotFound (marshal : ErrorResponse → Except GoError String) (w : ResponseRecorder)
    (err : GoError) : Outcome ResponseRecorder :=
  let webResponse : ErrorResponse :=
    { Code := 404, Status := "Not Found", Message := err.msg }
  SendJSONResponse marshal w 404 webResponse

/-- Expression `w.Header().Get(key)`, for a key in canonical form. -/
def ResponseRecorder.HeaderGet (w : ResponseRecorder) (key : String) : String :=
  (w.HeaderMap.lookup key).getD ""

/-- A sample encoder of terminal identifiers: board, port and id between bars. -/
def sampleMarshalOnuID (v : OnuID) : Except GoError String :=
  Except.ok (itoa v.Board ++ "|" ++ itoa v.PON ++ "|" ++ itoa v.ID)

/-- A sample decoder that knows one text, the encoding of terminal 1 of board 2, port 8. -/
def sampleUnmarshalOnuID (body : String) : Except GoError OnuID :=
  if body = "2|8|1\n" then Except.ok (OnuID.mk 2 8 1)
  else Except.error ⟨"invalid character"⟩

/-- A sample encoder of error responses: code, status and message between bars. -/
def sampleMarshalError (r : ErrorResponse) : Except GoError String :=
  Except.ok (itoa r.Code ++ "|" ++ r.Status ++ "|" ++ r.Message)

/-- A sample decoder that knows the three error responses with the message "boom". -/
def sampleUnmarshalError (body : String) : Except GoError ErrorResponse :=
  if body = "400|Bad Request|boom\n" then Except.ok ⟨400, "Bad Request", "boom"⟩
  else if body = "500|Internal Server Error|boom\n" then
    Except.ok ⟨500, "Internal Server Error", "boom"⟩
  else if body = "404|Not Found|boom\n" then Except.ok ⟨404, "Not Found", "boom"⟩
  else Except.error ⟨"invalid character"⟩

/-- The device answers every fetch of `oid` that delivers a variable with a byte string (the
type of a date-and-time value). -/
def answersBytes (env : Env) (oid : String) : Prop :=
  ∀ (t : Trace) (packet : SnmpPacket) (v : SnmpPDU) (vs : List SnmpPDU),
    env.Get t oid = Except.ok packet → packet.Variables = v :: vs →
    ∃ bs, v.Value = SnmpValue.bytes bs

/-- The answers of terminal 5 with both timestamps as well-formed byte strings. -/
def terminal5Dated : List (String × SnmpValue) :=
  terminal5 ++ [("1.9.5", SnmpValue.bytes [7, 232, 1, 1, 0, 0, 0, 0]),
    ("1.10.5", SnmpValue.bytes [7, 231, 12, 31, 20, 0, 0, 0])]

/-! ## Lemmas on folds, maps and the free-slot computation -/

theorem foldl_append_singleton {α β : Type} (f : α → β) (l : List α) (init : List β) :
    l.foldl (fun acc x => acc ++ [f x]) init = init ++ l.map f := by
  induction l generalizing init with
  | nil => simp
  | cons a l ih => simp [ih]

theorem foldl_cond_append {α β : Type} (c : α → Bool) (f : α → β) (l : List α) (init : List β) :
    l.foldl (fun acc x => if c x then acc ++ [f x] else acc) init
      = init ++ (l.filter c).map f := by
  induction l generalizing init with
  | nil => simp
  | cons a l ih =>
    by_cases h : c a <;> simp [ih, h]

theorem GoMap.has_set {κ ν : Type} [DecidableEq κ] (m : GoMap κ ν) (k : κ) (v : ν) (i : κ) :
    (m.set k v).has i = (m.has i || decide (k = i)) := by
  unfold GoMap.set GoMap.has
  by_cases h : (List.any m fun e => decide (e.1 = k)) = true
  · rw [if_pos h]
    rw [Bool.eq_iff_iff]
    simp only [List.any_eq_true, List.mem_map, Bool.or_eq_true, decide_eq_true_eq] at h ⊢
    constructor
    · rintro ⟨x, ⟨e, he, rfl⟩, hx⟩
      by_cases hk : e.1 = k
      · rw [if_pos hk] at hx; exact Or.inr hx
      · rw [if_neg hk] at hx; exact Or.inl ⟨e, he, hx⟩
    · rintro (⟨e, he, hx⟩ | rfl)
      · by_cases hk : e.1 = k
        · exact ⟨(k, v), ⟨e, he, by rw [if_pos hk]⟩, by rw [← hk, hx]⟩
        · exact ⟨e, ⟨e, he, by rw [if_neg hk]⟩, hx⟩
      · obtain ⟨e, he, hx⟩ := h
        exact ⟨(k, v), ⟨e, he, by rw [if_pos hx]⟩, rfl⟩
  · rw [if_neg h]
    simp [List.any_append]

theorem GoMap.has_foldl_set {α κ ν : Type} [DecidableEq κ] (key : α → κ) (v : ν)
    (l : List α) (m : GoMap κ ν) (i : κ) :
    (l.foldl (fun m x => m.set (key x) v) m).has i = (m.has i || (l.map key).contains i) := by
  induction l generalizing m with
  | nil => simp
  | cons a l ih =>
    simp only [List.foldl_cons, ih, GoMap.has_set, List.map_cons, List.contains_cons]
    rw [Bool.or_assoc]
    congr 1
    by_cases h : key a = i
    · simp [h]
    · have h2 : ¬ (i = key a) := fun e => h e.symm
      simp [h, h2]

theorem freeSlots_pairwise_lt (b p : Int) (ids : List Int) :
    (freeSlots b p ids).Pairwise (fun x y => x.ID < y.ID) := by
  unfold freeSlots
  rw [List.pairwise_map]
  apply List.Pairwise.filter
  have h := List.pairwise_lt_range' 1 128
  exact h.imp (fun {a c} hac => by simpa using hac)

theorem freeSlots_sorted (b p : Int) (ids : List Int) :
    (freeSlots b p ids).Sorted (fun x y => x.ID ≤ y.ID) :=
  (freeSlots_pairwise_lt b p ids).imp (fun h => Int.le_of_lt h)

theorem sortSlice_freeSlots (b p : Int) (ids : List Int) :
    sortSlice OnuID.ID (some (freeSlots b p ids)) = some (freeSlots b p ids) := by
  unfold sortSlice
  simp only [Option.map_some']
  rw [List.Sorted.insertionSort_eq (freeSlots_sorted b p ids)]

theorem freeSlots_computed (env : Env) (b p : Int) (pdus : List SnmpPDU) :
    sortSlice OnuID.ID (some ((List.range' 1 128).foldl
      (fun acc (i : Nat) =>
        if !(GoMap.has
              (List.foldl (fun (m : GoMap Int Bool) (onuInfo : OnuID) => m.set onuInfo.ID true) []
                (pdus.foldl (fun acc pdu => acc ++ [OnuID.mk b p (env.utils.ExtractIDOnuID pdu.Name)]) []))
              (i : Int)) then
          acc ++ [({ Board := b, PON := p, ID := (i : Int) } : OnuID)]
        else acc) []))
    = some (freeSlots b p (walkedIds env pdus)) := by
  rw [← sortSlice_freeSlots]
  congr 2
  rw [foldl_cond_append (fun i : Nat => !(GoMap.has
              (List.foldl (fun (m : GoMap Int Bool) (onuInfo : OnuID) => m.set onuInfo.ID true) []
                (pdus.foldl (fun acc pdu => acc ++ [OnuID.mk b p (env.utils.ExtractIDOnuID pdu.Name)]) []))
              (i : Int))) (fun i : Nat => ({ Board := b, PON := p, ID := (i : Int) } : OnuID))]
  unfold freeSlots walkedIds
  simp only [List.nil_append]
  congr 2
  funext n
  rw [GoMap.has_foldl_set, foldl_append_singleton]
  simp [GoMap.has, Function.comp_def]

theorem mem_freeSlots_ids (b p : Int) (ids : List Int) (i : Int) :
    i ∈ (freeSlots b p ids).map OnuID.ID ↔ (1 ≤ i ∧ i ≤ 128 ∧ i ∉ ids) := by
  unfold freeSlots
  simp only [List.map_map, List.mem_map, List.mem_filter, List.mem_range', Function.comp]
  constructor
  · rintro ⟨n, ⟨⟨k, hk, hkn⟩, hn⟩, rfl⟩
    simp at hn
    refine ⟨by omega, by omega, hn⟩
  · rintro ⟨h1, h2, h3⟩
    refine ⟨i.toNat, ⟨⟨i.toNat - 1, by omega, by omega⟩, ?_⟩, by simp; omega⟩
    have : ((i.toNat : Nat) : Int) = i := by omega
    simp [this, h3]

theorem GetEmptyOnuID_miss (env : Env) (b p : Int) (oc : OltConfig)
    (hcfg : getOltConfig env.cfg b p = (some oc, none))
    (hmiss : ¬ ((env.GetOnuIDCtx [] (emptyOnuIDKey b p)).2 = none
                 ∧ (env.GetOnuIDCtx [] (emptyOnuIDKey b p)).1 ≠ none))
    (hwalk : (env.Walk [Event.redisGetOnuIDCtx (emptyOnuIDKey b p)]
                (oc.BaseOID ++ oc.OnuIDNameOID)).2 = none) :
    GetEmptyOnuID env b p =
      match env.SetOnuIDCtx
          [Event.redisGetOnuIDCtx (emptyOnuIDKey b p), Event.snmpWalk (oc.BaseOID ++ oc.OnuIDNameOID)]
          (emptyOnuIDKey b p) 300
          (some (freeSlots b p (walkedIds env
            (env.Walk [Event.redisGetOnuIDCtx (emptyOnuIDKey b p)]
              (oc.BaseOID ++ oc.OnuIDNameOID)).1))) with
      | some err =>
        ⟨Outcome.ret (none, some err),
          [Event.redisGetOnuIDCtx (emptyOnuIDKey b p), Event.snmpWalk (oc.BaseOID ++ oc.OnuIDNameOID),
           Event.redisSetOnuIDCtx (emptyOnuIDKey b p) 300
            (some (freeSlots b p (walkedIds env
              (env.Walk [Event.redisGetOnuIDCtx (emptyOnuIDKey b p)]
                (oc.BaseOID ++ oc.OnuIDNameOID)).1)))]⟩
      | none =>
        ⟨Outcome.ret (some (freeSlots b p (walkedIds env
              (env.Walk [Event.redisGetOnuIDCtx (emptyOnuIDKey b p)]
                (oc.BaseOID ++ oc.OnuIDNameOID)).1)), none),
          [Event.redisGetOnuIDCtx (emptyOnuIDKey b p), Event.snmpWalk (oc.BaseOID ++ oc.OnuIDNameOID),
           Event.redisSetOnuIDCtx (emptyOnuIDKey b p) 300
            (some (freeSlots b p (walkedIds env
              (env.Walk [Event.redisGetOnuIDCtx (emptyOnuIDKey b p)]
                (oc.BaseOID ++ oc.OnuIDNameOID)).1)))]⟩ := by
  unfold emptyOnuIDKey at *
  unfold GetEmptyOnuID
  rw [hcfg]
  simp only [if_neg hmiss, hwalk, freeSlots_computed, List.singleton_append, List.cons_append,
    List.nil_append]

theorem freeSlots_congr (b p : Int) (ids ids' : List Int) (h : ∀ i, i ∈ ids ↔ i ∈ ids') :
    freeSlots b p ids = freeSlots b p ids' := by
  unfold freeSlots
  congr 1
  apply List.filter_congr
  intro n _
  have h1 := h (n : Int)
  by_cases hm : (n : Int) ∈ ids
  · simp [hm, h1.mp hm]
  · have hm' : (n : Int) ∉ ids' := fun x => hm (h1.mpr x)
    simp [hm, hm']

set_option maxRecDepth 20000 in
theorem freeSlots_sample_length (b p : Int) : (freeSlots b p [3, 7, 10]).length = 125 := by
  unfold freeSlots
  rw [List.length_map]
  decide

/-- C1: on a cache miss of `GetEmptyOnuID` with a resolved profile and a successful walk, the
free-slot list handed to the cache (and returned when the write succeeds) holds an id `i`
exactly when `1 ≤ i ≤ 128` and `i` is not a walked id, whatever integers the walk delivers;
for walked ids inside 1..128 free and walked ids are disjoint and cover 1..128; and when the
walked ids are 3, 7 and 10 the list has 125 entries and lacks exactly 3, 7 and 10. -/
theorem C1_free_slots_complement (env : Env) (b p : Int) (oc : OltConfig)
    (hcfg : getOltConfig env.cfg b p = (some oc, none))
    (hmiss : ¬ ((env.GetOnuIDCtx [] (emptyOnuIDKey b p)).2 = none
                 ∧ (env.GetOnuIDCtx [] (emptyOnuIDKey b p)).1 ≠ none))
    (hwalk : (env.Walk [Event.redisGetOnuIDCtx (emptyOnuIDKey b p)]
                (oc.BaseOID ++ oc.OnuIDNameOID)).2 = none) :
    ∃ free : List OnuID,
      (GetEmptyOnuID env b p).trace =
        [Event.redisGetOnuIDCtx (emptyOnuIDKey b p), Event.snmpWalk (oc.BaseOID ++ oc.OnuIDNameOID),
         Event.redisSetOnuIDCtx (emptyOnuIDKey b p) 300 (some free)]
      ∧ (env.SetOnuIDCtx
            [Event.redisGetOnuIDCtx (emptyOnuIDKey b p),
             Event.snmpWalk (oc.BaseOID ++ oc.OnuIDNameOID)]
            (emptyOnuIDKey b p) 300 (some free) = none →
          (GetEmptyOnuID env b p).out = Outcome.ret (some free, none))
      ∧ (∀ i : Int, i ∈ free.map OnuID.ID ↔
          (1 ≤ i ∧ i ≤ 128 ∧
            i ∉ walkedIds env (env.Walk [Event.redisGetOnuIDCtx (emptyOnuIDKey b p)]
                  (oc.BaseOID ++ oc.OnuIDNameOID)).1))
      ∧ ((∀ i ∈ walkedIds env (env.Walk [Event.redisGetOnuIDCtx (emptyOnuIDKey b p)]
                  (oc.BaseOID ++ oc.OnuIDNameOID)).1, 1 ≤ i ∧ i ≤ 128) →
          (∀ i : Int, ¬ (i ∈ free.map OnuID.ID ∧
              i ∈ walkedIds env (env.Walk [Event.redisGetOnuIDCtx (emptyOnuIDKey b p)]
                  (oc.BaseOID ++ oc.OnuIDNameOID)).1))
          ∧ (∀ i : Int, (i ∈ free.map OnuID.ID ∨
              i ∈ walkedIds env (env.Walk [Event.redisGetOnuIDCtx (emptyOnuIDKey b p)]
                  (oc.BaseOID ++ oc.OnuIDNameOID)).1) ↔ (1 ≤ i ∧ i ≤ 128)))
      ∧ ((∀ i : Int, i ∈ walkedIds env (env.Walk [Event.redisGetOnuIDCtx (emptyOnuIDKey b p)]
                  (oc.BaseOID ++ oc.OnuIDNameOID)).1 ↔ (i = 3 ∨ i = 7 ∨ i = 10)) →
          free.length = 125
          ∧ (∀ i : Int, 1 ≤ i → i ≤ 128 →
              (i ∉ free.map OnuID.ID ↔ (i = 3 ∨ i = 7 ∨ i = 10)))) := by
  have hrun := GetEmptyOnuID_miss env b p oc hcfg hmiss hwalk
  generalize hW : walkedIds env (env.Walk [Event.redisGetOnuIDCtx (emptyOnuIDKey b p)]
                  (oc.BaseOID ++ oc.OnuIDNameOID)).1 = W at hrun ⊢
  have hmem := mem_freeSlots_ids b p W
  refine ⟨freeSlots b p W, ?_, ?_, hmem, ?_, ?_⟩
  · rw [hrun]; split <;> rfl
  · intro hset; rw [hrun, hset]
  · intro hin
    refine ⟨fun i hi => ((hmem i).mp hi.1).2.2 hi.2, fun i => ?_⟩
    constructor
    · rintro (hi | hi)
      · exact ⟨((hmem i).mp hi).1, ((hmem i).mp hi).2.1⟩
      · exact hin i hi
    · rintro ⟨h1, h2⟩
      by_cases hw : i ∈ W
      · exact Or.inr hw
      · exact Or.inl ((hmem i).mpr ⟨h1, h2, hw⟩)
  · intro hset
    have hcongr : freeSlots b p W = freeSlots b p [3, 7, 10] :=
      freeSlots_congr b p W [3, 7, 10] (fun i => by rw [hset i]; simp)
    refine ⟨by rw [hcongr]; exact freeSlots_sample_length b p, fun i h1 h2 => ?_⟩
    rw [hmem i, ← hset i]
    constructor
    · intro hn
      by_contra hw
      exact hn ⟨h1, h2, hw⟩
    · intro hw hn
      exact hn.2.2 hw

/-- Witness of C1: a device that walks 3, 7 and 10 on board 1, port 1 over an empty cache. -/
theorem C1_free_slots_complement_witness :
    getOltConfig (sampleEnv [3, 7, 10] none none).cfg 1 1 = (some {}, none)
    ∧ ∃ free : List OnuID,
        (GetEmptyOnuID (sampleEnv [3, 7, 10] none none) 1 1).out = Outcome.ret (some free, none)
        ∧ free.length = 125
        ∧ (∀ i : Int, i ∈ free.map OnuID.ID ↔ (1 ≤ i ∧ i ≤ 128 ∧ i ∉ [3, 7, 10])) := by
  have hcfg : getOltConfig (sampleEnv [3, 7, 10] none none).cfg 1 1 = (some {}, none) := rfl
  refine ⟨hcfg, ?_⟩
  obtain ⟨free, _, hout, hmem, _, hsample⟩ :=
    C1_free_slots_complement (sampleEnv [3, 7, 10] none none) 1 1 {} hcfg
      (by simp [sampleEnv]) rfl
  refine ⟨free, hout rfl, (hsample (fun i => ?_)).1, fun i => ?_⟩
  · have hW : walkedIds (sampleEnv [3, 7, 10] none none)
        ((sampleEnv [3, 7, 10] none none).Walk [Event.redisGetOnuIDCtx (emptyOnuIDKey 1 1)]
          ((({} : OltConfig)).BaseOID ++ (({} : OltConfig)).OnuIDNameOID)).1 = [3, 7, 10] := by
      decide
    rw [hW]; simp
  · rw [hmem i]
    have hW : walkedIds (sampleEnv [3, 7, 10] none none)
        ((sampleEnv [3, 7, 10] none none).Walk [Event.redisGetOnuIDCtx (emptyOnuIDKey 1 1)]
          ((({} : OltConfig)).BaseOID ++ (({} : OltConfig)).OnuIDNameOID)).1 = [3, 7, 10] := by
      decide
    rw [hW]

theorem GetEmptyOnuID_write_payload (env : Env) (b p : Int) (key : String) (seconds : Int)
    (payload : Slice OnuID)
    (h : Event.redisSetOnuIDCtx key seconds payload ∈ (GetEmptyOnuID env b p).trace) :
    ∃ ids : List Int, payload = some (freeSlots b p ids) := by
  unfold GetEmptyOnuID at h
  rcases hc : getOltConfig env.cfg b p with ⟨c, e⟩
  rw [hc] at h
  cases e with
  | some err => simp at h
  | none =>
    simp only at h
    split at h
    · simp at h
    · cases c with
      | none => simp at h
      | some oc =>
        simp only [freeSlots_computed] at h
        split at h
        · simp at h
        · split at h <;>
          · simp at h
            exact ⟨_, h.2.2⟩

theorem UpdateEmptyOnuID_write_payload (env : Env) (b p : Int) (key : String) (seconds : Int)
    (payload : Slice OnuID)
    (h : Event.redisSetOnuIDCtx key seconds payload ∈ (UpdateEmptyOnuID env b p).trace) :
    ∃ ids : List Int, payload = some (freeSlots b p ids) := by
  unfold UpdateEmptyOnuID at h
  rcases hc : getOltConfig env.cfg b p with ⟨c, e⟩
  rw [hc] at h
  cases e with
  | some err => simp at h
  | none =>
    cases c with
    | none => simp at h
    | some oc =>
      simp only [freeSlots_computed] at h
      split at h
      · simp at h
      · split at h <;>
        · simp at h
          exact ⟨_, h.2.2⟩

theorem freeSlots_fields (b p : Int) (ids : List Int) :
    ∀ e ∈ freeSlots b p ids, e.Board = b ∧ e.PON = p := by
  intro e he
  unfold freeSlots at he
  simp only [List.mem_map] at he
  obtain ⟨n, _, rfl⟩ := he
  exact ⟨rfl, rfl⟩

/-- C2: every free-slot list that `GetEmptyOnuID` or `UpdateEmptyOnuID` builds and hands to
the cache is strictly ascending by ID, hence free of duplicate ids, and each of its entries
carries the requested board and PON, whatever the walk delivered. -/
theorem C2_free_slot_list_strictly_ascending (env : Env) (b p : Int) (key : String)
    (seconds : Int) (payload : Slice OnuID)
    (h : Event.redisSetOnuIDCtx key seconds payload ∈ (GetEmptyOnuID env b p).trace
          ∨ Event.redisSetOnuIDCtx key seconds payload ∈ (UpdateEmptyOnuID env b p).trace) :
    ∃ free : List OnuID, payload = some free
      ∧ (free.map OnuID.ID).Pairwise (fun x y => x < y)
      ∧ (free.map OnuID.ID).Nodup
      ∧ ∀ e ∈ free, e.Board = b ∧ e.PON = p := by
  have hex : ∃ ids : List Int, payload = some (freeSlots b p ids) := by
    rcases h with h | h
    · exact GetEmptyOnuID_write_payload env b p key seconds payload h
    · exact UpdateEmptyOnuID_write_payload env b p key seconds payload h
  obtain ⟨ids, rfl⟩ := hex
  have hlt : ((freeSlots b p ids).map OnuID.ID).Pairwise (fun x y => x < y) := by
    rw [List.pairwise_map]
    exact freeSlots_pairwise_lt b p ids
  refine ⟨freeSlots b p ids, rfl, hlt, ?_, freeSlots_fields b p ids⟩
  exact hlt.imp (fun hxy => ne_of_lt hxy)

/-- Witness of C2: the cache write of `UpdateEmptyOnuID` for a device that walks 10, 3, 7
and 3 again on board 2, port 16. -/
theorem C2_free_slot_list_strictly_ascending_witness :
    ∃ free : List OnuID,
      Event.redisSetOnuIDCtx (emptyOnuIDKey 2 16) 300 (some free)
          ∈ (UpdateEmptyOnuID (sampleEnv [10, 3, 7, 3] none none) 2 16).trace
      ∧ (free.map OnuID.ID).Pairwise (fun x y => x < y)
      ∧ (free.map OnuID.ID).Nodup
      ∧ ∀ e ∈ free, e.Board = 2 ∧ e.PON = 16 := by
  have hmem : Event.redisSetOnuIDCtx (emptyOnuIDKey 2 16) 300
      (some (freeSlots 2 16 (walkedIds (sampleEnv [10, 3, 7, 3] none none)
        (pdusOfIds [10, 3, 7, 3]))))
      ∈ (UpdateEmptyOnuID (sampleEnv [10, 3, 7, 3] none none) 2 16).trace := by
    unfold UpdateEmptyOnuID
    have hcfg : getOltConfig (sampleEnv [10, 3, 7, 3] none none).cfg 2 16 = (some {}, none) := rfl
    rw [hcfg]
    simp only [freeSlots_computed]
    simp [sampleEnv, emptyOnuIDKey]
  obtain ⟨free, hfree, h1, h2, h3⟩ :=
    C2_free_slot_list_strictly_ascending (sampleEnv [10, 3, 7, 3] none none) 2 16
      (emptyOnuIDKey 2 16) 300 _ (Or.inr hmem)
  exact ⟨free, hfree ▸ hmem, h1, h2, h3⟩

/-- C3: the code at the failing input. For board 1 and port 17 `getOltConfig` returns the nil
profile together with the nil error, for every configuration (only a board outside 1 and 2 is
reported as an error), and the free-slot query on that port then aborts on the nil profile
once the cache has missed. -/
theorem C3_getOltConfig_port_17_nil_profile_nil_error (cfg : Config) :
    getOltConfig cfg 1 17 = (none, none)
    ∧ getOltConfig cfg 2 0 = (none, none)
    ∧ getOltConfig cfg 3 1 = (none, some ⟨"invalid Board ID"⟩)
    ∧ (GetEmptyOnuID (sampleEnv [3, 7, 10] none none) 1 17).out
        = Outcome.abort "nil pointer dereference" :=
  ⟨rfl, rfl, rfl, rfl⟩

/-- C4: the code at the failing input. With 25 walked ids, page size 10 and page index 4 the
start index 30 exceeds the length 25 while the end index is clamped to 25, so the slice
expression aborts: no empty list and no count are returned. With page index 3 and page size
5 (start index 10 on 10 ids) the page is empty and the count is 10. -/
theorem C4_page_beyond_last_aborts :
    (GetByBoardIDAndPonIDWithPagination
        (sampleEnv (idsUpTo 25) none none) 1 1 4 10).out
      = Outcome.abort "slice bounds out of range"
    ∧ (GetByBoardIDAndPonIDWithPagination
        (sampleEnv (idsUpTo 10) none none) 1 1 3 5).out
      = Outcome.ret (none, 10) := by
  constructor <;> decide

theorem wrap64_eq (x : Int) (h1 : -9223372036854775808 ≤ x) (h2 : x < 9223372036854775808) :
    wrap64 x = x := by
  unfold wrap64
  omega

theorem Slice.elems_foldl_push {α β : Type} (f : α → β) (l : List α) (s : Slice β) :
    (l.foldl (fun acc x => Slice.push acc (f x)) s).elems = s.elems ++ l.map f := by
  induction l generalizing s with
  | nil => simp
  | cons a l ih =>
    simp only [List.foldl_cons, ih, List.map_cons]
    simp [Slice.push, Slice.elems]

theorem Slice.elems_sortSlice {α : Type} (key : α → Int) (s : Slice α) :
    (sortSlice key s).elems = List.insertionSort (fun a b => key a ≤ key b) s.elems := by
  cases s <;> simp [sortSlice, Slice.elems]

theorem Slice.elems_sortSlice_perm {α : Type} (key : α → Int) (s : Slice α) :
    ((sortSlice key s).elems.map key).Perm (s.elems.map key) := by
  rw [Slice.elems_sortSlice]
  exact (List.perm_insertionSort _ _).map key

theorem Slice.elems_sortSlice_sorted {α : Type} (key : α → Int) (s : Slice α) :
    ((sortSlice key s).elems.map key).Sorted (fun x y => x ≤ y) := by
  rw [Slice.elems_sortSlice]
  have hs : (List.insertionSort (fun a b => key a ≤ key b) s.elems).Sorted
      (fun a b => key a ≤ key b) := by
    haveI : IsTotal α (fun a b => key a ≤ key b) := ⟨fun a b => Int.le_total (key a) (key b)⟩
    haveI : IsTrans α (fun a b => key a ≤ key b) := ⟨fun a b c h1 h2 => Int.le_trans h1 h2⟩
    exact List.sorted_insertionSort _ _
  unfold List.Sorted
  rw [List.pairwise_map]
  exact hs

theorem subslice_ok {α : Type} (s : Slice α) (low high : Int)
    (h1 : 0 ≤ low) (h2 : low ≤ high) (h3 : high ≤ s.len) :
    ∃ r : Slice α, subslice s low high = Outcome.ret r
      ∧ r.elems = (s.elems.drop low.toNat).take (high.toNat - low.toNat) := by
  unfold subslice
  rw [if_pos ⟨h1, h2, h3⟩]
  refine ⟨_, rfl, ?_⟩
  cases s <;> simp [Slice.elems]

theorem pageInfoOfID_ID (env : Env) (oc : OltConfig) (b p : Int) (t : Trace) (x : OnuOnlyID) :
    (pageInfoOfID env oc b p t x).1.ID = x.ID := by
  unfold pageInfoOfID
  simp only
  repeat' split
  all_goals rfl

theorem pageInfoLoop_ids (env : Env) (oc : OltConfig) (b p : Int) (l : List OnuOnlyID) :
    ∀ (t : Trace) (acc : Slice ONUInfoPerBoard),
      (pageInfoLoop env oc b p t l acc).1.elems.map ONUInfoPerBoard.ID
        = acc.elems.map ONUInfoPerBoard.ID ++ l.map OnuOnlyID.ID := by
  induction l with
  | nil => intro t acc; simp [pageInfoLoop]
  | cons x l ih =>
    intro t acc
    rw [pageInfoLoop]
    simp only [ih]
    simp [Slice.push, Slice.elems, pageInfoOfID_ID]

theorem pagination_window (env : Env) (b p pageIndex pageSize : Int) (oc : OltConfig)
    (hcfg : getOltConfig env.cfg b p = (some oc, none))
    (hwalk : (env.Walk [] (oc.BaseOID ++ oc.OnuIDNameOID)).2 = none)
    (hidx : 1 ≤ pageIndex) (hidx64 : pageIndex < 9223372036854775808)
    (hsize : 1 ≤ pageSize) (hsize64 : pageSize < 9223372036854775808)
    (hlen : ((walkedIds env (env.Walk [] (oc.BaseOID ++ oc.OnuIDNameOID)).1).length : Int)
              < 4611686018427387904)
    (hstart : (pageIndex - 1) * pageSize
              ≤ ((walkedIds env (env.Walk [] (oc.BaseOID ++ oc.OnuIDNameOID)).1).length : Int)) :
    ∃ page : Slice ONUInfoPerBoard,
      (GetByBoardIDAndPonIDWithPagination env b p pageIndex pageSize).out
        = Outcome.ret (page,
            ((walkedIds env (env.Walk [] (oc.BaseOID ++ oc.OnuIDNameOID)).1).length : Int))
      ∧ (page.elems.map ONUInfoPerBoard.ID).Perm
          (((walkedIds env (env.Walk [] (oc.BaseOID ++ oc.OnuIDNameOID)).1).drop
              ((pageIndex - 1) * pageSize).toNat).take pageSize.toNat)
      ∧ (page.elems.map ONUInfoPerBoard.ID).Sorted (fun x y => x ≤ y) := by
  generalize hW : env.Walk [] (oc.BaseOID ++ oc.OnuIDNameOID) = W at hwalk hlen hstart ⊢
  generalize hs : (pageIndex - 1) * pageSize = s at hstart ⊢
  have hs0 : 0 ≤ s := by rw [← hs]; exact mul_nonneg (by omega) (by omega)
  have hsp : pageIndex = 1 ∨ pageSize ≤ s := by
    by_cases h1 : pageIndex = 1
    · exact Or.inl h1
    · right
      rw [← hs]
      have h2 : 1 ≤ pageIndex - 1 := by omega
      nlinarith
  set S : Slice OnuOnlyID :=
    W.1.foldl (fun acc pdu => Slice.push acc
      ({ ID := env.utils.ExtractIDOnuID pdu.Name } : OnuOnlyID)) none with hSdef
  have hSel : S.elems = W.1.map
      (fun pdu => ({ ID := env.utils.ExtractIDOnuID pdu.Name } : OnuOnlyID)) := by
    rw [hSdef, Slice.elems_foldl_push]; rfl
  have hSlen : S.len = ((walkedIds env W.1).length : Int) := by
    unfold Slice.len walkedIds
    rw [hSel]; simp
  have hSids : S.elems.map OnuOnlyID.ID = walkedIds env W.1 := by
    rw [hSel]; unfold walkedIds; simp
  generalize hn : ((walkedIds env W.1).length : Int) = n at hlen hstart hSlen ⊢
  have hw1 : wrap64 (pageIndex - 1) = pageIndex - 1 := wrap64_eq _ (by omega) (by omega)
  have hw2 : wrap64 (wrap64 (pageIndex - 1) * pageSize) = s := by
    rw [hw1, hs]; exact wrap64_eq _ (by omega) (by omega)
  have hw3 : wrap64 (s + pageSize) = s + pageSize := by
    apply wrap64_eq
    · omega
    · rcases hsp with h | h
      · rw [h] at hs; simp at hs; omega
      · omega
  obtain ⟨r, hr, hrel⟩ := subslice_ok S s (if s + pageSize > S.len then S.len else s + pageSize)
    hs0 (by split <;> omega) (by split <;> omega)
  rw [hSlen] at hr hrel
  have hout : (GetByBoardIDAndPonIDWithPagination env b p pageIndex pageSize).out
      = Outcome.ret (sortSlice ONUInfoPerBoard.ID
          (pageInfoLoop env oc b p [Event.snmpWalk (oc.BaseOID ++ oc.OnuIDNameOID)]
            r.elems none).1, n) := by
    unfold GetByBoardIDAndPonIDWithPagination paginationClosure
    rw [hcfg]
    simp only [hW, hwalk, hw2, hw3, ← hSdef, hSlen, hr]
  refine ⟨_, hout, ?_, Slice.elems_sortSlice_sorted _ _⟩
  refine (Slice.elems_sortSlice_perm _ _).trans ?_
  rw [pageInfoLoop_ids, hrel]
  have hnone : Slice.elems (none : Slice ONUInfoPerBoard) = [] := rfl
  simp only [hnone, List.map_nil, List.nil_append, List.map_take, List.map_drop, hSids]
  have hwl : (walkedIds env W.1).length = n.toNat := by omega
  apply List.Perm.of_eq
  split
  · rw [List.take_of_length_le (by rw [List.length_drop]; omega)]
    rw [List.take_of_length_le (by rw [List.length_drop]; omega)]
  · congr 1
    omega

/-- C5: when the profile resolves and the walk succeeds with `n` ids, for `pageIndex ≥ 1` and
`pageSize ≥ 1` (Go `int` values) with `start = (pageIndex-1)*pageSize ≤ n`, the paginated
listing returns the count `n` and a list whose ids are the walked ids at positions `start` up
to `min (start+pageSize) n` of the walk order, rearranged in ascending order; it has
`min pageSize (n - start)` entries, so with `n = 25` and `pageSize = 10` page 2 has 10 entries
and page 3 the remaining 5. The bound on `n` holds for every slice a 64-bit machine stores. -/
theorem C5_page_is_sorted_window (env : Env) (b p pageIndex pageSize : Int) (oc : OltConfig)
    (hcfg : getOltConfig env.cfg b p = (some oc, none))
    (hwalk : (env.Walk [] (oc.BaseOID ++ oc.OnuIDNameOID)).2 = none)
    (hidx : 1 ≤ pageIndex) (hidx64 : pageIndex < 9223372036854775808)
    (hsize : 1 ≤ pageSize) (hsize64 : pageSize < 9223372036854775808)
    (hlen : ((walkedIds env (env.Walk [] (oc.BaseOID ++ oc.OnuIDNameOID)).1).length : Int)
              < 4611686018427387904)
    (hstart : (pageIndex - 1) * pageSize
              ≤ ((walkedIds env (env.Walk [] (oc.BaseOID ++ oc.OnuIDNameOID)).1).length : Int)) :
    ∃ page : Slice ONUInfoPerBoard,
      (GetByBoardIDAndPonIDWithPagination env b p pageIndex pageSize).out
        = Outcome.ret (page,
            ((walkedIds env (env.Walk [] (oc.BaseOID ++ oc.OnuIDNameOID)).1).length : Int))
      ∧ (page.elems.map ONUInfoPerBoard.ID).Perm
          (((walkedIds env (env.Walk [] (oc.BaseOID ++ oc.OnuIDNameOID)).1).drop
              ((pageIndex - 1) * pageSize).toNat).take pageSize.toNat)
      ∧ (page.elems.map ONUInfoPerBoard.ID).Sorted (fun x y => x ≤ y)
      ∧ (page.elems.length : Int)
          = min pageSize
              (((walkedIds env (env.Walk [] (oc.BaseOID ++ oc.OnuIDNameOID)).1).length : Int)
                - (pageIndex - 1) * pageSize)
      ∧ ((walkedIds env (env.Walk [] (oc.BaseOID ++ oc.OnuIDNameOID)).1).length = 25 →
          pageSize = 10 →
          (pageIndex = 2 → page.elems.length = 10) ∧ (pageIndex = 3 → page.elems.length = 5)) := by
  obtain ⟨page, hout, hperm, hsorted⟩ :=
    pagination_window env b p pageIndex pageSize oc hcfg hwalk hidx hidx64 hsize hsize64 hlen hstart
  have hs0 : 0 ≤ (pageIndex - 1) * pageSize := mul_nonneg (by omega) (by omega)
  have hl := hperm.length_eq
  rw [List.length_map, List.length_take, List.length_drop] at hl
  have hlenInt : (page.elems.length : Int)
      = min pageSize
          (((walkedIds env (env.Walk [] (oc.BaseOID ++ oc.OnuIDNameOID)).1).length : Int)
            - (pageIndex - 1) * pageSize) := by
    rw [hl]
    generalize (pageIndex - 1) * pageSize = s at hs0 hstart ⊢
    omega
  refine ⟨page, hout, hperm, hsorted, hlenInt, ?_⟩
  intro h25 h10
  rw [h25, h10] at hlenInt
  constructor
  · intro h2; rw [h2] at hlenInt; norm_num at hlenInt; omega
  · intro h3; rw [h3] at hlenInt; norm_num at hlenInt; omega

/-- Witness of C5: page 3 of size 10 over a device that walks the ids 1 to 25. -/
theorem C5_page_is_sorted_window_witness :
    ∃ page : Slice ONUInfoPerBoard,
      (GetByBoardIDAndPonIDWithPagination (sampleEnv (idsUpTo 25) none none) 1 1 3 10).out
        = Outcome.ret (page, 25)
      ∧ (page.elems.map ONUInfoPerBoard.ID).Perm [21, 22, 23, 24, 25]
      ∧ page.elems.length = 5 := by
  have hids : walkedIds (sampleEnv (idsUpTo 25) none none)
      ((sampleEnv (idsUpTo 25) none none).Walk []
        ((({} : OltConfig)).BaseOID ++ (({} : OltConfig)).OnuIDNameOID)).1 = idsUpTo 25 := by
    decide
  obtain ⟨page, hout, hperm, _, _, hex⟩ :=
    C5_page_is_sorted_window (sampleEnv (idsUpTo 25) none none) 1 1 3 10 {} rfl rfl
      (by decide) (by decide) (by decide) (by decide)
      (by rw [hids]; decide) (by rw [hids]; decide)
  rw [hids] at hout hperm hex
  exact ⟨page, hout, hperm, (hex rfl rfl).2 rfl⟩

/-- C6, the claim fails as stated: a walk that delivers the two distinct ids 2 and 1 in that
order gives, for page 1 of size 1, the id 2 (the first walked id), whereas the id of rank 1 in
ascending order is 1. -/
theorem C6_first_page_of_descending_walk_is_not_ranked :
    (walkedIds (sampleEnv [2, 1] none none) (pdusOfIds [2, 1])).Nodup
    ∧ (GetByBoardIDAndPonIDWithPagination (sampleEnv [2, 1] none none) 1 1 1 1).out
        = Outcome.ret (some [{ Board := 1, PON := 1, ID := 2 }], 2)
    ∧ rankedPage (walkedIds (sampleEnv [2, 1] none none) (pdusOfIds [2, 1])) 1 1 = [1] := by
  decide

/-- C6, amended: when the walk delivers distinct ids in ascending order and the start index
`(pageIndex-1)*pageSize` does not exceed their number, the page holds exactly the ids whose
rank in ascending order is `(pageIndex-1)*pageSize + 1` to `pageIndex*pageSize`, and the count
is the number of walked ids. -/
theorem C6_page_is_ranked_when_walk_ascending (env : Env) (b p pageIndex pageSize : Int)
    (oc : OltConfig)
    (hcfg : getOltConfig env.cfg b p = (some oc, none))
    (hwalk : (env.Walk [] (oc.BaseOID ++ oc.OnuIDNameOID)).2 = none)
    (hasc : (walkedIds env (env.Walk [] (oc.BaseOID ++ oc.OnuIDNameOID)).1).Pairwise
              (fun x y => x < y))
    (hidx : 1 ≤ pageIndex) (hidx64 : pageIndex < 9223372036854775808)
    (hsize : 1 ≤ pageSize) (hsize64 : pageSize < 9223372036854775808)
    (hlen : ((walkedIds env (env.Walk [] (oc.BaseOID ++ oc.OnuIDNameOID)).1).length : Int)
              < 4611686018427387904)
    (hstart : (pageIndex - 1) * pageSize
              ≤ ((walkedIds env (env.Walk [] (oc.BaseOID ++ oc.OnuIDNameOID)).1).length : Int)) :
    ∃ page : Slice ONUInfoPerBoard,
      (GetByBoardIDAndPonIDWithPagination env b p pageIndex pageSize).out
        = Outcome.ret (page,
            ((walkedIds env (env.Walk [] (oc.BaseOID ++ oc.OnuIDNameOID)).1).length : Int))
      ∧ page.elems.map ONUInfoPerBoard.ID
          = rankedPage (walkedIds env (env.Walk [] (oc.BaseOID ++ oc.OnuIDNameOID)).1)
              pageIndex pageSize := by
  obtain ⟨page, hout, hperm, hsorted⟩ :=
    pagination_window env b p pageIndex pageSize oc hcfg hwalk hidx hidx64 hsize hsize64 hlen hstart
  refine ⟨page, hout, ?_⟩
  generalize walkedIds env (env.Walk [] (oc.BaseOID ++ oc.OnuIDNameOID)).1 = ids at hasc hperm ⊢
  have hle : ids.Sorted (fun x y => x ≤ y) := hasc.imp (fun h => Int.le_of_lt h)
  unfold rankedPage
  rw [List.Sorted.insertionSort_eq hle]
  have hwin : ((ids.drop ((pageIndex - 1) * pageSize).toNat).take pageSize.toNat).Sorted
      (fun x y => x ≤ y) :=
    List.Pairwise.sublist ((List.take_sublist _ _).trans (List.drop_sublist _ _)) hle
  exact List.eq_of_perm_of_sorted hperm hsorted hwin

/-- Witness of C6 as amended: page 2 of size 10 over a device that walks the ids 1 to 25. -/
theorem C6_page_is_ranked_when_walk_ascending_witness :
    ∃ page : Slice ONUInfoPerBoard,
      (GetByBoardIDAndPonIDWithPagination (sampleEnv (idsUpTo 25) none none) 1 1 2 10).out
        = Outcome.ret (page, 25)
      ∧ page.elems.map ONUInfoPerBoard.ID = [11, 12, 13, 14, 15, 16, 17, 18, 19, 20] := by
  have hids : walkedIds (sampleEnv (idsUpTo 25) none none)
      ((sampleEnv (idsUpTo 25) none none).Walk []
        ((({} : OltConfig)).BaseOID ++ (({} : OltConfig)).OnuIDNameOID)).1 = idsUpTo 25 := by
    decide
  obtain ⟨page, hout, hpage⟩ :=
    C6_page_is_ranked_when_walk_ascending (sampleEnv (idsUpTo 25) none none) 1 1 2 10 {} rfl rfl
      (by rw [hids]; decide) (by decide) (by decide) (by decide) (by decide)
      (by rw [hids]; decide) (by rw [hids]; decide)
  rw [hids] at hout hpage
  exact ⟨page, hout, hpage.trans (by decide)⟩

/-- C7, the claim fails as stated: on board 1, port 1 the profile resolves, the cache misses,
the walk of 3, 7 and 10 succeeds and the cache write fails; `GetEmptyOnuID` then returns the
nil list together with the error of the write, not the computed list with a nil error. -/
theorem C7_write_failure_fails_GetEmptyOnuID :
    getOltConfig (sampleEnv [3, 7, 10] none (some ⟨"redis down"⟩)).cfg 1 1 = (some {}, none)
    ∧ ((sampleEnv [3, 7, 10] none (some ⟨"redis down"⟩)).Walk
          [Event.redisGetOnuIDCtx (emptyOnuIDKey 1 1)] "").2 = none
    ∧ (GetEmptyOnuID (sampleEnv [3, 7, 10] none (some ⟨"redis down"⟩)) 1 1).out
        = Outcome.ret (none, some ⟨"redis down"⟩) := by
  decide

/-- C7, amended: whenever the profile resolves, the cache read misses, the identity walk
succeeds and the cache write of the freshly computed free-slot list fails, `GetEmptyOnuID`
returns the nil list together with the error of that write. -/
theorem C7_GetEmptyOnuID_returns_write_error (env : Env) (b p : Int) (oc : OltConfig)
    (err : GoError)
    (hcfg : getOltConfig env.cfg b p = (some oc, none))
    (hmiss : ¬ ((env.GetOnuIDCtx [] (emptyOnuIDKey b p)).2 = none
                 ∧ (env.GetOnuIDCtx [] (emptyOnuIDKey b p)).1 ≠ none))
    (hwalk : (env.Walk [Event.redisGetOnuIDCtx (emptyOnuIDKey b p)]
                (oc.BaseOID ++ oc.OnuIDNameOID)).2 = none)
    (hset : env.SetOnuIDCtx
              [Event.redisGetOnuIDCtx (emptyOnuIDKey b p),
               Event.snmpWalk (oc.BaseOID ++ oc.OnuIDNameOID)]
              (emptyOnuIDKey b p) 300
              (some (freeSlots b p (walkedIds env
                (env.Walk [Event.redisGetOnuIDCtx (emptyOnuIDKey b p)]
                  (oc.BaseOID ++ oc.OnuIDNameOID)).1))) = some err) :
    (GetEmptyOnuID env b p).out = Outcome.ret (none, some err)
    ∧ (GetEmptyOnuID env b p).trace =
        [Event.redisGetOnuIDCtx (emptyOnuIDKey b p),
         Event.snmpWalk (oc.BaseOID ++ oc.OnuIDNameOID),
         Event.redisSetOnuIDCtx (emptyOnuIDKey b p) 300
          (some (freeSlots b p (walkedIds env
            (env.Walk [Event.redisGetOnuIDCtx (emptyOnuIDKey b p)]
              (oc.BaseOID ++ oc.OnuIDNameOID)).1)))] := by
  rw [GetEmptyOnuID_miss env b p oc hcfg hmiss hwalk, hset]
  exact ⟨rfl, rfl⟩

/-- Witness of C7 as amended: the walk of 3, 7 and 10 over a Redis that refuses writes. -/
theorem C7_GetEmptyOnuID_returns_write_error_witness :
    (GetEmptyOnuID (sampleEnv [3, 7, 10] none (some ⟨"redis down"⟩)) 1 1).out
      = Outcome.ret (none, some ⟨"redis down"⟩) :=
  (C7_GetEmptyOnuID_returns_write_error (sampleEnv [3, 7, 10] none (some ⟨"redis down"⟩)) 1 1 {}
    ⟨"redis down"⟩ rfl (by decide) rfl rfl).1

theorem GetByBoardIDAndPonID_miss (env : Env) (b p : Int) (oc : OltConfig)
    (hcfg : getOltConfig env.cfg b p = (some oc, none))
    (hmiss : (env.GetONUInfoList [] (onuInfoKey b p)).2 ≠ none
              ∨ (env.GetONUInfoList [] (onuInfoKey b p)).1 = none)
    (hwalk : (env.Walk [Event.redisGetONUInfoList (onuInfoKey b p)]
                (oc.BaseOID ++ oc.OnuIDNameOID)).2 = none) :
    (GetByBoardIDAndPonID env b p).out =
        Outcome.ret (sortSlice ONUInfoPerBoard.ID
          (onuInfoLoop env oc b p
            [Event.redisGetONUInfoList (onuInfoKey b p),
             Event.snmpWalk (oc.BaseOID ++ oc.OnuIDNameOID)]
            (env.rangeOrder
              ((env.Walk [Event.redisGetONUInfoList (onuInfoKey b p)]
                  (oc.BaseOID ++ oc.OnuIDNameOID)).1.foldl
                (fun m pdu => GoMap.set m (env.utils.ExtractONUID pdu.Name) pdu) []))
            none).1, none)
    ∧ (GetByBoardIDAndPonID env b p).trace =
        (onuInfoLoop env oc b p
            [Event.redisGetONUInfoList (onuInfoKey b p),
             Event.snmpWalk (oc.BaseOID ++ oc.OnuIDNameOID)]
            (env.rangeOrder
              ((env.Walk [Event.redisGetONUInfoList (onuInfoKey b p)]
                  (oc.BaseOID ++ oc.OnuIDNameOID)).1.foldl
                (fun m pdu => GoMap.set m (env.utils.ExtractONUID pdu.Name) pdu) []))
            none).2
        ++ [Event.redisSaveONUInfoList (onuInfoKey b p) 300
            (sortSlice ONUInfoPerBoard.ID
              (onuInfoLoop env oc b p
                [Event.redisGetONUInfoList (onuInfoKey b p),
                 Event.snmpWalk (oc.BaseOID ++ oc.OnuIDNameOID)]
                (env.rangeOrder
                  ((env.Walk [Event.redisGetONUInfoList (onuInfoKey b p)]
                      (oc.BaseOID ++ oc.OnuIDNameOID)).1.foldl
                    (fun m pdu => GoMap.set m (env.utils.ExtractONUID pdu.Name) pdu) []))
                none).1)] := by
  have hmiss' : ¬ ((env.GetONUInfoList [] (onuInfoKey b p)).2 = none
                 ∧ (env.GetONUInfoList [] (onuInfoKey b p)).1 ≠ none) := by
    rintro ⟨h1, h2⟩
    rcases hmiss with h | h
    · exact h h1
    · exact h2 h
  unfold onuInfoKey at *
  unfold GetByBoardIDAndPonID
  rw [hcfg]
  simp only [if_neg hmiss', hwalk, List.singleton_append]
  split <;> exact ⟨rfl, rfl⟩

theorem getBoard1Config_none (cfg : Config) (p : Int) (h : p < 1 ∨ 16 < p) :
    getBoard1Config cfg p = none := by
  unfold getBoard1Config
  split <;> first | omega | rfl

theorem getBoard2Config_none (cfg : Config) (p : Int) (h : p < 1 ∨ 16 < p) :
    getBoard2Config cfg p = none := by
  unfold getBoard2Config
  split <;> first | omega | rfl

theorem getBoard1Config_some (cfg : Config) (p : Int) (h1 : 1 ≤ p) (h2 : p ≤ 16) :
    ∃ oc, getBoard1Config cfg p = some oc := by
  interval_cases p <;> exact ⟨_, rfl⟩

theorem getBoard2Config_some (cfg : Config) (p : Int) (h1 : 1 ≤ p) (h2 : p ≤ 16) :
    ∃ oc, getBoard2Config cfg p = some oc := by
  interval_cases p <;> exact ⟨_, rfl⟩

theorem getOltConfig_resolves_iff (cfg : Config) (b p : Int) :
    (∃ oc, getOltConfig cfg b p = (some oc, none)) ↔ ((b = 1 ∨ b = 2) ∧ 1 ≤ p ∧ p ≤ 16) := by
  constructor
  · rintro ⟨oc, h⟩
    by_cases hb1 : b = 1
    · subst hb1
      refine ⟨Or.inl rfl, ?_⟩
      by_contra hp
      have hn := getBoard1Config_none cfg p (by omega)
      simp [getOltConfig, getBoardConfig, hn] at h
    · by_cases hb2 : b = 2
      · subst hb2
        refine ⟨Or.inr rfl, ?_⟩
        by_contra hp
        have hn := getBoard2Config_none cfg p (by omega)
        simp [getOltConfig, getBoardConfig, hn] at h
      · exfalso
        unfold getOltConfig getBoardConfig at h
        split at h
        · rename_i heq
          split at heq
          · exact hb1 rfl
          · exact hb2 rfl
          · simp at h
        · rename_i heq
          split at heq
          · exact hb1 rfl
          · exact hb2 rfl
          · simp at heq
  · rintro ⟨hb, h1, h2⟩
    rcases hb with rfl | rfl
    · obtain ⟨oc, hoc⟩ := getBoard1Config_some cfg p h1 h2
      exact ⟨oc, by simp [getOltConfig, getBoardConfig, hoc]⟩
    · obtain ⟨oc, hoc⟩ := getBoard2Config_some cfg p h1 h2
      exact ⟨oc, by simp [getOltConfig, getBoardConfig, hoc]⟩

/-- C8: for a valid board and port the profile resolves, and whenever the cache read returns
an error or no data and the identity walk succeeds, `GetByBoardIDAndPonID` returns with a nil
error the list it has just built from the device (the records of the walked entries, sorted
by ID), which is also the payload of the cache write it issues last; the answer of that write
does not enter the result. -/
theorem C8_port_listing_survives_cache_failure (env : Env) (b p : Int)
    (hb : b = 1 ∨ b = 2) (hp : 1 ≤ p ∧ p ≤ 16)
    (hmiss : (env.GetONUInfoList [] (onuInfoKey b p)).2 ≠ none
              ∨ (env.GetONUInfoList [] (onuInfoKey b p)).1 = none) :
    ∃ oc : OltConfig, getOltConfig env.cfg b p = (some oc, none)
      ∧ ((env.Walk [Event.redisGetONUInfoList (onuInfoKey b p)]
            (oc.BaseOID ++ oc.OnuIDNameOID)).2 = none →
          ∃ list : Slice ONUInfoPerBoard,
            (GetByBoardIDAndPonID env b p).out = Outcome.ret (list, none)
            ∧ list = sortSlice ONUInfoPerBoard.ID
                (onuInfoLoop env oc b p
                  [Event.redisGetONUInfoList (onuInfoKey b p),
                   Event.snmpWalk (oc.BaseOID ++ oc.OnuIDNameOID)]
                  (env.rangeOrder
                    ((env.Walk [Event.redisGetONUInfoList (onuInfoKey b p)]
                        (oc.BaseOID ++ oc.OnuIDNameOID)).1.foldl
                      (fun m pdu => GoMap.set m (env.utils.ExtractONUID pdu.Name) pdu) []))
                  none).1
            ∧ (GetByBoardIDAndPonID env b p).trace.getLast?
                = some (Event.redisSaveONUInfoList (onuInfoKey b p) 300 list)) := by
  obtain ⟨oc, hcfg⟩ := (getOltConfig_resolves_iff env.cfg b p).mpr ⟨hb, hp⟩
  refine ⟨oc, hcfg, fun hwalk => ?_⟩
  obtain ⟨hout, htrace⟩ := GetByBoardIDAndPonID_miss env b p oc hcfg hmiss hwalk
  refine ⟨_, hout, rfl, ?_⟩
  rw [htrace]
  simp

/-- Witness of C8: the walk of 2 and 1 on board 1, port 1 over an empty Redis that refuses
writes; both records come back, sorted, with a nil error. -/
theorem C8_port_listing_survives_cache_failure_witness :
    (GetByBoardIDAndPonID (sampleEnv [2, 1] none (some ⟨"redis down"⟩)) 1 1).out
      = Outcome.ret (some [{ Board := 1, PON := 1, ID := 1, Name := "onu" },
                           { Board := 1, PON := 1, ID := 2, Name := "onu" }], none) := by
  obtain ⟨oc, hcfg, h⟩ :=
    C8_port_listing_survives_cache_failure (sampleEnv [2, 1] none (some ⟨"redis down"⟩)) 1 1
      (Or.inl rfl) (by decide) (Or.inr rfl)
  have hoc : oc = {} := by
    have h2 : getOltConfig (sampleEnv [2, 1] none (some ⟨"redis down"⟩)).cfg 1 1
        = (some {}, none) := rfl
    rw [h2] at hcfg
    simp only [Prod.mk.injEq, Option.some.injEq, and_true] at hcfg
    exact hcfg.symm
  subst hoc
  obtain ⟨list, hout, hlist, _⟩ := h rfl
  rw [hout, hlist]
  decide

/-- C9: for a valid board and port, when the cache read for the key `board_<b>_pon_<p>`
returns a non-nil list without error, `GetByBoardIDAndPonID` returns exactly that list with a
nil error, and the cache read is the only call it makes: no walk, no single fetch, no cache
write. -/
theorem C9_cache_hit_is_returned_untouched (env : Env) (b p : Int) (list : List ONUInfoPerBoard)
    (hb : b = 1 ∨ b = 2) (hp : 1 ≤ p ∧ p ≤ 16)
    (herr : (env.GetONUInfoList [] (onuInfoKey b p)).2 = none)
    (hdata : (env.GetONUInfoList [] (onuInfoKey b p)).1 = some list) :
    (GetByBoardIDAndPonID env b p).out = Outcome.ret (some list, none)
    ∧ (GetByBoardIDAndPonID env b p).trace = [Event.redisGetONUInfoList (onuInfoKey b p)]
    ∧ noDeviceCall (GetByBoardIDAndPonID env b p).trace
    ∧ noCacheWrite (GetByBoardIDAndPonID env b p).trace := by
  obtain ⟨oc, hcfg⟩ := (getOltConfig_resolves_iff env.cfg b p).mpr ⟨hb, hp⟩
  have hhit : (env.GetONUInfoList [] (onuInfoKey b p)).2 = none
      ∧ (env.GetONUInfoList [] (onuInfoKey b p)).1 ≠ none := ⟨herr, by rw [hdata]; simp⟩
  have hrun : GetByBoardIDAndPonID env b p
      = ⟨Outcome.ret (some list, none), [Event.redisGetONUInfoList (onuInfoKey b p)]⟩ := by
    unfold onuInfoKey at *
    unfold GetByBoardIDAndPonID
    rw [hcfg]
    simp only [if_pos hhit]
    rw [hdata]
  rw [hrun]
  refine ⟨rfl, rfl, ?_, ?_⟩
  · intro e he
    simp only [List.mem_singleton] at he
    subst he
    exact ⟨rfl, rfl⟩
  · intro e he
    simp only [List.mem_singleton] at he
    subst he
    rfl

/-- Witness of C9: a Redis that holds one record under `board_1_pon_2`. -/
theorem C9_cache_hit_is_returned_untouched_witness :
    onuInfoKey 1 2 = "board_1_pon_2"
    ∧ (GetByBoardIDAndPonID
        { sampleEnv [5] none none with
          GetONUInfoList := fun _ _ => (some [{ Board := 1, PON := 2, ID := 9 }], none) } 1 2).out
      = Outcome.ret (some [{ Board := 1, PON := 2, ID := 9 }], none)
    ∧ (GetByBoardIDAndPonID
        { sampleEnv [5] none none with
          GetONUInfoList := fun _ _ => (some [{ Board := 1, PON := 2, ID := 9 }], none) } 1 2).trace
      = [Event.redisGetONUInfoList "board_1_pon_2"] := by
  have hkey : onuInfoKey 1 2 = "board_1_pon_2" := by decide
  have h := C9_cache_hit_is_returned_untouched
    { sampleEnv [5] none none with
      GetONUInfoList := fun _ _ => (some [{ Board := 1, PON := 2, ID := 9 }], none) } 1 2
    [{ Board := 1, PON := 2, ID := 9 }] (Or.inl rfl) (by decide) rfl rfl
  rw [hkey] at h
  exact ⟨hkey, h.1, h.2.1⟩

/-- C10: for a resolved profile, if the identity walk returns an error then each of
`GetByBoardIDAndPonID` and `GetEmptyOnuID` (which reach the walk after a cache miss),
`GetOnuIDAndSerialNumber` and `UpdateEmptyOnuID` returns a non-nil error, with a nil list
where it returns one, and makes no cache write. The first three pass the error of the walk
on; `UpdateEmptyOnuID` replaces it by "failed to perform SNMP Walk". -/
theorem C10_walk_error_aborts_without_cache_write (env : Env) (b p : Int) (oc : OltConfig)
    (err : GoError)
    (hcfg : getOltConfig env.cfg b p = (some oc, none)) :
    (((env.GetONUInfoList [] (onuInfoKey b p)).2 ≠ none
        ∨ (env.GetONUInfoList [] (onuInfoKey b p)).1 = none) →
      (env.Walk [Event.redisGetONUInfoList (onuInfoKey b p)]
          (oc.BaseOID ++ oc.OnuIDNameOID)).2 = some err →
      (GetByBoardIDAndPonID env b p).out = Outcome.ret (none, some err)
      ∧ noCacheWrite (GetByBoardIDAndPonID env b p).trace)
    ∧ (((env.GetOnuIDCtx [] (emptyOnuIDKey b p)).2 ≠ none
        ∨ (env.GetOnuIDCtx [] (emptyOnuIDKey b p)).1 = none) →
      (env.Walk [Event.redisGetOnuIDCtx (emptyOnuIDKey b p)]
          (oc.BaseOID ++ oc.OnuIDNameOID)).2 = some err →
      (GetEmptyOnuID env b p).out = Outcome.ret (none, some err)
      ∧ noCacheWrite (GetEmptyOnuID env b p).trace)
    ∧ ((env.Walk [] (oc.BaseOID ++ oc.OnuIDNameOID)).2 = some err →
      (GetOnuIDAndSerialNumber env b p).out = Outcome.ret (none, some err)
      ∧ noCacheWrite (GetOnuIDAndSerialNumber env b p).trace)
    ∧ ((env.Walk [] (oc.BaseOID ++ oc.OnuIDNameOID)).2 = some err →
      (UpdateEmptyOnuID env b p).out = Outcome.ret (some ⟨"failed to perform SNMP Walk"⟩)
      ∧ noCacheWrite (UpdateEmptyOnuID env b p).trace) := by
  refine ⟨?_, ?_, ?_, ?_⟩
  · intro hmiss hwalk
    have hmiss' : ¬ ((env.GetONUInfoList [] (onuInfoKey b p)).2 = none
                 ∧ (env.GetONUInfoList [] (onuInfoKey b p)).1 ≠ none) := by
      rintro ⟨h1, h2⟩
      rcases hmiss with h | h
      · exact h h1
      · exact h2 h
    have hrun : GetByBoardIDAndPonID env b p
        = ⟨Outcome.ret (none, some err),
            [Event.redisGetONUInfoList (onuInfoKey b p),
             Event.snmpWalk (oc.BaseOID ++ oc.OnuIDNameOID)]⟩ := by
      unfold onuInfoKey at *
      unfold GetByBoardIDAndPonID
      rw [hcfg]
      simp only [if_neg hmiss', hwalk, List.singleton_append]
    rw [hrun]
    refine ⟨rfl, fun e he => ?_⟩
    simp only [List.mem_cons, List.mem_singleton, List.mem_nil_iff, or_false] at he
    rcases he with rfl | rfl <;> rfl
  · intro hmiss hwalk
    have hmiss' : ¬ ((env.GetOnuIDCtx [] (emptyOnuIDKey b p)).2 = none
                 ∧ (env.GetOnuIDCtx [] (emptyOnuIDKey b p)).1 ≠ none) := by
      rintro ⟨h1, h2⟩
      rcases hmiss with h | h
      · exact h h1
      · exact h2 h
    have hrun : GetEmptyOnuID env b p
        = ⟨Outcome.ret (none, some err),
            [Event.redisGetOnuIDCtx (emptyOnuIDKey b p),
             Event.snmpWalk (oc.BaseOID ++ oc.OnuIDNameOID)]⟩ := by
      unfold emptyOnuIDKey at *
      unfold GetEmptyOnuID
      rw [hcfg]
      simp only [if_neg hmiss', hwalk, List.singleton_append]
    rw [hrun]
    refine ⟨rfl, fun e he => ?_⟩
    simp only [List.mem_cons, List.mem_singleton, List.mem_nil_iff, or_false] at he
    rcases he with rfl | rfl <;> rfl
  · intro hwalk
    have hrun : GetOnuIDAndSerialNumber env b p
        = ⟨Outcome.ret (none, some err), [Event.snmpWalk (oc.BaseOID ++ oc.OnuIDNameOID)]⟩ := by
      unfold GetOnuIDAndSerialNumber
      rw [hcfg]
      simp only [hwalk]
    rw [hrun]
    refine ⟨rfl, fun e he => ?_⟩
    simp only [List.mem_singleton] at he
    subst he
    rfl
  · intro hwalk
    have hrun : UpdateEmptyOnuID env b p
        = ⟨Outcome.ret (some ⟨"failed to perform SNMP Walk"⟩),
            [Event.snmpWalk (oc.BaseOID ++ oc.OnuIDNameOID)]⟩ := by
      unfold UpdateEmptyOnuID
      rw [hcfg]
      simp only [hwalk]
    rw [hrun]
    refine ⟨rfl, fun e he => ?_⟩
    simp only [List.mem_singleton] at he
    subst he
    rfl

/-- Witness of C10: a device whose walk times out on board 1, port 1, over an empty Redis. -/
theorem C10_walk_error_aborts_without_cache_write_witness :
    (GetByBoardIDAndPonID (sampleEnv [] (some ⟨"timeout"⟩) none) 1 1).out
      = Outcome.ret (none, some ⟨"timeout"⟩)
    ∧ (GetEmptyOnuID (sampleEnv [] (some ⟨"timeout"⟩) none) 1 1).out
      = Outcome.ret (none, some ⟨"timeout"⟩)
    ∧ (GetOnuIDAndSerialNumber (sampleEnv [] (some ⟨"timeout"⟩) none) 1 1).out
      = Outcome.ret (none, some ⟨"timeout"⟩)
    ∧ (UpdateEmptyOnuID (sampleEnv [] (some ⟨"timeout"⟩) none) 1 1).out
      = Outcome.ret (some ⟨"failed to perform SNMP Walk"⟩)
    ∧ noCacheWrite (UpdateEmptyOnuID (sampleEnv [] (some ⟨"timeout"⟩) none) 1 1).trace := by
  obtain ⟨h1, h2, h3, h4⟩ :=
    C10_walk_error_aborts_without_cache_write (sampleEnv [] (some ⟨"timeout"⟩) none) 1 1 {}
      ⟨"timeout"⟩ rfl
  exact ⟨(h1 (Or.inr rfl) rfl).1, (h2 (Or.inr rfl) rfl).1, (h3 rfl).1, (h4 rfl).1, (h4 rfl).2⟩

/-- C11, the claim fails as stated: on an invalid board (3), and on a valid port whose walk
times out, the paginated listing returns the pair (nil, 0); on a valid port whose walk
succeeds without delivering any terminal it returns the pair (nil, 0) as well. -/
theorem C11_failure_pair_is_the_empty_port_pair :
    (getOltConfig (sampleEnv [] none none).cfg 3 1).2 = some ⟨"invalid Board ID"⟩
    ∧ (GetByBoardIDAndPonIDWithPagination (sampleEnv [] none none) 3 1 1 10).out
        = Outcome.ret (none, 0)
    ∧ (GetByBoardIDAndPonIDWithPagination (sampleEnv [] (some ⟨"timeout"⟩) none) 1 1 1 10).out
        = Outcome.ret (none, 0)
    ∧ (GetByBoardIDAndPonIDWithPagination (sampleEnv [] none none) 1 1 1 10).out
        = Outcome.ret (none, 0) := by
  decide

/-- C11, amended: `GetByBoardIDAndPonIDWithPagination` returns the pair (nil, 0) when the
profile lookup reports an error and when the identity walk reports an error, and it returns
the same pair (nil, 0) for the first page of a port whose walk succeeds without delivering a
terminal: its result carries no error, so a failure is not told apart from an empty port. -/
theorem C11_failure_and_empty_port_both_nil_zero (env : Env) (b p pageIndex pageSize : Int) :
    (∀ err, (getOltConfig env.cfg b p).2 = some err →
        (GetByBoardIDAndPonIDWithPagination env b p pageIndex pageSize).out
          = Outcome.ret (none, 0))
    ∧ (∀ oc err, getOltConfig env.cfg b p = (some oc, none) →
        (env.Walk [] (oc.BaseOID ++ oc.OnuIDNameOID)).2 = some err →
        (GetByBoardIDAndPonIDWithPagination env b p pageIndex pageSize).out
          = Outcome.ret (none, 0))
    ∧ (∀ oc, getOltConfig env.cfg b p = (some oc, none) →
        env.Walk [] (oc.BaseOID ++ oc.OnuIDNameOID) = ([], none) →
        pageIndex = 1 → 1 ≤ pageSize → pageSize < 9223372036854775808 →
        (GetByBoardIDAndPonIDWithPagination env b p pageIndex pageSize).out
          = Outcome.ret (none, 0)) := by
  refine ⟨?_, ?_, ?_⟩
  · intro err herr
    rcases hc : getOltConfig env.cfg b p with ⟨c, e⟩
    rw [hc] at herr
    simp only at herr
    subst herr
    unfold GetByBoardIDAndPonIDWithPagination paginationClosure
    rw [hc]
    cases c <;> rfl
  · intro oc err hcfg hwalk
    unfold GetByBoardIDAndPonIDWithPagination paginationClosure
    rw [hcfg]
    simp only [hwalk]
  · intro oc hcfg hwalk hidx h1 h2
    subst hidx
    have hw0 : wrap64 (wrap64 (1 - 1) * pageSize) = 0 := by
      have h0 : wrap64 (1 - 1) = 0 := by decide
      rw [h0, zero_mul]; decide
    have hw1 : wrap64 (0 + pageSize) = pageSize := by
      rw [zero_add]; exact wrap64_eq _ (by omega) (by omega)
    have hgt : pageSize > Slice.len (none : Slice OnuOnlyID) := by
      show pageSize > 0
      omega
    unfold GetByBoardIDAndPonIDWithPagination paginationClosure
    rw [hcfg]
    simp only [hwalk, List.foldl_nil, hw0, hw1, if_pos hgt]
    rfl

/-- Witness of C11 as amended: board 3, a walk that times out, and an empty port. -/
theorem C11_failure_and_empty_port_both_nil_zero_witness :
    (GetByBoardIDAndPonIDWithPagination (sampleEnv [] none none) 3 1 1 10).out
      = Outcome.ret (none, 0)
    ∧ (GetByBoardIDAndPonIDWithPagination (sampleEnv [] (some ⟨"timeout"⟩) none) 1 1 1 10).out
      = Outcome.ret (none, 0)
    ∧ (GetByBoardIDAndPonIDWithPagination (sampleEnv [] none none) 1 1 1 10).out
      = Outcome.ret (none, 0) :=
  ⟨(C11_failure_and_empty_port_both_nil_zero (sampleEnv [] none none) 3 1 1 10).1
      ⟨"invalid Board ID"⟩ rfl,
   (C11_failure_and_empty_port_both_nil_zero (sampleEnv [] (some ⟨"timeout"⟩) none) 1 1 1 10).2.1
      {} ⟨"timeout"⟩ rfl rfl,
   (C11_failure_and_empty_port_both_nil_zero (sampleEnv [] none none) 1 1 1 10).2.2
      {} rfl rfl rfl (by decide) (by decide)⟩

theorem GoMap.keys_set {κ ν : Type} [DecidableEq κ] (m : GoMap κ ν) (k : κ) (v : ν) :
    (GoMap.set m k v).map Prod.fst = if k ∈ m.map Prod.fst then m.map Prod.fst
                                      else m.map Prod.fst ++ [k] := by
  unfold GoMap.set
  by_cases h : (List.any m fun e => decide (e.1 = k)) = true
  · have hk : k ∈ m.map Prod.fst := by
      simp only [List.any_eq_true, decide_eq_true_eq] at h
      obtain ⟨e, he, hek⟩ := h
      exact List.mem_map.mpr ⟨e, he, hek⟩
    rw [if_pos h, if_pos hk, List.map_map]
    apply List.map_congr_left
    intro e _
    by_cases hek : e.1 = k
    · simp [hek]
    · simp [hek]
  · have hk : k ∉ m.map Prod.fst := by
      intro hk
      apply h
      obtain ⟨e, he, hek⟩ := List.mem_map.mp hk
      simp only [List.any_eq_true, decide_eq_true_eq]
      exact ⟨e, he, hek⟩
    rw [if_neg h, if_neg hk]
    simp

theorem GoMap.keys_foldl_set {α κ ν : Type} [DecidableEq κ] (key : α → κ) (val : α → ν)
    (l : List α) :
    ∀ m : GoMap κ ν, (m.map Prod.fst).Nodup →
      ((l.foldl (fun m x => GoMap.set m (key x) (val x)) m).map Prod.fst).Nodup
      ∧ ∀ k, k ∈ (l.foldl (fun m x => GoMap.set m (key x) (val x)) m).map Prod.fst
            ↔ (k ∈ m.map Prod.fst ∨ k ∈ l.map key) := by
  induction l with
  | nil => intro m hm; simpa using hm
  | cons a l ih =>
    intro m hm
    have hnd : ((GoMap.set m (key a) (val a)).map Prod.fst).Nodup := by
      rw [GoMap.keys_set]
      split
      · exact hm
      · rename_i hk
        exact List.Nodup.append hm (List.nodup_singleton _) (by simpa using hk)
    have hmem : ∀ k, k ∈ (GoMap.set m (key a) (val a)).map Prod.fst
        ↔ (k ∈ m.map Prod.fst ∨ k = key a) := by
      intro k
      rw [GoMap.keys_set]
      split
      · rename_i hk
        constructor
        · exact Or.inl
        · rintro (h | h)
          · exact h
          · rw [h]; exact hk
      · simp
    obtain ⟨h1, h2⟩ := ih _ hnd
    refine ⟨h1, fun k => ?_⟩
    rw [List.foldl_cons, h2 k, hmem k, List.map_cons, List.mem_cons, or_assoc]

theorem snmpDataMapOf_keys (env : Env) (pdus : List SnmpPDU) :
    ((snmpDataMapOf env pdus).map Prod.fst).Nodup
    ∧ ∀ k, k ∈ (snmpDataMapOf env pdus).map Prod.fst
          ↔ k ∈ pdus.map (fun pdu => env.utils.ExtractONUID pdu.Name) := by
  have h := GoMap.keys_foldl_set (fun pdu : SnmpPDU => env.utils.ExtractONUID pdu.Name)
    (fun pdu => pdu) pdus [] (by simp)
  refine ⟨h.1, fun k => ?_⟩
  have h2 := h.2 k
  simp only [List.map_nil, List.not_mem_nil, false_or] at h2
  exact h2

theorem snmpDataMapOf_length (env : Env) (pdus : List SnmpPDU) :
    (snmpDataMapOf env pdus).length
      = (pdus.map (fun pdu => env.utils.ExtractONUID pdu.Name)).dedup.length := by
  obtain ⟨hnd, hmem⟩ := snmpDataMapOf_keys env pdus
  have hperm : ((snmpDataMapOf env pdus).map Prod.fst).Perm
      (pdus.map (fun pdu => env.utils.ExtractONUID pdu.Name)).dedup := by
    rw [List.perm_ext_iff_of_nodup hnd (List.nodup_dedup _)]
    intro k
    rw [hmem k, List.mem_dedup]
  have hl := hperm.length_eq
  rw [List.length_map] at hl
  exact hl

theorem onuInfoOfPdu_record (env : Env) (oc : OltConfig) (b p : Int) (t : Trace) (pdu : SnmpPDU) :
    (onuInfoOfPdu env oc b p t pdu).1 =
      { Board := b, PON := p, ID := env.utils.ExtractIDOnuID pdu.Name,
        Name := env.utils.ExtractName pdu.Value,
        OnuType := fieldOf
          (getONUType env t oc.OnuTypeOID (itoa (env.utils.ExtractIDOnuID pdu.Name))).1,
        SerialNumber := fieldOf
          (getSerialNumber env
            (getONUType env t oc.OnuTypeOID (itoa (env.utils.ExtractIDOnuID pdu.Name))).2
            oc.OnuSerialNumberOID (itoa (env.utils.ExtractIDOnuID pdu.Name))).1,
        RXPower := fieldOf
          (getRxPower env
            (getSerialNumber env
              (getONUType env t oc.OnuTypeOID (itoa (env.utils.ExtractIDOnuID pdu.Name))).2
              oc.OnuSerialNumberOID (itoa (env.utils.ExtractIDOnuID pdu.Name))).2
            oc.OnuRxPowerOID (itoa (env.utils.ExtractIDOnuID pdu.Name))).1,
        Status := fieldOf
          (getStatus env
            (getRxPower env
              (getSerialNumber env
                (getONUType env t oc.OnuTypeOID (itoa (env.utils.ExtractIDOnuID pdu.Name))).2
                oc.OnuSerialNumberOID (itoa (env.utils.ExtractIDOnuID pdu.Name))).2
              oc.OnuRxPowerOID (itoa (env.utils.ExtractIDOnuID pdu.Name))).2
            oc.OnuStatusOID (itoa (env.utils.ExtractIDOnuID pdu.Name))).1 } := by
  unfold onuInfoOfPdu
  simp only
  generalize (getONUType env t oc.OnuTypeOID (itoa (env.utils.ExtractIDOnuID pdu.Name))) = r1
  rcases r1 with ⟨v1, t1⟩
  cases v1 <;>
  · simp only
    generalize (getSerialNumber env t1 oc.OnuSerialNumberOID
      (itoa (env.utils.ExtractIDOnuID pdu.Name))) = r2
    rcases r2 with ⟨v2, t2⟩
    cases v2 <;>
    · simp only
      generalize (getRxPower env t2 oc.OnuRxPowerOID
        (itoa (env.utils.ExtractIDOnuID pdu.Name))) = r3
      rcases r3 with ⟨v3, t3⟩
      cases v3 <;>
      · simp only
        generalize (getStatus env t3 oc.OnuStatusOID
          (itoa (env.utils.ExtractIDOnuID pdu.Name))) = r4
        rcases r4 with ⟨v4, t4⟩
        cases v4 <;> rfl

theorem onuInfoLoop_records (env : Env) (oc : OltConfig) (b p : Int)
    (l : List (String × SnmpPDU)) :
    ∀ (t : Trace) (acc : Slice ONUInfoPerBoard),
      ∃ records : List ONUInfoPerBoard,
        (onuInfoLoop env oc b p t l acc).1.elems = acc.elems ++ records
        ∧ List.Forall₂ (fun e r => ∃ t', r = (onuInfoOfPdu env oc b p t' e.2).1) l records := by
  induction l with
  | nil =>
    intro t acc
    exact ⟨[], by simp [onuInfoLoop], List.Forall₂.nil⟩
  | cons e l ih =>
    intro t acc
    obtain ⟨records, h1, h2⟩ := ih (onuInfoOfPdu env oc b p t e.2).2
      (Slice.push acc (onuInfoOfPdu env oc b p t e.2).1)
    refine ⟨(onuInfoOfPdu env oc b p t e.2).1 :: records, ?_, List.Forall₂.cons ⟨t, rfl⟩ h2⟩
    rw [onuInfoLoop]
    simp only [h1]
    simp [Slice.push, Slice.elems]

/-- C12: on a cache miss of `GetByBoardIDAndPonID` with a resolved profile and a successful
walk, where the `range` over the map visits each of its entries once, the returned list
holds, up to the order, exactly one record per entry of the map, and the map has exactly one
entry per distinct key of the walked entries. In each record the type, the serial number, the
rx power and the status are, independently of each other, the value of their own fetch when
it succeeded and the empty string when it failed; board, PON, id and name come from the
entry. No pattern of failing fetches changes the number of records or the nil error. -/
theorem C12_one_record_per_key_failed_fields_empty (env : Env) (b p : Int) (oc : OltConfig)
    (hcfg : getOltConfig env.cfg b p = (some oc, none))
    (hmiss : (env.GetONUInfoList [] (onuInfoKey b p)).2 ≠ none
              ∨ (env.GetONUInfoList [] (onuInfoKey b p)).1 = none)
    (hwalk : (env.Walk [Event.redisGetONUInfoList (onuInfoKey b p)]
                (oc.BaseOID ++ oc.OnuIDNameOID)).2 = none)
    (hrange : (env.rangeOrder (snmpDataMapOf env
                (env.Walk [Event.redisGetONUInfoList (onuInfoKey b p)]
                  (oc.BaseOID ++ oc.OnuIDNameOID)).1)).Perm
              (snmpDataMapOf env
                (env.Walk [Event.redisGetONUInfoList (onuInfoKey b p)]
                  (oc.BaseOID ++ oc.OnuIDNameOID)).1)) :
    ∃ (list : Slice ONUInfoPerBoard) (records : List ONUInfoPerBoard),
      (GetByBoardIDAndPonID env b p).out = Outcome.ret (list, none)
      ∧ list.elems.Perm records
      ∧ List.Forall₂
          (fun e r => ∃ t1 t2 t3 t4 : Trace,
            r = { Board := b, PON := p, ID := env.utils.ExtractIDOnuID e.2.Name,
                  Name := env.utils.ExtractName e.2.Value,
                  OnuType := fieldOf (getONUType env t1 oc.OnuTypeOID
                    (itoa (env.utils.ExtractIDOnuID e.2.Name))).1,
                  SerialNumber := fieldOf (getSerialNumber env t2 oc.OnuSerialNumberOID
                    (itoa (env.utils.ExtractIDOnuID e.2.Name))).1,
                  RXPower := fieldOf (getRxPower env t3 oc.OnuRxPowerOID
                    (itoa (env.utils.ExtractIDOnuID e.2.Name))).1,
                  Status := fieldOf (getStatus env t4 oc.OnuStatusOID
                    (itoa (env.utils.ExtractIDOnuID e.2.Name))).1 })
          (env.rangeOrder (snmpDataMapOf env
            (env.Walk [Event.redisGetONUInfoList (onuInfoKey b p)]
              (oc.BaseOID ++ oc.OnuIDNameOID)).1))
          records
      ∧ ((snmpDataMapOf env
            (env.Walk [Event.redisGetONUInfoList (onuInfoKey b p)]
              (oc.BaseOID ++ oc.OnuIDNameOID)).1).map Prod.fst).Nodup
      ∧ (∀ k, k ∈ (snmpDataMapOf env
            (env.Walk [Event.redisGetONUInfoList (onuInfoKey b p)]
              (oc.BaseOID ++ oc.OnuIDNameOID)).1).map Prod.fst
          ↔ k ∈ (env.Walk [Event.redisGetONUInfoList (onuInfoKey b p)]
              (oc.BaseOID ++ oc.OnuIDNameOID)).1.map
                (fun pdu => env.utils.ExtractONUID pdu.Name))
      ∧ list.elems.length
          = ((env.Walk [Event.redisGetONUInfoList (onuInfoKey b p)]
              (oc.BaseOID ++ oc.OnuIDNameOID)).1.map
                (fun pdu => env.utils.ExtractONUID pdu.Name)).dedup.length := by
  obtain ⟨hout, _⟩ := GetByBoardIDAndPonID_miss env b p oc hcfg hmiss hwalk
  generalize hW : (env.Walk [Event.redisGetONUInfoList (onuInfoKey b p)]
      (oc.BaseOID ++ oc.OnuIDNameOID)).1 = W at hout hrange ⊢
  have hmap : List.foldl (fun m pdu => GoMap.set m (env.utils.ExtractONUID pdu.Name) pdu) [] W
      = snmpDataMapOf env W := rfl
  rw [hmap] at hout
  obtain ⟨records, hrec, hall⟩ := onuInfoLoop_records env oc b p
    (env.rangeOrder (snmpDataMapOf env W))
    [Event.redisGetONUInfoList (onuInfoKey b p), Event.snmpWalk (oc.BaseOID ++ oc.OnuIDNameOID)]
    none
  have hnone : Slice.elems (none : Slice ONUInfoPerBoard) = [] := rfl
  rw [hnone, List.nil_append] at hrec
  obtain ⟨hnd, hkeys⟩ := snmpDataMapOf_keys env W
  have hp : (sortSlice ONUInfoPerBoard.ID
      (onuInfoLoop env oc b p
        [Event.redisGetONUInfoList (onuInfoKey b p),
         Event.snmpWalk (oc.BaseOID ++ oc.OnuIDNameOID)]
        (env.rangeOrder (snmpDataMapOf env W)) none).1).elems.Perm records := by
    rw [Slice.elems_sortSlice, hrec]
    exact List.perm_insertionSort _ _
  refine ⟨_, records, hout, hp, ?_, hnd, hkeys, ?_⟩
  · refine hall.imp ?_
    rintro e r ⟨t, rfl⟩
    exact ⟨_, _, _, _, onuInfoOfPdu_record env oc b p t e.2⟩
  · rw [hp.length_eq, ← hall.length_eq, hrange.length_eq, snmpDataMapOf_length]

theorem onuInfoLoop_mem (env : Env) (oc : OltConfig) (b p : Int)
    (l : List (String × SnmpPDU)) :
    ∀ (t : Trace) (acc : Slice ONUInfoPerBoard) (r : ONUInfoPerBoard),
      r ∈ (onuInfoLoop env oc b p t l acc).1.elems →
      r ∈ acc.elems ∨ ∃ t' pdu, r = (onuInfoOfPdu env oc b p t' pdu).1 := by
  induction l with
  | nil =>
    intro t acc r hr
    left
    simpa [onuInfoLoop] using hr
  | cons e l ih =>
    intro t acc r hr
    rw [onuInfoLoop] at hr
    rcases ih _ _ r hr with h | h
    · simp only [Slice.push, Slice.elems, List.mem_append, List.mem_singleton] at h
      rcases h with h | h
      · exact Or.inl h
      · exact Or.inr ⟨t, e.2, h⟩
    · exact Or.inr h

/-- C13: on a cache miss of `GetByBoardIDAndPonID` with a resolved profile and a successful
walk, the returned list is in non-decreasing order of ID and each of its records has the
requested board and PON. -/
theorem C13_port_listing_sorted_and_tagged (env : Env) (b p : Int) (oc : OltConfig)
    (hcfg : getOltConfig env.cfg b p = (some oc, none))
    (hmiss : (env.GetONUInfoList [] (onuInfoKey b p)).2 ≠ none
              ∨ (env.GetONUInfoList [] (onuInfoKey b p)).1 = none)
    (hwalk : (env.Walk [Event.redisGetONUInfoList (onuInfoKey b p)]
                (oc.BaseOID ++ oc.OnuIDNameOID)).2 = none) :
    ∃ list : Slice ONUInfoPerBoard,
      (GetByBoardIDAndPonID env b p).out = Outcome.ret (list, none)
      ∧ (list.elems.map ONUInfoPerBoard.ID).Sorted (fun x y => x ≤ y)
      ∧ ∀ r ∈ list.elems, r.Board = b ∧ r.PON = p := by
  obtain ⟨hout, _⟩ := GetByBoardIDAndPonID_miss env b p oc hcfg hmiss hwalk
  refine ⟨_, hout, Slice.elems_sortSlice_sorted _ _, ?_⟩
  intro r hr
  rw [Slice.elems_sortSlice] at hr
  have hr2 := (List.perm_insertionSort _ _).subset hr
  rcases onuInfoLoop_mem env oc b p _ _ _ r hr2 with h | ⟨t, pdu, h⟩
  · simp [Slice.elems] at h
  · rw [h, onuInfoOfPdu_record]
    exact ⟨rfl, rfl⟩

/-- Witness of C13: the walk of 7, 2 and 5 on board 1, port 1 over an empty Redis. -/
theorem C13_port_listing_sorted_and_tagged_witness :
    ∃ list : Slice ONUInfoPerBoard,
      (GetByBoardIDAndPonID (sampleEnv [7, 2, 5] none none) 1 1).out = Outcome.ret (list, none)
      ∧ list.elems.map ONUInfoPerBoard.ID = [2, 5, 7]
      ∧ ∀ r ∈ list.elems, r.Board = 1 ∧ r.PON = 1 := by
  obtain ⟨list, hout, _, htag⟩ :=
    C13_port_listing_sorted_and_tagged (sampleEnv [7, 2, 5] none none) 1 1 {} rfl
      (Or.inr rfl) rfl
  refine ⟨list, hout, ?_, htag⟩
  have hval : (GetByBoardIDAndPonID (sampleEnv [7, 2, 5] none none) 1 1).out
      = Outcome.ret (some [{ Board := 1, PON := 1, ID := 2, Name := "onu" },
                           { Board := 1, PON := 1, ID := 5, Name := "onu" },
                           { Board := 1, PON := 1, ID := 7, Name := "onu" }], none) := by
    decide
  rw [hval] at hout
  simp only [Outcome.ret.injEq, Prod.mk.injEq, and_true] at hout
  rw [← hout]
  rfl

/-- Witness of C12: a device that walks the entries 2, 1 and 2 again (two distinct keys) and
answers no single fetch: two records, every fetched field empty. -/
theorem C12_one_record_per_key_failed_fields_empty_witness :
    ∃ list : Slice ONUInfoPerBoard,
      (GetByBoardIDAndPonID (sampleEnv [2, 1, 2] none none) 1 1).out = Outcome.ret (list, none)
      ∧ list.elems.length = 2 := by
  obtain ⟨list, _, hout, _, _, _, _, hlen⟩ :=
    C12_one_record_per_key_failed_fields_empty (sampleEnv [2, 1, 2] none none) 1 1 {} rfl
      (Or.inr rfl) rfl (List.Perm.refl _)
  exact ⟨list, hout, hlen.trans (by decide)⟩

theorem UpdateEmptyOnuID_walked (env : Env) (b p : Int) (oc : OltConfig)
    (hcfg : getOltConfig env.cfg b p = (some oc, none))
    (hwalk : (env.Walk [] (oc.BaseOID ++ oc.OnuIDNameOID)).2 = none) :
    (UpdateEmptyOnuID env b p).trace =
      [Event.snmpWalk (oc.BaseOID ++ oc.OnuIDNameOID),
       Event.redisSetOnuIDCtx (emptyOnuIDKey b p) 300
        (some (freeSlots b p (walkedIds env (env.Walk [] (oc.BaseOID ++ oc.OnuIDNameOID)).1)))]
    ∧ (UpdateEmptyOnuID env b p).out =
        match env.SetOnuIDCtx [Event.snmpWalk (oc.BaseOID ++ oc.OnuIDNameOID)]
            (emptyOnuIDKey b p) 300
            (some (freeSlots b p
              (walkedIds env (env.Walk [] (oc.BaseOID ++ oc.OnuIDNameOID)).1))) with
        | some _ => Outcome.ret (some ⟨"failed to set data to Redis"⟩)
        | none => Outcome.ret none := by
  unfold emptyOnuIDKey
  unfold UpdateEmptyOnuID
  rw [hcfg]
  simp only [hwalk, freeSlots_computed, List.singleton_append]
  split <;> exact ⟨rfl, rfl⟩

/-- C20: for a resolved profile, when the identity walk succeeds for both operations and
delivers the same ids, `UpdateEmptyOnuID` issues exactly the cache write that `GetEmptyOnuID`
issues on a cache miss: the key `board_<b>_pon_<p>_empty_onu_id`, 300 seconds and the same
free-slot list. It is the only cache call of `UpdateEmptyOnuID`, which never reads the cache. -/
theorem C20_update_writes_what_get_writes (env : Env) (b p : Int) (oc : OltConfig)
    (hcfg : getOltConfig env.cfg b p = (some oc, none))
    (hmiss : ¬ ((env.GetOnuIDCtx [] (emptyOnuIDKey b p)).2 = none
                 ∧ (env.GetOnuIDCtx [] (emptyOnuIDKey b p)).1 ≠ none))
    (hwalkGet : (env.Walk [Event.redisGetOnuIDCtx (emptyOnuIDKey b p)]
                  (oc.BaseOID ++ oc.OnuIDNameOID)).2 = none)
    (hwalkUpdate : (env.Walk [] (oc.BaseOID ++ oc.OnuIDNameOID)).2 = none)
    (hsame : walkedIds env (env.Walk [Event.redisGetOnuIDCtx (emptyOnuIDKey b p)]
                  (oc.BaseOID ++ oc.OnuIDNameOID)).1
              = walkedIds env (env.Walk [] (oc.BaseOID ++ oc.OnuIDNameOID)).1) :
    ∃ free : List OnuID,
      (GetEmptyOnuID env b p).trace =
        [Event.redisGetOnuIDCtx (emptyOnuIDKey b p),
         Event.snmpWalk (oc.BaseOID ++ oc.OnuIDNameOID),
         Event.redisSetOnuIDCtx (emptyOnuIDKey b p) 300 (some free)]
      ∧ (UpdateEmptyOnuID env b p).trace =
        [Event.snmpWalk (oc.BaseOID ++ oc.OnuIDNameOID),
         Event.redisSetOnuIDCtx (emptyOnuIDKey b p) 300 (some free)]
      ∧ (∀ e ∈ (UpdateEmptyOnuID env b p).trace, e.isCacheRead = false)
      ∧ emptyOnuIDKey b p = "board_" ++ itoa b ++ "_pon_" ++ itoa p ++ "_empty_onu_id" := by
  have hget := GetEmptyOnuID_miss env b p oc hcfg hmiss hwalkGet
  obtain ⟨hupd, _⟩ := UpdateEmptyOnuID_walked env b p oc hcfg hwalkUpdate
  rw [hsame] at hget
  refine ⟨_, ?_, hupd, ?_, rfl⟩
  · rw [hget]; split <;> rfl
  · intro e he
    rw [hupd] at he
    simp only [List.mem_cons, List.mem_singleton, List.mem_nil_iff, or_false] at he
    rcases he with rfl | rfl <;> rfl

/-- Witness of C20: the walk of 3, 7 and 10 on board 1, port 2 over an empty Redis. -/
theorem C20_update_writes_what_get_writes_witness :
    emptyOnuIDKey 1 2 = "board_1_pon_2_empty_onu_id"
    ∧ ∃ free : List OnuID,
        (GetEmptyOnuID (sampleEnv [3, 7, 10] none none) 1 2).trace =
          [Event.redisGetOnuIDCtx "board_1_pon_2_empty_onu_id", Event.snmpWalk "",
           Event.redisSetOnuIDCtx "board_1_pon_2_empty_onu_id" 300 (some free)]
        ∧ (UpdateEmptyOnuID (sampleEnv [3, 7, 10] none none) 1 2).trace =
          [Event.snmpWalk "",
           Event.redisSetOnuIDCtx "board_1_pon_2_empty_onu_id" 300 (some free)] := by
  have hkey : emptyOnuIDKey 1 2 = "board_1_pon_2_empty_onu_id" := by decide
  obtain ⟨free, h1, h2, _, _⟩ :=
    C20_update_writes_what_get_writes (sampleEnv [3, 7, 10] none none) 1 2 {} rfl
      (by decide) rfl rfl rfl
  rw [hkey] at h1 h2
  exact ⟨hkey, free, h1, h2⟩

theorem fetchStep_keep {β : Type} (g : ONUCustomerInfo → β)
    (fetch : Trace → String → Except GoError String × Trace)
    (assign : ONUCustomerInfo → String → ONUCustomerInfo) (s : ONUCustomerInfo × Trace)
    (h : ∀ x v, g (assign x v) = g x) :
    g (fetchStep fetch assign s).1 = g s.1 := by
  unfold fetchStep
  split
  · exact h _ _
  · rfl

theorem fetchStep_field (g : ONUCustomerInfo → String)
    (fetch : Trace → String → Except GoError String × Trace)
    (assign : ONUCustomerInfo → String → ONUCustomerInfo) (s : ONUCustomerInfo × Trace)
    (h : ∀ x v, g (assign x v) = v) (hs : g s.1 = "") :
    g (fetchStep fetch assign s).1 = fieldOf (fetch s.2 (itoa s.1.ID)).1 := by
  unfold fetchStep fieldOf
  split
  · exact h _ _
  · exact hs

theorem detailHead_keep {β : Type} (g : ONUCustomerInfo → β)
    (env : Env) (oc : OltConfig) (b p : Int) (t : Trace) (pdu : SnmpPDU)
    (h1 : ∀ x v, g { x with OnuType := v } = g x)
    (h2 : ∀ x v, g { x with SerialNumber := v } = g x)
    (h3 : ∀ x v, g { x with RXPower := v } = g x)
    (h4 : ∀ x v, g { x with TXPower := v } = g x)
    (h5 : ∀ x v, g { x with Status := v } = g x)
    (h6 : ∀ x v, g { x with IPAddress := v } = g x)
    (h7 : ∀ x v, g { x with Description := v } = g x) :
    g (detailHead env oc b p t pdu).1
      = g { Board := b, PON := p, ID := env.utils.ExtractIDOnuID pdu.Name,
            Name := env.utils.ExtractName pdu.Value } := by
  unfold detailHead
  rw [fetchStep_keep g _ _ _ h7, fetchStep_keep g _ _ _ h6, fetchStep_keep g _ _ _ h5,
    fetchStep_keep g _ _ _ h4, fetchStep_keep g _ _ _ h3, fetchStep_keep g _ _ _ h2,
    fetchStep_keep g _ _ _ h1]

theorem detailHead_ID (env : Env) (oc : OltConfig) (b p : Int) (t : Trace) (pdu : SnmpPDU) :
    (detailHead env oc b p t pdu).1.ID = env.utils.ExtractIDOnuID pdu.Name :=
  detailHead_keep ONUCustomerInfo.ID env oc b p t pdu (fun _ _ => rfl) (fun _ _ => rfl)
    (fun _ _ => rfl) (fun _ _ => rfl) (fun _ _ => rfl) (fun _ _ => rfl) (fun _ _ => rfl)

theorem detailHead_RXPower (env : Env) (oc : OltConfig) (b p : Int) (t : Trace) (pdu : SnmpPDU) :
    ∃ t0, (detailHead env oc b p t pdu).1.RXPower
      = fieldOf (getRxPower env t0 oc.OnuRxPowerOID
          (itoa (env.utils.ExtractIDOnuID pdu.Name))).1 := by
  have k0 : ∀ (x : ONUCustomerInfo) (v : String), ({ x with OnuType := v }).RXPower = x.RXPower :=
    fun _ _ => rfl
  have i0 : ∀ (x : ONUCustomerInfo) (v : String), ({ x with OnuType := v }).ID = x.ID :=
    fun _ _ => rfl
  have k1 : ∀ (x : ONUCustomerInfo) (v : String), ({ x with SerialNumber := v }).RXPower = x.RXPower :=
    fun _ _ => rfl
  have i1 : ∀ (x : ONUCustomerInfo) (v : String), ({ x with SerialNumber := v }).ID = x.ID :=
    fun _ _ => rfl
  have i2 : ∀ (x : ONUCustomerInfo) (v : String), ({ x with RXPower := v }).ID = x.ID :=
    fun _ _ => rfl
  have k3 : ∀ (x : ONUCustomerInfo) (v : String), ({ x with TXPower := v }).RXPower = x.RXPower :=
    fun _ _ => rfl
  have i3 : ∀ (x : ONUCustomerInfo) (v : String), ({ x with TXPower := v }).ID = x.ID :=
    fun _ _ => rfl
  have k4 : ∀ (x : ONUCustomerInfo) (v : String), ({ x with Status := v }).RXPower = x.RXPower :=
    fun _ _ => rfl
  have i4 : ∀ (x : ONUCustomerInfo) (v : String), ({ x with Status := v }).ID = x.ID :=
    fun _ _ => rfl
  have k5 : ∀ (x : ONUCustomerInfo) (v : String), ({ x with IPAddress := v }).RXPower = x.RXPower :=
    fun _ _ => rfl
  have i5 : ∀ (x : ONUCustomerInfo) (v : String), ({ x with IPAddress := v }).ID = x.ID :=
    fun _ _ => rfl
  have k6 : ∀ (x : ONUCustomerInfo) (v : String), ({ x with Description := v }).RXPower = x.RXPower :=
    fun _ _ => rfl
  have i6 : ∀ (x : ONUCustomerInfo) (v : String), ({ x with Description := v }).ID = x.ID :=
    fun _ _ => rfl
  have hf : ∀ (x : ONUCustomerInfo) (v : String), ({ x with RXPower := v }).RXPower = v :=
    fun _ _ => rfl
  unfold detailHead
  rw [fetchStep_keep ONUCustomerInfo.RXPower _ _ _ k6,
    fetchStep_keep ONUCustomerInfo.RXPower _ _ _ k5,
    fetchStep_keep ONUCustomerInfo.RXPower _ _ _ k4,
    fetchStep_keep ONUCustomerInfo.RXPower _ _ _ k3]
  rw [fetchStep_field ONUCustomerInfo.RXPower _ _ _ hf]
  · rw [fetchStep_keep ONUCustomerInfo.ID _ _ _ i1,
      fetchStep_keep ONUCustomerInfo.ID _ _ _ i0]
    exact ⟨_, rfl⟩
  · rw [fetchStep_keep ONUCustomerInfo.RXPower _ _ _ k1,
      fetchStep_keep ONUCustomerInfo.RXPower _ _ _ k0]

theorem detailHead_TXPower (env : Env) (oc : OltConfig) (b p : Int) (t : Trace) (pdu : SnmpPDU) :
    ∃ t0, (detailHead env oc b p t pdu).1.TXPower
      = fieldOf (getTxPower env t0 oc.OnuTxPowerOID
          (itoa (env.utils.ExtractIDOnuID pdu.Name))).1 := by
  have k0 : ∀ (x : ONUCustomerInfo) (v : String), ({ x with OnuType := v }).TXPower = x.TXPower :=
    fun _ _ => rfl
  have i0 : ∀ (x : ONUCustomerInfo) (v : String), ({ x with OnuType := v }).ID = x.ID :=
    fun _ _ => rfl
  have k1 : ∀ (x : ONUCustomerInfo) (v : String), ({ x with SerialNumber := v }).TXPower = x.TXPower :=
    fun _ _ => rfl
  have i1 : ∀ (x : ONUCustomerInfo) (v : String), ({ x with SerialNumber := v }).ID = x.ID :=
    fun _ _ => rfl
  have k2 : ∀ (x : ONUCustomerInfo) (v : String), ({ x with RXPower := v }).TXPower = x.TXPower :=
    fun _ _ => rfl
  have i2 : ∀ (x : ONUCustomerInfo) (v : String), ({ x with RXPower := v }).ID = x.ID :=
    fun _ _ => rfl
  have i3 : ∀ (x : ONUCustomerInfo) (v : String), ({ x with TXPower := v }).ID = x.ID :=
    fun _ _ => rfl
  have k4 : ∀ (x : ONUCustomerInfo) (v : String), ({ x with Status := v }).TXPower = x.TXPower :=
    fun _ _ => rfl
  have i4 : ∀ (x : ONUCustomerInfo) (v : String), ({ x with Status := v }).ID = x.ID :=
    fun _ _ => rfl
  have k5 : ∀ (x : ONUCustomerInfo) (v : String), ({ x with IPAddress := v }).TXPower = x.TXPower :=
    fun _ _ => rfl
  have i5 : ∀ (x : ONUCustomerInfo) (v : String), ({ x with IPAddress := v }).ID = x.ID :=
    fun _ _ => rfl
  have k6 : ∀ (x : ONUCustomerInfo) (v : String), ({ x with Description := v }).TXPower = x.TXPower :=
    fun _ _ => rfl
  have i6 : ∀ (x : ONUCustomerInfo) (v : String), ({ x with Description := v }).ID = x.ID :=
    fun _ _ => rfl
  have hf : ∀ (x : ONUCustomerInfo) (v : String), ({ x with TXPower := v }).TXPower = v :=
    fun _ _ => rfl
  unfold detailHead
  rw [fetchStep_keep ONUCustomerInfo.TXPower _ _ _ k6,
    fetchStep_keep ONUCustomerInfo.TXPower _ _ _ k5,
    fetchStep_keep ONUCustomerInfo.TXPower _ _ _ k4]
  rw [fetchStep_field ONUCustomerInfo.TXPower _ _ _ hf]
  · rw [fetchStep_keep ONUCustomerInfo.ID _ _ _ i2,
      fetchStep_keep ONUCustomerInfo.ID _ _ _ i1,
      fetchStep_keep ONUCustomerInfo.ID _ _ _ i0]
    exact ⟨_, rfl⟩
  · rw [fetchStep_keep ONUCustomerInfo.TXPower _ _ _ k2,
      fetchStep_keep ONUCustomerInfo.TXPower _ _ _ k1,
      fetchStep_keep ONUCustomerInfo.TXPower _ _ _ k0]

theorem detailTail_keep {β : Type} (g : ONUCustomerInfo → β)
    (env : Env) (lib : DetailLib) (oc : OltConfig) (t : Trace) (x : ONUCustomerInfo)
    (h1 : ∀ x v, g { x with Uptime := v } = g x)
    (h2 : ∀ x v, g { x with LastDownTimeDuration := v } = g x)
    (h3 : ∀ x v, g { x with LastOfflineReason := v } = g x)
    (h4 : ∀ x v, g { x with GponOpticalDistance := v } = g x) :
    g (detailTail env lib oc t x).1 = g x := by
  unfold detailTail
  rw [fetchStep_keep g _ _ _ h4, fetchStep_keep g _ _ _ h3]
  show g (lastDownStep lib (uptimeStep lib t x)) = g x
  have hd : g (lastDownStep lib (uptimeStep lib t x)) = g (uptimeStep lib t x) := by
    unfold lastDownStep
    split
    · exact h2 _ _
    · rfl
  rw [hd]
  unfold uptimeStep
  split
  · exact h1 _ _
  · rfl

theorem detailTail_Uptime (env : Env) (lib : DetailLib) (oc : OltConfig) (t : Trace)
    (x : ONUCustomerInfo) (hx : x.Uptime = "") :
    (detailTail env lib oc t x).1.Uptime = fieldOf (getUptimeDuration lib t x.LastOnline) := by
  have k2 : ∀ (x : ONUCustomerInfo) (v : String),
      ({ x with LastDownTimeDuration := v }).Uptime = x.Uptime := fun _ _ => rfl
  have k3 : ∀ (x : ONUCustomerInfo) (v : String),
      ({ x with LastOfflineReason := v }).Uptime = x.Uptime := fun _ _ => rfl
  have k4 : ∀ (x : ONUCustomerInfo) (v : String),
      ({ x with GponOpticalDistance := v }).Uptime = x.Uptime := fun _ _ => rfl
  unfold detailTail
  rw [fetchStep_keep ONUCustomerInfo.Uptime _ _ _ k4,
    fetchStep_keep ONUCustomerInfo.Uptime _ _ _ k3]
  show (lastDownStep lib (uptimeStep lib t x)).Uptime = _
  have hd : (lastDownStep lib (uptimeStep lib t x)).Uptime = (uptimeStep lib t x).Uptime := by
    unfold lastDownStep
    split <;> rfl
  rw [hd]
  unfold uptimeStep fieldOf
  split
  · rfl
  · exact hx

theorem detailTail_LastDown (env : Env) (lib : DetailLib) (oc : OltConfig) (t : Trace)
    (x : ONUCustomerInfo) (hx : x.LastDownTimeDuration = "") :
    (detailTail env lib oc t x).1.LastDownTimeDuration
      = fieldOf (getLastDownDuration lib x.LastOffline x.LastOnline) := by
  have k3 : ∀ (x : ONUCustomerInfo) (v : String),
      ({ x with LastOfflineReason := v }).LastDownTimeDuration = x.LastDownTimeDuration :=
    fun _ _ => rfl
  have k4 : ∀ (x : ONUCustomerInfo) (v : String),
      ({ x with GponOpticalDistance := v }).LastDownTimeDuration = x.LastDownTimeDuration :=
    fun _ _ => rfl
  have hu1 : (uptimeStep lib t x).LastOffline = x.LastOffline := by
    unfold uptimeStep; split <;> rfl
  have hu2 : (uptimeStep lib t x).LastOnline = x.LastOnline := by
    unfold uptimeStep; split <;> rfl
  have hu3 : (uptimeStep lib t x).LastDownTimeDuration = x.LastDownTimeDuration := by
    unfold uptimeStep; split <;> rfl
  unfold detailTail
  rw [fetchStep_keep ONUCustomerInfo.LastDownTimeDuration _ _ _ k4,
    fetchStep_keep ONUCustomerInfo.LastDownTimeDuration _ _ _ k3]
  show (lastDownStep lib (uptimeStep lib t x)).LastDownTimeDuration = _
  unfold lastDownStep fieldOf
  rw [hu1, hu2]
  split
  · rfl
  · rw [hu3]; exact hx

theorem storeIfNoError_keep {β : Type} (g : ONUCustomerInfo → β) (r : String × Option GoError)
    (assign : ONUCustomerInfo → String → ONUCustomerInfo) (x : ONUCustomerInfo)
    (h : ∀ x v, g (assign x v) = g x) :
    g (storeIfNoError r assign x) = g x := by
  unfold storeIfNoError
  split
  · exact h _ _
  · rfl

theorem customerInfoOfPdu_ret (env : Env) (lib : DetailLib) (oc : OltConfig) (b p : Int)
    (t : Trace) (pdu : SnmpPDU) (r : ONUCustomerInfo) (t' : Trace)
    (h : customerInfoOfPdu env lib oc b p t pdu = (Outcome.ret r, t')) :
    (∃ tnow, r.Uptime = fieldOf (getUptimeDuration lib tnow r.LastOnline))
    ∧ r.LastDownTimeDuration = fieldOf (getLastDownDuration lib r.LastOffline r.LastOnline)
    ∧ (∀ (g : ONUCustomerInfo → String),
        (∀ x v, g { x with LastOnline := v } = g x) →
        (∀ x v, g { x with LastOffline := v } = g x) →
        (∀ x v, g { x with Uptime := v } = g x) →
        (∀ x v, g { x with LastDownTimeDuration := v } = g x) →
        (∀ x v, g { x with LastOfflineReason := v } = g x) →
        (∀ x v, g { x with GponOpticalDistance := v } = g x) →
        g r = g (detailHead env oc b p t pdu).1)
    ∧ r.Board = b ∧ r.PON = p ∧ r.ID = env.utils.ExtractIDOnuID pdu.Name := by
  unfold customerInfoOfPdu at h
  simp only at h
  split at h
  · simp at h
  · rename_i lastOnline t1 hon
    split at h
    · simp at h
    · rename_i lastOffline t2 hoff
      simp only [Prod.mk.injEq, Outcome.ret.injEq] at h
      obtain ⟨hr, _⟩ := h
      generalize hx : storeIfNoError lastOffline (fun x v => { x with LastOffline := v })
        (storeIfNoError lastOnline (fun x v => { x with LastOnline := v })
          (detailHead env oc b p t pdu).1) = x at hr
      have hkeep : ∀ (g : ONUCustomerInfo → String),
          (∀ x v, g { x with LastOnline := v } = g x) →
          (∀ x v, g { x with LastOffline := v } = g x) →
          g x = g (detailHead env oc b p t pdu).1 := by
        intro g g1 g2
        rw [← hx, storeIfNoError_keep g _ _ _ g2, storeIfNoError_keep g _ _ _ g1]
      have hkeepI : ∀ (g : ONUCustomerInfo → Int),
          (∀ x v, g { x with LastOnline := v } = g x) →
          (∀ x v, g { x with LastOffline := v } = g x) →
          g x = g (detailHead env oc b p t pdu).1 := by
        intro g g1 g2
        rw [← hx, storeIfNoError_keep g _ _ _ g2, storeIfNoError_keep g _ _ _ g1]
      have hup0 : x.Uptime = "" := by
        rw [hkeep ONUCustomerInfo.Uptime (fun _ _ => rfl) (fun _ _ => rfl)]
        exact detailHead_keep ONUCustomerInfo.Uptime env oc b p t pdu (fun _ _ => rfl)
          (fun _ _ => rfl) (fun _ _ => rfl) (fun _ _ => rfl) (fun _ _ => rfl) (fun _ _ => rfl)
          (fun _ _ => rfl)
      have hdown0 : x.LastDownTimeDuration = "" := by
        rw [hkeep ONUCustomerInfo.LastDownTimeDuration (fun _ _ => rfl) (fun _ _ => rfl)]
        exact detailHead_keep ONUCustomerInfo.LastDownTimeDuration env oc b p t pdu
          (fun _ _ => rfl) (fun _ _ => rfl) (fun _ _ => rfl) (fun _ _ => rfl) (fun _ _ => rfl)
          (fun _ _ => rfl) (fun _ _ => rfl)
      have hon' : r.LastOnline = x.LastOnline := by
        rw [← hr]
        exact detailTail_keep ONUCustomerInfo.LastOnline env lib oc t2 x (fun _ _ => rfl)
          (fun _ _ => rfl) (fun _ _ => rfl) (fun _ _ => rfl)
      have hoff' : r.LastOffline = x.LastOffline := by
        rw [← hr]
        exact detailTail_keep ONUCustomerInfo.LastOffline env lib oc t2 x (fun _ _ => rfl)
          (fun _ _ => rfl) (fun _ _ => rfl) (fun _ _ => rfl)
      refine ⟨⟨t2, ?_⟩, ?_, ?_, ?_, ?_, ?_⟩
      · rw [hon', ← hr]; exact detailTail_Uptime env lib oc t2 x hup0
      · rw [hon', hoff', ← hr]; exact detailTail_LastDown env lib oc t2 x hdown0
      · intro g g1 g2 g3 g4 g5 g6
        rw [← hr, detailTail_keep g env lib oc t2 x g3 g4 g5 g6]
        exact hkeep g g1 g2
      · rw [← hr, detailTail_keep ONUCustomerInfo.Board env lib oc t2 x (fun _ _ => rfl)
          (fun _ _ => rfl) (fun _ _ => rfl) (fun _ _ => rfl),
          hkeepI ONUCustomerInfo.Board (fun _ _ => rfl) (fun _ _ => rfl)]
        exact detailHead_keep ONUCustomerInfo.Board env oc b p t pdu (fun _ _ => rfl)
          (fun _ _ => rfl) (fun _ _ => rfl) (fun _ _ => rfl) (fun _ _ => rfl) (fun _ _ => rfl)
          (fun _ _ => rfl)
      · rw [← hr, detailTail_keep ONUCustomerInfo.PON env lib oc t2 x (fun _ _ => rfl)
          (fun _ _ => rfl) (fun _ _ => rfl) (fun _ _ => rfl),
          hkeepI ONUCustomerInfo.PON (fun _ _ => rfl) (fun _ _ => rfl)]
        exact detailHead_keep ONUCustomerInfo.PON env oc b p t pdu (fun _ _ => rfl)
          (fun _ _ => rfl) (fun _ _ => rfl) (fun _ _ => rfl) (fun _ _ => rfl) (fun _ _ => rfl)
          (fun _ _ => rfl)
      · rw [← hr, detailTail_keep ONUCustomerInfo.ID env lib oc t2 x (fun _ _ => rfl)
          (fun _ _ => rfl) (fun _ _ => rfl) (fun _ _ => rfl),
          hkeepI ONUCustomerInfo.ID (fun _ _ => rfl) (fun _ _ => rfl)]
        exact detailHead_ID env oc b p t pdu

theorem customerInfoLoop_ret (env : Env) (lib : DetailLib) (oc : OltConfig) (b p : Int)
    (l : List (String × SnmpPDU)) :
    ∀ (t : Trace) (acc r : ONUCustomerInfo) (t' : Trace),
      customerInfoLoop env lib oc b p t l acc = (Outcome.ret r, t') →
      r = acc ∨ ∃ t0 pdu t1, customerInfoOfPdu env lib oc b p t0 pdu = (Outcome.ret r, t1) := by
  induction l with
  | nil =>
    intro t acc r t' h
    simp only [customerInfoLoop, Prod.mk.injEq, Outcome.ret.injEq] at h
    exact Or.inl h.1.symm
  | cons e l ih =>
    intro t acc r t' h
    rw [customerInfoLoop] at h
    split at h
    · simp at h
    · rename_i onuInfo t1 he
      rcases ih t1 onuInfo r t' h with h2 | h2
      · subst h2
        exact Or.inr ⟨t, e.2, t1, he⟩
      · exact Or.inr h2

theorem GetByBoardIDPonIDAndOnuID_ret (env : Env) (lib : DetailLib) (b p onuID : Int)
    (r : ONUCustomerInfo)
    (h : (GetByBoardIDPonIDAndOnuID env lib b p onuID).out = Outcome.ret (r, none)) :
    ∃ oc, getOltConfig env.cfg b p = (some oc, none)
      ∧ (r = {} ∨ ∃ t0 pdu t1, customerInfoOfPdu env lib oc b p t0 pdu = (Outcome.ret r, t1)) := by
  unfold GetByBoardIDPonIDAndOnuID at h
  split at h
  · simp at h
  · simp at h
  · rename_i oc hcfg
    refine ⟨oc, hcfg, ?_⟩
    simp only at h
    split at h
    · simp at h
    · split at h
      · simp at h
      · rename_i r' t2 hloop
        simp only [Outcome.ret.injEq, Prod.mk.injEq, and_true] at h
        subst h
        rcases customerInfoLoop_ret env lib oc b p _ _ _ _ _ hloop with h2 | h2
        · exact Or.inl h2
        · exact Or.inr h2

/-- C14: the code at the failing input. Terminal 5 of board 1, port 1 answers every fetch,
but the value of its last-online field is an integer (first case), or its last-online field
is a well-formed byte string and its last-offline field is a null value (second case) or a
text (third case): the type assertion `.([]byte)` aborts and `GetByBoardIDPonIDAndOnuID`
returns no record. -/
theorem C14_timestamp_of_other_type_aborts :
    (GetByBoardIDPonIDAndOnuID
        (deviceEnv [pdu5] (terminal5 ++ [("1.9.5", SnmpValue.int 0)])) sampleLib 1 1 5).out
      = Outcome.abort "interface conversion: interface is not []uint8"
    ∧ (GetByBoardIDPonIDAndOnuID
        (deviceEnv [pdu5] (terminal5 ++ [("1.9.5", SnmpValue.bytes [7, 232, 1, 1, 0, 0, 0, 0]),
          ("1.10.5", SnmpValue.null)])) sampleLib 1 1 5).out
      = Outcome.abort "interface conversion: interface is not []uint8"
    ∧ (GetByBoardIDPonIDAndOnuID
        (deviceEnv [pdu5] (terminal5 ++ [("1.9.5", SnmpValue.bytes [7, 232, 1, 1, 0, 0, 0, 0]),
          ("1.10.5", SnmpValue.str "2023-12-31 20:00:00")])) sampleLib 1 1 5).out
      = Outcome.abort "interface conversion: interface is not []uint8" := by
  decide

/-- C15, the claim fails as stated: terminal 5 has a well-formed last-online value and a
malformed last-offline value, so its last-offline string is empty and does not parse; the
record still carries an uptime (24 hours since last-online plus the seven-hour offset), and
only the last-down duration is empty. -/
theorem C15_uptime_survives_unparsable_last_offline :
    (GetByBoardIDPonIDAndOnuID
        (deviceEnv [pdu5] (terminal5 ++ [("1.9.5", SnmpValue.bytes [7, 232, 1, 1, 0, 0, 0, 0]),
          ("1.10.5", SnmpValue.bytes [1])])) sampleLib 1 1 5).out
      = Outcome.ret
          ({ Board := 1, PON := 1, ID := 5, Name := "onu", Description := "customer 5",
             OnuType := "F660", SerialNumber := "ZTEG00000005", RXPower := "-18.50",
             TXPower := "2.00", Status := "Online", IPAddress := "10.0.0.5",
             LastOnline := "2024-01-01 00:00:00", LastOffline := "",
             Uptime := "1 days 7 hours 0 minutes 0 seconds", LastDownTimeDuration := "",
             LastOfflineReason := "LOS", GponOpticalDistance := "1200" }, none)
    ∧ sampleLib.timeParse "" = Except.error ⟨"parsing time: cannot parse"⟩ :=
  ⟨by decide, rfl⟩

/-- C15, amended: in a record returned by `GetByBoardIDPonIDAndOnuID`, if the last-online
string does not parse then both Uptime and LastDownTimeDuration are empty; if the
last-offline string does not parse then LastDownTimeDuration is empty; and in the record of a
walked entry Uptime is derived from last-online alone whenever that string parses (now minus
last-online plus seven hours), whether or not last-offline parses, while board, PON and id
are those of the entry and the seven fetched fields of the first steps keep the values they
were given. -/
theorem C15_durations_follow_their_own_timestamps (env : Env) (lib : DetailLib)
    (b p onuID : Int) (r : ONUCustomerInfo)
    (h : (GetByBoardIDPonIDAndOnuID env lib b p onuID).out = Outcome.ret (r, none)) :
    ((∃ e, lib.timeParse r.LastOnline = Except.error e) →
        r.Uptime = "" ∧ r.LastDownTimeDuration = "")
    ∧ ((∃ e, lib.timeParse r.LastOffline = Except.error e) → r.LastDownTimeDuration = "")
    ∧ (r = {} ∨
        ((∀ v, lib.timeParse r.LastOnline = Except.ok v →
            ∃ tnow, r.Uptime = lib.ConvertDurationToString
              (wrap64 (timeSub (lib.timeNow tnow) v + 25200000000000)))
          ∧ ∃ oc t0 pdu, getOltConfig env.cfg b p = (some oc, none)
              ∧ r.Board = b ∧ r.PON = p ∧ r.ID = env.utils.ExtractIDOnuID pdu.Name
              ∧ r.Name = (detailHead env oc b p t0 pdu).1.Name
              ∧ r.OnuType = (detailHead env oc b p t0 pdu).1.OnuType
              ∧ r.SerialNumber = (detailHead env oc b p t0 pdu).1.SerialNumber
              ∧ r.RXPower = (detailHead env oc b p t0 pdu).1.RXPower
              ∧ r.TXPower = (detailHead env oc b p t0 pdu).1.TXPower
              ∧ r.Status = (detailHead env oc b p t0 pdu).1.Status
              ∧ r.IPAddress = (detailHead env oc b p t0 pdu).1.IPAddress
              ∧ r.Description = (detailHead env oc b p t0 pdu).1.Description)) := by
  obtain ⟨oc, hcfg, hr⟩ := GetByBoardIDPonIDAndOnuID_ret env lib b p onuID r h
  rcases hr with rfl | ⟨t0, pdu, t1, hent⟩
  · exact ⟨fun _ => ⟨rfl, rfl⟩, fun _ => rfl, Or.inl rfl⟩
  · obtain ⟨⟨tnow, hup⟩, hdown, hkeep, hb, hp, hid⟩ :=
      customerInfoOfPdu_ret env lib oc b p t0 pdu r t1 hent
    refine ⟨?_, ?_, Or.inr ⟨?_, oc, t0, pdu, hcfg, hb, hp, hid, ?_, ?_, ?_, ?_, ?_, ?_, ?_, ?_⟩⟩
    · rintro ⟨e, he⟩
      constructor
      · rw [hup]; unfold getUptimeDuration; rw [he]; rfl
      · rw [hdown]; unfold getLastDownDuration; rw [he]
        cases lib.timeParse r.LastOffline <;> rfl
    · rintro ⟨e, he⟩
      rw [hdown]; unfold getLastDownDuration; rw [he]; rfl
    · intro v hv
      refine ⟨tnow, ?_⟩
      rw [hup]; unfold getUptimeDuration; rw [hv]; rfl
    · exact hkeep ONUCustomerInfo.Name (fun _ _ => rfl) (fun _ _ => rfl) (fun _ _ => rfl)
        (fun _ _ => rfl) (fun _ _ => rfl) (fun _ _ => rfl)
    · exact hkeep ONUCustomerInfo.OnuType (fun _ _ => rfl) (fun _ _ => rfl) (fun _ _ => rfl)
        (fun _ _ => rfl) (fun _ _ => rfl) (fun _ _ => rfl)
    · exact hkeep ONUCustomerInfo.SerialNumber (fun _ _ => rfl) (fun _ _ => rfl)
        (fun _ _ => rfl) (fun _ _ => rfl) (fun _ _ => rfl) (fun _ _ => rfl)
    · exact hkeep ONUCustomerInfo.RXPower (fun _ _ => rfl) (fun _ _ => rfl) (fun _ _ => rfl)
        (fun _ _ => rfl) (fun _ _ => rfl) (fun _ _ => rfl)
    · exact hkeep ONUCustomerInfo.TXPower (fun _ _ => rfl) (fun _ _ => rfl) (fun _ _ => rfl)
        (fun _ _ => rfl) (fun _ _ => rfl) (fun _ _ => rfl)
    · exact hkeep ONUCustomerInfo.Status (fun _ _ => rfl) (fun _ _ => rfl) (fun _ _ => rfl)
        (fun _ _ => rfl) (fun _ _ => rfl) (fun _ _ => rfl)
    · exact hkeep ONUCustomerInfo.IPAddress (fun _ _ => rfl) (fun _ _ => rfl) (fun _ _ => rfl)
        (fun _ _ => rfl) (fun _ _ => rfl) (fun _ _ => rfl)
    · exact hkeep ONUCustomerInfo.Description (fun _ _ => rfl) (fun _ _ => rfl)
        (fun _ _ => rfl) (fun _ _ => rfl) (fun _ _ => rfl) (fun _ _ => rfl)

/-- Witness of C15 as amended: terminal 5 without a last-online answer (the fetch fails, the
string stays empty and does not parse) and with a well-formed last-offline value. -/
theorem C15_durations_follow_their_own_timestamps_witness :
    ∃ r : ONUCustomerInfo,
      (GetByBoardIDPonIDAndOnuID
        (deviceEnv [pdu5] (terminal5 ++ [("1.10.5", SnmpValue.bytes [7, 231, 12, 31, 20, 0, 0, 0])]))
        sampleLib 1 1 5).out = Outcome.ret (r, none)
      ∧ r.LastOnline = "" ∧ r.LastOffline = "2023-12-31 20:00:00" ∧ r.RXPower = "-18.50"
      ∧ r.Uptime = "" ∧ r.LastDownTimeDuration = "" := by
  have hout : (GetByBoardIDPonIDAndOnuID
        (deviceEnv [pdu5] (terminal5 ++ [("1.10.5", SnmpValue.bytes [7, 231, 12, 31, 20, 0, 0, 0])]))
        sampleLib 1 1 5).out
      = Outcome.ret
          ({ Board := 1, PON := 1, ID := 5, Name := "onu", Description := "customer 5",
             OnuType := "F660", SerialNumber := "ZTEG00000005", RXPower := "-18.50",
             TXPower := "2.00", Status := "Online", IPAddress := "10.0.0.5",
             LastOffline := "2023-12-31 20:00:00",
             LastOfflineReason := "LOS", GponOpticalDistance := "1200" }, none) := by
    decide
  have h := (C15_durations_follow_their_own_timestamps _ sampleLib 1 1 5 _ hout).1
    ⟨⟨"parsing time: cannot parse"⟩, rfl⟩
  exact ⟨_, hout, rfl, rfl, rfl, h.1, h.2⟩

/-- C16, the claim fails as stated: terminal 5 answers its rx power fetch with the raw
reading 65535, which the sample decoder turns into "101.07"; the record returned carries
that string in `RXPower`. -/
theorem C16_reading_above_100_is_stored :
    (samplePower (SnmpValue.int 65535)).1 = "101.07"
    ∧ (GetByBoardIDPonIDAndOnuID
        (deviceEnv [pdu5] [("1.4.5.1", SnmpValue.int 65535)]) sampleLib 1 1 5).out
      = Outcome.ret ({ Board := 1, PON := 1, ID := 5, Name := "onu", RXPower := "101.07" },
          none) := by
  decide

/-- C16, amended: the record of a walked entry returned by `GetByBoardIDPonIDAndOnuID`
carries in `RXPower` (respectively `TXPower`) the string of its rx (tx) power fetch when
that fetch succeeded and the empty string when it failed, and a successful fetch yields the
string `ConvertAndMultiply` decodes from the first variable, as it is: no reading is compared
with 100, so -18.50 is stored unchanged and so is 101.07. -/
theorem C16_power_string_stored_as_decoded (env : Env) (lib : DetailLib)
    (b p onuID : Int) (r : ONUCustomerInfo)
    (h : (GetByBoardIDPonIDAndOnuID env lib b p onuID).out = Outcome.ret (r, none)) :
    (r = {} ∨ ∃ oc t3 t4, getOltConfig env.cfg b p = (some oc, none)
        ∧ r.RXPower = fieldOf (getRxPower env t3 oc.OnuRxPowerOID (itoa r.ID)).1
        ∧ r.TXPower = fieldOf (getTxPower env t4 oc.OnuTxPowerOID (itoa r.ID)).1)
    ∧ (∀ (t : Trace) (oid id : String) (packet : SnmpPacket),
        env.Get t (env.cfg.OltCfg.BaseOID1 ++ oid ++ "." ++ id ++ ".1") = Except.ok packet →
        packet.Variables ≠ [] →
        (getRxPower env t oid id).1
          = Except.ok (env.utils.ConvertAndMultiply packet.firstValue).1)
    ∧ (∀ (t : Trace) (oid id : String) (packet : SnmpPacket),
        env.Get t (env.cfg.OltCfg.BaseOID2 ++ oid ++ "." ++ id ++ ".1") = Except.ok packet →
        packet.Variables ≠ [] →
        (getTxPower env t oid id).1
          = Except.ok (env.utils.ConvertAndMultiply packet.firstValue).1) := by
  refine ⟨?_, ?_, ?_⟩
  · obtain ⟨oc, hcfg, hr⟩ := GetByBoardIDPonIDAndOnuID_ret env lib b p onuID r h
    rcases hr with rfl | ⟨t0, pdu, t1, hent⟩
    · exact Or.inl rfl
    · obtain ⟨_, _, hkeep, _, _, hid⟩ := customerInfoOfPdu_ret env lib oc b p t0 pdu r t1 hent
      obtain ⟨t3, h3⟩ := detailHead_RXPower env oc b p t0 pdu
      obtain ⟨t4, h4⟩ := detailHead_TXPower env oc b p t0 pdu
      refine Or.inr ⟨oc, t3, t4, hcfg, ?_, ?_⟩
      · rw [hid, ← h3]
        exact hkeep ONUCustomerInfo.RXPower (fun _ _ => rfl) (fun _ _ => rfl) (fun _ _ => rfl)
          (fun _ _ => rfl) (fun _ _ => rfl) (fun _ _ => rfl)
      · rw [hid, ← h4]
        exact hkeep ONUCustomerInfo.TXPower (fun _ _ => rfl) (fun _ _ => rfl) (fun _ _ => rfl)
          (fun _ _ => rfl) (fun _ _ => rfl) (fun _ _ => rfl)
  · intro t oid id packet hget hne
    have hlen : ¬ packet.Variables.length = 0 := by
      intro h0; exact hne (List.length_eq_zero.mp h0)
    unfold getRxPower getFromSNMPWithSingleflight
    simp only [hget, if_neg hlen]
  · intro t oid id packet hget hne
    have hlen : ¬ packet.Variables.length = 0 := by
      intro h0; exact hne (List.length_eq_zero.mp h0)
    unfold getTxPower getFromSNMPWithSingleflight
    simp only [hget, if_neg hlen]

/-- Witness of C16 as amended: terminal 5 with the rx reading 5750 and the tx reading 16000;
the decoded strings "-18.50" and "2.00" are in the record. -/
theorem C16_power_string_stored_as_decoded_witness :
    ∃ r : ONUCustomerInfo,
      (GetByBoardIDPonIDAndOnuID (deviceEnv [pdu5] terminal5) sampleLib 1 1 5).out
        = Outcome.ret (r, none)
      ∧ r.RXPower = "-18.50" ∧ r.TXPower = "2.00"
      ∧ (getRxPower (deviceEnv [pdu5] terminal5) [] ".4" "5").1 = Except.ok "-18.50" := by
  have hout : (GetByBoardIDPonIDAndOnuID (deviceEnv [pdu5] terminal5) sampleLib 1 1 5).out
      = Outcome.ret
          ({ Board := 1, PON := 1, ID := 5, Name := "onu", Description := "customer 5",
             OnuType := "F660", SerialNumber := "ZTEG00000005", RXPower := "-18.50",
             TXPower := "2.00", Status := "Online", IPAddress := "10.0.0.5",
             LastOfflineReason := "LOS", GponOpticalDistance := "1200" }, none) := by
    decide
  have h := (C16_power_string_stored_as_decoded _ sampleLib 1 1 5 _ hout).2.1 [] ".4" "5"
    { Variables := [{ Name := "1.4.5.1", Value := SnmpValue.int 5750 }] } rfl (by simp)
  exact ⟨_, hout, rfl, rfl, h.trans (congrArg Except.ok (by decide))⟩

theorem publish_aborts (env : SweepEnv) (detailedOnu : ONUCustomerInfo)
    (trace : List SweepEvent) :
    publish env detailedOnu { trace := trace, aborted := none }
      = { trace := trace, aborted := some "label name missing in label map" } := by
  have h1 : gaugeWithSet env GaugeName.OnuInfoGauge (sweepInfoLabels detailedOnu)
      (Sample.ofInt 1) { trace := trace, aborted := none }
      = { trace := trace, aborted := some "label name missing in label map" } := by
    simp [gaugeWithSet, labelsMatch, variableLabels, sweepInfoLabels, GoMap.has]
  have hab : ∀ (g : GaugeName) (l : GoMap String String) (v : Sample),
      gaugeWithSet env g l v { trace := trace, aborted := some "label name missing in label map" }
        = { trace := trace, aborted := some "label name missing in label map" } := by
    intro g l v
    simp [gaugeWithSet]
  unfold publish
  simp only [h1, hab, publishPower]
  split <;> split <;> (try split) <;> (try split) <;> (try split) <;> (try split) <;> rfl

/-- C17: the code at the failing input. A pass over board 1, port 1 whose only terminal (id
5) is detailed without error as online with the rx power "-18.50", a string that parses
below 100: the pass aborts at the info gauge, whose label map names `phase_state` where the
gauge is declared with `status`, and the rx power series is never set. The same holds for
every terminal that is detailed without error: its publication ends at the info gauge. -/
theorem C17_power_series_never_set :
    collect (sampleSweepEnv [{ Board := 1, PON := 1, ID := 5 }]
        (fun onuID => ({ Board := 1, PON := 1, ID := onuID, Status := "Online",
                         RXPower := "-18.50", TXPower := "2.00" }, none))) 1 1 1 1
      = { trace :=
            [SweepEvent.reset GaugeName.OnuInfoGauge, SweepEvent.reset GaugeName.OnuStatusGauge,
             SweepEvent.reset GaugeName.OnuRxPowerGauge, SweepEvent.reset GaugeName.OnuTxPowerGauge,
             SweepEvent.reset GaugeName.OnuUptimeGauge,
             SweepEvent.reset GaugeName.OnuLastDownDurationGauge,
             SweepEvent.reset GaugeName.OnuLastOnlineGauge,
             SweepEvent.reset GaugeName.OnuLastOfflineGauge,
             SweepEvent.reset GaugeName.OnuGponOpticalDistanceGauge,
             SweepEvent.callGetByBoardIDAndPonID 1 1,
             SweepEvent.callGetByBoardIDPonIDAndOnuID 1 1 5],
          aborted := some "label name missing in label map" }
    ∧ ∀ (env : SweepEnv) (detailedOnu : ONUCustomerInfo) (trace : List SweepEvent),
        publish env detailedOnu { trace := trace, aborted := none }
          = { trace := trace, aborted := some "label name missing in label map" } :=
  ⟨by decide, publish_aborts⟩

/-- C18: the code at the failing input, which is every terminal. The label map the sweep
hands to the info gauge names board, pon, onu_id, name, serial_number, onu_type, description,
ip_address, offline_reason and phase_state; the gauge is declared with the same names except
that `status` stands in the place of `phase_state`. The two sets differ, and the check made
by `With` fails. -/
theorem C18_info_labels_differ_from_declaration (statusLabels : List String)
    (detailedOnu : ONUCustomerInfo) :
    (sweepInfoLabels detailedOnu).map Prod.fst
      = ["board", "pon", "onu_id", "name", "serial_number", "onu_type", "description",
         "ip_address", "offline_reason", "phase_state"]
    ∧ variableLabels statusLabels GaugeName.OnuInfoGauge
      = ["board", "pon", "onu_id", "name", "serial_number", "onu_type", "description",
         "ip_address", "offline_reason", "status"]
    ∧ "phase_state" ∉ variableLabels statusLabels GaugeName.OnuInfoGauge
    ∧ "status" ∉ (sweepInfoLabels detailedOnu).map Prod.fst
    ∧ labelsMatch (variableLabels statusLabels GaugeName.OnuInfoGauge)
        (sweepInfoLabels detailedOnu) = false := by
  refine ⟨rfl, rfl, ?_, ?_, ?_⟩
  · simp [variableLabels]
  · simp [sweepInfoLabels]
  · simp [labelsMatch, variableLabels, sweepInfoLabels, GoMap.has]

/-- C19: the code at the failing input. A pass over board 1 and the ports 1 and 2, where
each port holds terminal 5 and every call returns without error: after the detail call for
terminal 5 of port 1 the pass aborts at the info gauge, so `GetByBoardIDAndPonID` is never
called for port 2. When instead every detail call returns an error, both ports are
discovered and both terminals are asked for. -/
theorem C19_pass_stops_after_first_detailed_terminal :
    collect (sampleSweepEnv [{ Board := 1, PON := 1, ID := 5 }]
        (fun onuID => ({ Board := 1, PON := 1, ID := onuID, Status := "Online" }, none))) 1 1 1 2
      = { trace :=
            [SweepEvent.reset GaugeName.OnuInfoGauge, SweepEvent.reset GaugeName.OnuStatusGauge,
             SweepEvent.reset GaugeName.OnuRxPowerGauge, SweepEvent.reset GaugeName.OnuTxPowerGauge,
             SweepEvent.reset GaugeName.OnuUptimeGauge,
             SweepEvent.reset GaugeName.OnuLastDownDurationGauge,
             SweepEvent.reset GaugeName.OnuLastOnlineGauge,
             SweepEvent.reset GaugeName.OnuLastOfflineGauge,
             SweepEvent.reset GaugeName.OnuGponOpticalDistanceGauge,
             SweepEvent.callGetByBoardIDAndPonID 1 1,
             SweepEvent.callGetByBoardIDPonIDAndOnuID 1 1 5],
          aborted := some "label name missing in label map" }
    ∧ collect (sampleSweepEnv [{ Board := 1, PON := 1, ID := 5 }]
        (fun _ => ({}, some ⟨"failed to walk OID"⟩))) 1 1 1 2
      = { trace :=
            [SweepEvent.reset GaugeName.OnuInfoGauge, SweepEvent.reset GaugeName.OnuStatusGauge,
             SweepEvent.reset GaugeName.OnuRxPowerGauge, SweepEvent.reset GaugeName.OnuTxPowerGauge,
             SweepEvent.reset GaugeName.OnuUptimeGauge,
             SweepEvent.reset GaugeName.OnuLastDownDurationGauge,
             SweepEvent.reset GaugeName.OnuLastOnlineGauge,
             SweepEvent.reset GaugeName.OnuLastOfflineGauge,
             SweepEvent.reset GaugeName.OnuGponOpticalDistanceGauge,
             SweepEvent.callGetByBoardIDAndPonID 1 1,
             SweepEvent.callGetByBoardIDPonIDAndOnuID 1 1 5,
             SweepEvent.callGetByBoardIDAndPonID 1 2,
             SweepEvent.callGetByBoardIDPonIDAndOnuID 1 2 5],
          aborted := none } := by
  constructor <;> decide

/-! ## Decimal text of numbers -/

theorem digitChar_digit (d : Nat) (h : d < 10) :
    (Nat.digitChar d).isDigit = true ∧ digitValue (Nat.digitChar d) = d := by
  interval_cases d <;> decide

theorem decimalValue_append_singleton (l : List Char) (c : Char) :
    decimalValue (l ++ [c]) = decimalValue l * 10 + digitValue c := by
  simp [decimalValue, List.foldl_append]

theorem toDigitsCore_value (fuel : Nat) : ∀ (n : Nat) (ds : List Char), n < fuel →
    ∃ l, Nat.toDigitsCore 10 fuel n ds = l ++ ds ∧ l ≠ [] ∧
      (∀ c ∈ l, c.isDigit = true) ∧ decimalValue l = n := by
  induction fuel with
  | zero => intro n ds h; omega
  | succ fuel ih =>
    intro n ds h
    have hd := digitChar_digit (n % 10) (Nat.mod_lt _ (by decide))
    by_cases h0 : n / 10 = 0
    · refine ⟨[Nat.digitChar (n % 10)], ?_, by simp, ?_, ?_⟩
      · simp [Nat.toDigitsCore, h0]
      · intro c hc
        rw [List.mem_singleton] at hc
        rw [hc]; exact hd.1
      · have : decimalValue [Nat.digitChar (n % 10)] = digitValue (Nat.digitChar (n % 10)) := by
          simp [decimalValue]
        rw [this, hd.2]
        omega
    · have hlt : n / 10 < fuel := by omega
      obtain ⟨l, hl, _, hdig, hval⟩ := ih (n / 10) (Nat.digitChar (n % 10) :: ds) hlt
      refine ⟨l ++ [Nat.digitChar (n % 10)], ?_, by simp, ?_, ?_⟩
      · simp [Nat.toDigitsCore, h0, hl]
      · intro c hc
        rcases List.mem_append.1 hc with hc | hc
        · exact hdig c hc
        · rw [List.mem_singleton] at hc
          rw [hc]; exact hd.1
      · rw [decimalValue_append_singleton, hval, hd.2]
        omega

theorem repr_data_spec (n : Nat) :
    (toString n).data ≠ [] ∧ (∀ c ∈ (toString n).data, c.isDigit = true) ∧
      decimalValue (toString n).data = n := by
  obtain ⟨l, hl, hne, hdig, hval⟩ := toDigitsCore_value (n + 1) n [] (Nat.lt_succ_self n)
  have : (toString n).data = l := by
    show (Nat.repr n).data = l
    simp [Nat.repr, Nat.toDigits, hl, List.asString]
  rw [this]
  exact ⟨hne, hdig, hval⟩

theorem itoa_data (i : Int) :
    (∃ n : Nat, i = (n : Int) ∧ (itoa i).data = (toString n).data) ∨
    (∃ n : Nat, i = Int.negSucc n ∧ (itoa i).data = '-' :: (toString (n + 1)).data) := by
  cases i with
  | ofNat n => exact Or.inl ⟨n, rfl, rfl⟩
  | negSucc n => exact Or.inr ⟨n, rfl, rfl⟩

theorem toString_nat_injective {n m : Nat} (h : (toString n).data = (toString m).data) :
    n = m := by
  rw [← (repr_data_spec n).2.2, ← (repr_data_spec m).2.2, h]

theorem itoa_injective {i j : Int} (h : (itoa i).data = (itoa j).data) : i = j := by
  rcases itoa_data i with ⟨n, hi, hn⟩ | ⟨n, hi, hn⟩ <;>
    rcases itoa_data j with ⟨m, hj, hm⟩ | ⟨m, hj, hm⟩
  · rw [hn, hm] at h
    rw [hi, hj, toString_nat_injective h]
  · rw [hn, hm] at h
    have := (repr_data_spec n).2.1 '-' (by rw [h]; simp)
    exact absurd this (by decide)
  · rw [hn, hm] at h
    have := (repr_data_spec m).2.1 '-' (by rw [← h]; simp)
    exact absurd this (by decide)
  · rw [hn, hm] at h
    have h2 := toString_nat_injective (List.cons.inj h).2
    rw [hi, hj]
    congr 1
    omega

theorem itoa_chars (i : Int) (c : Char) (hc : c ∈ (itoa i).data) :
    c.isDigit = true ∨ c = '-' := by
  rcases itoa_data i with ⟨n, _, hn⟩ | ⟨n, _, hn⟩
  · rw [hn] at hc
    exact Or.inl ((repr_data_spec n).2.1 c hc)
  · rw [hn] at hc
    rcases List.mem_cons.1 hc with hc | hc
    · exact Or.inr hc
    · exact Or.inl ((repr_data_spec (n + 1)).2.1 c hc)

theorem colon_not_mem_itoa (i : Int) : ':' ∉ (itoa i).data := by
  intro h
  rcases itoa_chars i ':' h with h | h
  · exact absurd h (by decide)
  · exact absurd h (by decide)

theorem append_sep_inj {α : Type} (c : α) : ∀ {l1 l2 r1 r2 : List α}, c ∉ l1 → c ∉ l2 →
    l1 ++ c :: r1 = l2 ++ c :: r2 → l1 = l2 ∧ r1 = r2 := by
  intro l1
  induction l1 with
  | nil =>
    intro l2 r1 r2 _ h2 h
    cases l2 with
    | nil => exact ⟨rfl, (List.cons.inj h).2⟩
    | cons a l2 =>
      have := (List.cons.inj h).1
      exact absurd (this ▸ List.mem_cons_self _ _) h2
  | cons a l1 ih =>
    intro l2 r1 r2 h1 h2 h
    cases l2 with
    | nil =>
      have := (List.cons.inj h).1
      exact absurd (this ▸ List.mem_cons_self _ _) h1
    | cons b l2 =>
      have hh := List.cons.inj h
      have := ih (fun hm => h1 (List.mem_cons_of_mem _ hm))
        (fun hm => h2 (List.mem_cons_of_mem _ hm)) hh.2
      exact ⟨by rw [hh.1, this.1], this.2⟩

/-- Two numbers followed by a colon and more text: equal texts have equal numbers and equal
remainders. -/
theorem itoa_colon_inj {i j : Int} {r1 r2 : List Char}
    (h : (itoa i).data ++ ':' :: r1 = (itoa j).data ++ ':' :: r2) : i = j ∧ r1 = r2 := by
  have := append_sep_inj ':' (colon_not_mem_itoa i) (colon_not_mem_itoa j) h
  exact ⟨itoa_injective this.1, this.2⟩

theorem itoa_dash_p_inj {i j : Int} {r1 r2 : List Char}
    (h : (itoa i).data ++ '-' :: 'p' :: r1 = (itoa j).data ++ '-' :: 'p' :: r2) :
    i = j ∧ r1 = r2 := by
  have hp : ∀ k : Int, 'p' ∉ (itoa k).data ++ ['-'] := by
    intro k hk
    rcases List.mem_append.1 hk with hk | hk
    · rcases itoa_chars k 'p' hk with h | h
      · exact absurd h (by decide)
      · exact absurd h (by decide)
    · exact absurd (List.mem_singleton.1 hk) (by decide)
  have h' : ((itoa i).data ++ ['-']) ++ 'p' :: r1 = ((itoa j).data ++ ['-']) ++ 'p' :: r2 := by
    simpa using h
  have := append_sep_inj 'p' (hp i) (hp j) h'
  exact ⟨itoa_injective (List.append_cancel_right this.1), this.2⟩

theorem Call.key_data (c : Call) : c.key.data =
    match c with
    | Call.GetByBoardIDAndPonID b p =>
      'o' :: 'n' :: 'u' :: 'i' :: 'n' :: 'f' :: 'o' :: '-' :: 'b' ::
        ((itoa b).data ++ '-' :: 'p' :: (itoa p).data)
    | Call.GetByBoardIDPonIDAndOnuID b p o =>
      'o' :: 'n' :: 'u' :: ':' ::
        ((itoa b).data ++ ':' :: ((itoa p).data ++ ':' :: (itoa o).data))
    | Call.GetEmptyOnuID b p =>
      'e' :: ("mpty_onu_id:".data ++ ((itoa b).data ++ ':' :: (itoa p).data))
    | Call.GetOnuIDAndSerialNumber b p =>
      'o' :: 'n' :: 'u' :: '_' ::
        ("id_and_serial_number:".data ++ ((itoa b).data ++ ':' :: (itoa p).data))
    | Call.UpdateEmptyOnuID b p =>
      'u' :: ("pdate_empty_onu_id:".data ++ ((itoa b).data ++ ':' :: (itoa p).data))
    | Call.GetByBoardIDAndPonIDWithPagination b p i s =>
      'g' :: ("et_onu_info:".data ++ ((itoa b).data ++ ':' :: ((itoa p).data ++ ':' ::
        ((itoa i).data ++ ':' :: (itoa s).data)))) := by
  cases c <;> simp [Call.key, String.data_append]

/-- C21: the coalescing keys of the six public operations are injective: two calls with the
same key are the same operation with the same board and port, the same terminal id for
`GetByBoardIDPonIDAndOnuID` and the same page index and page size for
`GetByBoardIDAndPonIDWithPagination`. -/
theorem C21_coalescing_keys_injective : Function.Injective Call.key := by
  intro c1 c2 h
  have h' := congrArg String.data h
  rw [Call.key_data, Call.key_data] at h'
  cases c1 <;> cases c2 <;> simp only [List.cons.injEq, true_and, reduceCtorEq, false_and,
    and_false, Char.reduceEq, List.append_cancel_left_eq] at h' <;>
    first
    | exact absurd h' (by decide)
    | (obtain ⟨e1, h1⟩ := itoa_dash_p_inj h'
       rw [e1, itoa_injective h1])
    | (obtain ⟨e1, h1⟩ := itoa_colon_inj h'
       obtain ⟨e2, h2⟩ := itoa_colon_inj h1
       obtain ⟨e3, h3⟩ := itoa_colon_inj h2
       rw [e1, e2, e3, itoa_injective h3])
    | (obtain ⟨e1, h1⟩ := itoa_colon_inj h'
       obtain ⟨e2, h2⟩ := itoa_colon_inj h1
       rw [e1, e2, itoa_injective h2])
    | (obtain ⟨e1, h1⟩ := itoa_colon_inj h'
       rw [e1, itoa_injective h1])

/-- C22: for a board in {1, 2} and a port in 1..16, `getOltConfig` returns a nil error and a
profile whose `BaseOID` is the configured `BaseOID1` and whose twelve OIDs are the
same-named fields of the configuration entry of that board and port. -/
theorem C22_getOltConfig_profile_of_entry (cfg : Config) (b p : Int)
    (hb : b = 1 ∨ b = 2) (hp1 : 1 ≤ p) (hp2 : p ≤ 16) :
    ∃ oc, getOltConfig cfg b p = (some oc, none) ∧
      oc.BaseOID = cfg.OltCfg.BaseOID1 ∧
      oc.OnuIDNameOID = (configEntry cfg b p).OnuIDNameOID ∧
      oc.OnuTypeOID = (configEntry cfg b p).OnuTypeOID ∧
      oc.OnuSerialNumberOID = (configEntry cfg b p).OnuSerialNumberOID ∧
      oc.OnuRxPowerOID = (configEntry cfg b p).OnuRxPowerOID ∧
      oc.OnuTxPowerOID = (configEntry cfg b p).OnuTxPowerOID ∧
      oc.OnuStatusOID = (configEntry cfg b p).OnuStatusOID ∧
      oc.OnuIPAddressOID = (configEntry cfg b p).OnuIPAddressOID ∧
      oc.OnuDescriptionOID = (configEntry cfg b p).OnuDescriptionOID ∧
      oc.OnuLastOnlineOID = (configEntry cfg b p).OnuLastOnlineOID ∧
      oc.OnuLastOfflineOID = (configEntry cfg b p).OnuLastOfflineOID ∧
      oc.OnuLastOfflineReasonOID = (configEntry cfg b p).OnuLastOfflineReasonOID ∧
      oc.OnuGponOpticalDistanceOID = (configEntry cfg b p).OnuGponOpticalDistanceOID := by
  rcases hb with rfl | rfl <;> interval_cases p <;>
    exact ⟨_, rfl, rfl, rfl, rfl, rfl, rfl, rfl, rfl, rfl, rfl, rfl, rfl, rfl, rfl⟩

theorem C22_getOltConfig_profile_of_entry_witness :
    ∃ oc, getOltConfig sampleCfg 1 1 = (some oc, none) ∧
      oc.BaseOID = "1" ∧
      oc.OnuIDNameOID = ".1" ∧ oc.OnuTypeOID = ".2" ∧ oc.OnuSerialNumberOID = ".3" ∧
      oc.OnuRxPowerOID = ".4" ∧ oc.OnuTxPowerOID = ".5" ∧ oc.OnuStatusOID = ".6" ∧
      oc.OnuIPAddressOID = ".7" ∧ oc.OnuDescriptionOID = ".8" ∧
      oc.OnuLastOnlineOID = ".9" ∧ oc.OnuLastOfflineOID = ".10" ∧
      oc.OnuLastOfflineReasonOID = ".11" ∧ oc.OnuGponOpticalDistanceOID = ".12" :=
  C22_getOltConfig_profile_of_entry sampleCfg 1 1 (Or.inl rfl) (by decide) (by decide)

theorem getFromSNMPWithSingleflight_trace (env : Env) (t : Trace) (oid : String) :
    (getFromSNMPWithSingleflight env t oid).2 = t ++ [Event.snmpGet oid] := by
  unfold getFromSNMPWithSingleflight
  cases env.Get t oid with
  | error e => rfl
  | ok packet =>
    by_cases h : packet.Variables.length = 0
    · simp [h]
    · simp [h]

/-- C27: the OID each single-field fetch asks the device for. Type, tx power and IP address
are fetched under `BaseOID2`, name, serial number, status, description, last-online and
last-offline time under `BaseOID1`, each followed by the field OID, "." and the terminal
id; the tx-power and IP-address OIDs end in the extra ".1". -/
theorem C27_fetched_oids (env : Env) (lib : DetailLib) (t : Trace) (fieldOID onuID : String) :
    (getONUType env t fieldOID onuID).2
      = t ++ [Event.snmpGet (env.cfg.OltCfg.BaseOID2 ++ fieldOID ++ "." ++ onuID)] ∧
    (getTxPower env t fieldOID onuID).2
      = t ++ [Event.snmpGet (env.cfg.OltCfg.BaseOID2 ++ fieldOID ++ "." ++ onuID ++ ".1")] ∧
    (getIPAddress env t fieldOID onuID).2
      = t ++ [Event.snmpGet (env.cfg.OltCfg.BaseOID2 ++ fieldOID ++ "." ++ onuID ++ ".1")] ∧
    (getName env t fieldOID onuID).2
      = t ++ [Event.snmpGet (env.cfg.OltCfg.BaseOID1 ++ fieldOID ++ "." ++ onuID)] ∧
    (getSerialNumber env t fieldOID onuID).2
      = t ++ [Event.snmpGet (env.cfg.OltCfg.BaseOID1 ++ fieldOID ++ "." ++ onuID)] ∧
    (getStatus env t fieldOID onuID).2
      = t ++ [Event.snmpGet (env.cfg.OltCfg.BaseOID1 ++ fieldOID ++ "." ++ onuID)] ∧
    (getDescription env t fieldOID onuID).2
      = t ++ [Event.snmpGet (env.cfg.OltCfg.BaseOID1 ++ fieldOID ++ "." ++ onuID)] ∧
    (getLastOnline env lib t fieldOID onuID).2
      = t ++ [Event.snmpGet (env.cfg.OltCfg.BaseOID1 ++ fieldOID ++ "." ++ onuID)] ∧
    (getLastOffline env lib t fieldOID onuID).2
      = t ++ [Event.snmpGet (env.cfg.OltCfg.BaseOID1 ++ fieldOID ++ "." ++ onuID)] := by
  have key : ∀ oid, ∀ (f : SnmpPacket → String),
      (match getFromSNMPWithSingleflight env t oid with
        | (Except.error err, t1) => ((Except.error err : Except GoError String), t1)
        | (Except.ok result, t1) => (Except.ok (f result), t1)).2
        = t ++ [Event.snmpGet oid] := by
    intro oid f
    rw [← getFromSNMPWithSingleflight_trace env t oid]
    rcases getFromSNMPWithSingleflight env t oid with ⟨r, t1⟩
    cases r <;> rfl
  refine ⟨key _ _, key _ _, key _ _, key _ _, key _ _, key _ _, key _ _, ?_, ?_⟩
  · unfold getLastOnline
    simp only []
    rw [← getFromSNMPWithSingleflight_trace env t]
    rcases getFromSNMPWithSingleflight env t _ with ⟨r, t1⟩
    cases r with
    | error e => rfl
    | ok result => dsimp only; cases result.firstValue <;> rfl
  · unfold getLastOffline
    simp only []
    cases env.Get t _ with
    | error e => rfl
    | ok resultData =>
      dsimp only
      cases resultData.Variables with
      | nil => rfl
      | cons v vs => dsimp only; cases v.Value <;> rfl

theorem getLastOnline_abort (env : Env) (lib : DetailLib) (t : Trace) (oid id : String)
    (reason : String) (t1 : Trace)
    (h : getLastOnline env lib t oid id = (Outcome.abort reason, t1)) :
    reason = "interface conversion: interface is not []uint8" := by
  unfold getLastOnline at h
  simp only [] at h
  split at h
  · simp at h
  · split at h
    · simp at h
    · simp only [Prod.mk.injEq, Outcome.abort.injEq] at h
      exact h.1.symm

theorem getLastOffline_abort (env : Env) (lib : DetailLib) (t : Trace) (oid id : String)
    (reason : String) (t1 : Trace)
    (h : getLastOffline env lib t oid id = (Outcome.abort reason, t1)) :
    reason = "interface conversion: interface is not []uint8" := by
  unfold getLastOffline at h
  simp only [] at h
  split at h
  · simp at h
  · split at h
    · split at h
      · simp at h
      · simp only [Prod.mk.injEq, Outcome.abort.injEq] at h
        exact h.1.symm
    · simp at h

theorem customerInfoOfPdu_abort (env : Env) (lib : DetailLib) (oc : OltConfig) (b p : Int)
    (t : Trace) (pdu : SnmpPDU) (reason : String) (t' : Trace)
    (h : customerInfoOfPdu env lib oc b p t pdu = (Outcome.abort reason, t')) :
    reason = "interface conversion: interface is not []uint8" := by
  unfold customerInfoOfPdu at h
  simp only at h
  split at h
  · rename_i reason1 t1 hon
    simp only [Prod.mk.injEq, Outcome.abort.injEq] at h
    rw [← h.1]
    exact getLastOnline_abort _ _ _ _ _ _ _ hon
  · split at h
    · rename_i reason2 t2 hoff
      simp only [Prod.mk.injEq, Outcome.abort.injEq] at h
      rw [← h.1]
      exact getLastOffline_abort _ _ _ _ _ _ _ hoff
    · simp at h

theorem getBoard1Config_phase (cfg : Config) (p : Int) (oc : OltConfig)
    (h : getBoard1Config cfg p = some oc) : oc.OnuPhaseStateOID = "" := by
  unfold getBoard1Config at h
  split at h <;> first
    | (simp only [Option.some.injEq] at h; rw [← h]; rfl)
    | simp at h

theorem getBoard2Config_phase (cfg : Config) (p : Int) (oc : OltConfig)
    (h : getBoard2Config cfg p = some oc) : oc.OnuPhaseStateOID = "" := by
  unfold getBoard2Config at h
  split at h <;> first
    | (simp only [Option.some.injEq] at h; rw [← h]; rfl)
    | simp at h

theorem getOltConfig_phase (cfg : Config) (b p : Int) (oc : OltConfig) (err : Option GoError)
    (h : getOltConfig cfg b p = (some oc, err)) : oc.OnuPhaseStateOID = "" := by
  unfold getOltConfig getBoardConfig at h
  split at h
  · simp at h
  · rename_i c heq
    simp only [Prod.mk.injEq] at h
    split at heq
    · simp only [Prod.mk.injEq, and_true] at heq
      exact getBoard1Config_phase cfg p oc (by rw [heq, h.1])
    · simp only [Prod.mk.injEq, and_true] at heq
      exact getBoard2Config_phase cfg p oc (by rw [heq, h.1])
    · simp at heq

theorem GetByBoardIDPonIDAndOnuID_err (env : Env) (lib : DetailLib) (b p onuID : Int)
    (r : ONUCustomerInfo) (e : GoError)
    (h : (GetByBoardIDPonIDAndOnuID env lib b p onuID).out = Outcome.ret (r, some e)) :
    r = {} := by
  unfold GetByBoardIDPonIDAndOnuID at h
  split at h
  · simp only [Outcome.ret.injEq, Prod.mk.injEq] at h
    exact h.1.symm
  · simp at h
  · simp only at h
    split at h
    · simp only [Outcome.ret.injEq, Prod.mk.injEq] at h
      exact h.1.symm
    · split at h
      · simp at h
      · simp at h

/-- C30: every record `GetByBoardIDPonIDAndOnuID` returns has an empty `PhaseState`, and
every profile `getOltConfig` returns has an empty `OnuPhaseStateOID`; so for such a record
the guard of the power block of the sweep holds exactly when `Status` is "Online", and the
block publishes nothing otherwise. -/
theorem C30_phase_state_is_always_empty (env : Env) (lib : DetailLib) (b p onuID : Int)
    (r : ONUCustomerInfo) (e : Option GoError)
    (h : (GetByBoardIDPonIDAndOnuID env lib b p onuID).out = Outcome.ret (r, e)) :
    r.PhaseState = ""
    ∧ (∀ (cfg : Config) (b' p' : Int) (oc : OltConfig) (err : Option GoError),
        getOltConfig cfg b' p' = (some oc, err) → oc.OnuPhaseStateOID = "")
    ∧ ((r.PhaseState = "ready" ∨ r.Status = "Online") ↔ r.Status = "Online")
    ∧ (∀ (senv : SweepEnv) (s : Sweep), r.Status ≠ "Online" → publishPower senv r s = s) := by
  have hphase : r.PhaseState = "" := by
    cases e with
    | some err => rw [GetByBoardIDPonIDAndOnuID_err env lib b p onuID r err h]
    | none =>
      obtain ⟨oc, _, hr | ⟨t0, pdu, t1, hr⟩⟩ := GetByBoardIDPonIDAndOnuID_ret env lib b p onuID r h
      · rw [hr]
      · have hk := (customerInfoOfPdu_ret env lib oc b p t0 pdu r t1 hr).2.2.1
          ONUCustomerInfo.PhaseState (fun _ _ => rfl) (fun _ _ => rfl) (fun _ _ => rfl)
          (fun _ _ => rfl) (fun _ _ => rfl) (fun _ _ => rfl)
        rw [hk, detailHead_keep ONUCustomerInfo.PhaseState env oc b p t0 pdu
          (fun _ _ => rfl) (fun _ _ => rfl) (fun _ _ => rfl) (fun _ _ => rfl)
          (fun _ _ => rfl) (fun _ _ => rfl) (fun _ _ => rfl)]
  have hiff : (r.PhaseState = "ready" ∨ r.Status = "Online") ↔ r.Status = "Online" := by
    rw [hphase]
    constructor
    · rintro (h1 | h1)
      · exact absurd h1 (by decide)
      · exact h1
    · exact Or.inr
  refine ⟨hphase, fun cfg b' p' oc err => getOltConfig_phase cfg b' p' oc err, hiff, ?_⟩
  intro senv s hs
  unfold publishPower
  rw [if_neg (fun hc => hs (hiff.1 hc))]

theorem C30_phase_state_is_always_empty_witness :
    ∃ r : ONUCustomerInfo,
      (GetByBoardIDPonIDAndOnuID
        (deviceEnv [pdu5] (terminal5 ++ [("1.10.5", SnmpValue.bytes [7, 231, 12, 31, 20, 0, 0, 0])]))
        sampleLib 1 1 5).out = Outcome.ret (r, none)
      ∧ r.Status = "Online" ∧ r.PhaseState = ""
      ∧ ((r.PhaseState = "ready" ∨ r.Status = "Online") ↔ r.Status = "Online") := by
  have hout : (GetByBoardIDPonIDAndOnuID
        (deviceEnv [pdu5] (terminal5 ++ [("1.10.5", SnmpValue.bytes [7, 231, 12, 31, 20, 0, 0, 0])]))
        sampleLib 1 1 5).out
      = Outcome.ret
          ({ Board := 1, PON := 1, ID := 5, Name := "onu", Description := "customer 5",
             OnuType := "F660", SerialNumber := "ZTEG00000005", RXPower := "-18.50",
             TXPower := "2.00", Status := "Online", IPAddress := "10.0.0.5",
             LastOffline := "2023-12-31 20:00:00",
             LastOfflineReason := "LOS", GponOpticalDistance := "1200" }, none) := by
    decide
  have h := C30_phase_state_is_always_empty _ sampleLib 1 1 5 _ _ hout
  exact ⟨_, hout, rfl, h.1, h.2.2.1⟩

theorem pagination.New_PageSize (page pageSize total : Int) :
    (pagination.New page pageSize total).PageSize
      = if pageSize ≤ 0 then 10 else if pageSize > 100 then 100 else pageSize := by
  unfold pagination.New pagination.DefaultPageSize pagination.MaxPageSize
  simp only []
  by_cases h0 : pageSize ≤ 0
  · rw [if_pos h0, if_pos h0, if_neg (by decide)]
  · rw [if_neg h0, if_neg h0]

/-- C26, the claim fails as stated: with the largest `int` as total and page size 10 the
sum `total + pageSize - 1` wraps around, and the page count is negative instead of the least
`k >= 0` with `k * 10 >= total`. -/
theorem C26_page_count_wraps_for_huge_total :
    (pagination.New 0 10 9223372036854775807).PageSize = 10
    ∧ (pagination.New 0 10 9223372036854775807).PageCount = -922337203685477580
    ∧ ¬ (0 ≤ (pagination.New 0 10 9223372036854775807).PageCount) := by
  decide

/-- C26, amended: `pagination.New` returns a `PageSize` in 1..100 (10 when the given size is
at most 0, 100 when it exceeds 100, the given size otherwise) and `TotalRows` equal to the
total; `PageCount` is -1 when the total is negative, and when the total is non-negative and
`total + PageSize - 1` does not exceed the largest `int` it is the least `k >= 0` with
`k * PageSize >= total`. -/
theorem C26_page_size_clamped_page_count_least (page pageSize total : Int) :
    1 ≤ (pagination.New page pageSize total).PageSize
    ∧ (pagination.New page pageSize total).PageSize ≤ 100
    ∧ (pageSize ≤ 0 → (pagination.New page pageSize total).PageSize = 10)
    ∧ (100 < pageSize → (pagination.New page pageSize total).PageSize = 100)
    ∧ (0 < pageSize → pageSize ≤ 100 →
        (pagination.New page pageSize total).PageSize = pageSize)
    ∧ (pagination.New page pageSize total).TotalRows = total
    ∧ (total < 0 → (pagination.New page pageSize total).PageCount = -1)
    ∧ (0 ≤ total →
        total + (pagination.New page pageSize total).PageSize - 1 ≤ 9223372036854775807 →
        0 ≤ (pagination.New page pageSize total).PageCount
        ∧ total ≤ (pagination.New page pageSize total).PageCount
            * (pagination.New page pageSize total).PageSize
        ∧ ∀ k : Int, 0 ≤ k →
            total ≤ k * (pagination.New page pageSize total).PageSize →
            (pagination.New page pageSize total).PageCount ≤ k) := by
  have hs := pagination.New_PageSize page pageSize total
  have h1 : 1 ≤ (pagination.New page pageSize total).PageSize := by
    rw [hs]; split_ifs <;> omega
  have h2 : (pagination.New page pageSize total).PageSize ≤ 100 := by
    rw [hs]; split_ifs <;> omega
  refine ⟨h1, h2, ?_, ?_, ?_, rfl, ?_, ?_⟩
  · intro h; rw [hs, if_pos h]
  · intro h; rw [hs, if_neg (by omega), if_pos h]
  · intro h h'; rw [hs, if_neg (by omega), if_neg (by omega)]
  · intro h
    unfold pagination.New
    simp only []
    rw [if_neg (by omega)]
  · intro h0 hmax
    clear hs
    obtain ⟨S, hS⟩ : ∃ S, (pagination.New page pageSize total).PageSize = S := ⟨_, rfl⟩
    rw [hS] at h1 h2 hmax ⊢
    have hc : (pagination.New page pageSize total).PageCount = (total + S - 1) / S := by
      have : (pagination.New page pageSize total).PageCount
          = Int.tdiv (wrap64 (wrap64 (total + S) - 1)) S := by
        rw [← hS]
        unfold pagination.New
        simp only []
        rw [if_pos h0]
      have hw : wrap64 (wrap64 (total + S) - 1) = total + S - 1 := by
        unfold wrap64
        omega
      rw [this, hw, Int.tdiv_eq_ediv (by omega) (by omega)]
    rw [hc]
    have hSpos : (0 : Int) < S := by omega
    have hdm := Int.ediv_add_emod (total + S - 1) S
    have hm0 := Int.emod_nonneg (total + S - 1) (by omega : S ≠ 0)
    have hm1 := Int.emod_lt_of_pos (total + S - 1) hSpos
    refine ⟨Int.ediv_nonneg (by omega) (by omega), ?_, ?_⟩
    · nlinarith
    · intro k hk hle
      by_contra hlt
      have : k + 1 ≤ (total + S - 1) / S := by omega
      have : (k + 1) * S ≤ (total + S - 1) / S * S := by nlinarith
      nlinarith

theorem C26_page_size_clamped_page_count_least_witness :
    (pagination.New 3 25 101).PageSize = 25
    ∧ (pagination.New 3 25 101).PageCount = 5
    ∧ (101 : Int) ≤ (pagination.New 3 25 101).PageCount * (pagination.New 3 25 101).PageSize
    ∧ (pagination.New 3 0 (-1)).PageCount = -1 :=
  ⟨(C26_page_size_clamped_page_count_least 3 25 101).2.2.2.2.1 (by decide) (by decide),
   by decide,
   ((C26_page_size_clamped_page_count_least 3 25 101).2.2.2.2.2.2.2
      (by decide) (by decide)).2.1,
   (C26_page_size_clamped_page_count_least 3 0 (-1)).2.2.2.2.2.2.1 (by decide)⟩

theorem isDigit_bounds (c : Char) (h : c.isDigit = true) : 48 ≤ c.toNat ∧ c.toNat ≤ 57 := by
  simp only [Char.isDigit, Bool.and_eq_true, decide_eq_true_eq] at h
  exact ⟨h.1, h.2⟩

theorem isBlank_of_isDigit (c : Char) (h : c.isDigit = true) : isBlank c = false := by
  have hb := isDigit_bounds c h
  have : fmtIsSpace c = false := by
    unfold fmtIsSpace
    simp only [Bool.or_eq_false_iff, Bool.and_eq_false_iff, decide_eq_false_iff_not,
      beq_eq_false_iff_ne, ne_eq]
    omega
  simp [isBlank, this]

theorem takeWhile_digits (ds rest : List Char) (hds : ∀ c ∈ ds, c.isDigit = true)
    (hrest : ∀ c, rest.head? = some c → c.isDigit = false) :
    (ds ++ rest).takeWhile Char.isDigit = ds ∧ (ds ++ rest).dropWhile Char.isDigit = rest := by
  induction ds with
  | nil =>
    cases rest with
    | nil => simp
    | cons c r =>
      have := hrest c rfl
      simp [List.takeWhile, List.dropWhile, this]
  | cons d ds ih =>
    have hd := hds d (List.mem_cons_self _ _)
    have := ih (fun c hc => hds c (List.mem_cons_of_mem _ hc))
    simp [List.takeWhile, List.dropWhile, hd, this]

/-- The verb `%d` reads back a printed natural number that fits `int`. -/
theorem scanInt_digits (n : Nat) (hn : n < 9223372036854775808) (rest : List Char)
    (hrest : ∀ c, rest.head? = some c → c.isDigit = false) :
    scanInt ((toString n).data ++ rest) = some ((n : Int), rest) := by
  obtain ⟨hne, hdig, hval⟩ := repr_data_spec n
  obtain ⟨c, tl, hct⟩ := List.exists_cons_of_ne_nil hne
  have hc : c.isDigit = true := hdig c (by rw [hct]; exact List.mem_cons_self _ _)
  have hblank := isBlank_of_isDigit c hc
  have hdrop : ((toString n).data ++ rest).dropWhile isBlank = (toString n).data ++ rest := by
    rw [hct]
    simp [List.dropWhile, hblank]
  have hminus : c ≠ '-' := by
    intro h; rw [h] at hc; exact absurd hc (by decide)
  have hplus : c ≠ '+' := by
    intro h; rw [h] at hc; exact absurd hc (by decide)
  have hhead : ((toString n).data ++ rest).head? = some c := by rw [hct]; rfl
  have htd := takeWhile_digits (toString n).data rest hdig hrest
  unfold scanInt
  simp only [hdrop, hhead, Option.some.injEq, hminus, hplus, or_self, if_false, htd.1, htd.2,
    hval, hne]
  rw [if_pos (by omega)]

theorem scanInt_dropWhile (input : List Char) :
    scanInt (input.dropWhile isBlank) = scanInt input := by
  unfold scanInt
  simp only [List.dropWhile_idempotent]

theorem matchWord_days (x : List Char) :
    matchWord "days" (' ' :: 'd' :: 'a' :: 'y' :: 's' :: ' ' :: x)
      = some ((' ' :: x).dropWhile isBlank) := by
  have h1 : isBlank ' ' = true := by decide
  have h2 : isBlank 'd' = false := by decide
  have hd : ("days" : String).data = ['d', 'a', 'y', 's'] := rfl
  simp only [matchWord, matchSpaces, h1, if_true, List.dropWhile, h2, hd, Option.bind,
    matchLiteral]

theorem matchWord_hours (x : List Char) :
    matchWord "hours" (' ' :: 'h' :: 'o' :: 'u' :: 'r' :: 's' :: ' ' :: x)
      = some ((' ' :: x).dropWhile isBlank) := by
  have h1 : isBlank ' ' = true := by decide
  have h2 : isBlank 'h' = false := by decide
  have hd : ("hours" : String).data = ['h', 'o', 'u', 'r', 's'] := rfl
  simp only [matchWord, matchSpaces, h1, if_true, List.dropWhile, h2, hd, Option.bind,
    matchLiteral]

theorem matchWord_minutes (x : List Char) :
    matchWord "minutes" (' ' :: 'm' :: 'i' :: 'n' :: 'u' :: 't' :: 'e' :: 's' :: ' ' :: x)
      = some ((' ' :: x).dropWhile isBlank) := by
  have h1 : isBlank ' ' = true := by decide
  have h2 : isBlank 'm' = false := by decide
  have hd : ("minutes" : String).data = ['m', 'i', 'n', 'u', 't', 'e', 's'] := rfl
  simp only [matchWord, matchSpaces, h1, if_true, List.dropWhile, h2, hd, Option.bind,
    matchLiteral]

theorem space_not_digit (x : List Char) :
    ∀ c, (' ' :: x).head? = some c → c.isDigit = false := by
  intro c hc
  simp only [List.head?_cons, Option.some.injEq] at hc
  rw [← hc]
  decide

/-- The scan of a printed duration: the four numbers come back. -/
theorem sscanfDuration_printed (d h m s : Nat) (hd : d < 9223372036854775808)
    (hh : h < 9223372036854775808) (hm : m < 9223372036854775808)
    (hs : s < 9223372036854775808) :
    sscanfDuration (itoa (d : Int) ++ " days " ++ itoa (h : Int) ++ " hours "
        ++ itoa (m : Int) ++ " minutes " ++ itoa (s : Int) ++ " seconds")
      = ((d : Int), (h : Int), (m : Int), (s : Int)) := by
  have hdata : (itoa (d : Int) ++ " days " ++ itoa (h : Int) ++ " hours "
        ++ itoa (m : Int) ++ " minutes " ++ itoa (s : Int) ++ " seconds").data
      = (toString d).data ++ (' ' :: 'd' :: 'a' :: 'y' :: 's' :: ' ' ::
          ((toString h).data ++ (' ' :: 'h' :: 'o' :: 'u' :: 'r' :: 's' :: ' ' ::
            ((toString m).data ++ (' ' :: 'm' :: 'i' :: 'n' :: 'u' :: 't' :: 'e' :: 's' :: ' ' ::
              ((toString s).data ++ [' ', 's', 'e', 'c', 'o', 'n', 'd', 's'])))))) := by
    have e : ∀ n : Nat, itoa (n : Int) = toString n := fun _ => rfl
    simp only [e, String.data_append, List.append_assoc]
    rfl
  have hblank : ∀ x : List Char, (' ' :: x).dropWhile isBlank = x.dropWhile isBlank := by
    intro x
    have h1 : isBlank ' ' = true := by decide
    simp [List.dropWhile, h1]
  unfold sscanfDuration
  rw [hdata, scanInt_digits d hd _ (space_not_digit _)]
  simp only [matchWord_days, Option.bind, hblank, scanInt_dropWhile]
  rw [scanInt_digits h hh _ (space_not_digit _)]
  simp only [matchWord_hours, Option.bind, hblank, scanInt_dropWhile]
  rw [scanInt_digits m hm _ (space_not_digit _)]
  simp only [matchWord_minutes, Option.bind, hblank, scanInt_dropWhile]
  rw [scanInt_digits s hs _ (space_not_digit _)]

/-- C28, the claim fails as stated: for d = 106751991167301 the product `days * 24 * 3600`
exceeds the largest `int` and wraps around, so the function returns a negative number
instead of 86400 * d. -/
theorem C28_huge_day_count_wraps :
    itoa 106751991167301 ++ " days " ++ itoa 0 ++ " hours " ++ itoa 0 ++ " minutes "
        ++ itoa 0 ++ " seconds" = "106751991167301 days 0 hours 0 minutes 0 seconds"
    ∧ parseDurationStringToSeconds scanningSweepEnv
        "106751991167301 days 0 hours 0 minutes 0 seconds"
      = Sample.ofInt (-9223372036854745216)
    ∧ (86400 * 106751991167301 + 3600 * 0 + 60 * 0 + 0 : Int) = 9223372036854806400 := by
  decide

/-- C28, amended: for non-negative integers d, h, m and s whose total
86400*d + 3600*h + 60*m + s does not exceed the largest `int`,
`parseDurationStringToSeconds` applied to "d days h hours m minutes s seconds" returns the
`float64` conversion of that total; "0 days 4 hours 0 minutes 0 seconds" gives 14400 and
the empty string gives 0. -/
theorem C28_duration_string_to_seconds (env : SweepEnv) (henv : env.Sscanf = sscanfDuration)
    (d h m s : Nat)
    (hrange : 86400 * d + 3600 * h + 60 * m + s ≤ 9223372036854775807) :
    parseDurationStringToSeconds env
        (itoa (d : Int) ++ " days " ++ itoa (h : Int) ++ " hours " ++ itoa (m : Int)
          ++ " minutes " ++ itoa (s : Int) ++ " seconds")
      = Sample.ofInt (86400 * (d : Int) + 3600 * (h : Int) + 60 * (m : Int) + (s : Int))
    ∧ parseDurationStringToSeconds env "0 days 4 hours 0 minutes 0 seconds"
      = Sample.ofInt 14400
    ∧ parseDurationStringToSeconds env "" = Sample.ofInt 0 := by
  refine ⟨?_, ?_, ?_⟩
  · unfold parseDurationStringToSeconds
    rw [henv, sscanfDuration_printed d h m s (by omega) (by omega) (by omega) (by omega)]
    refine congrArg Sample.ofInt ?_
    show wrap64 (wrap64 (wrap64 (wrap64 (wrap64 ((d : Int) * 24) * 3600)
      + wrap64 ((h : Int) * 3600)) + wrap64 ((m : Int) * 60)) + (s : Int)) = _
    rw [wrap64_eq ((d : Int) * 24) (by omega) (by omega),
      wrap64_eq ((d : Int) * 24 * 3600) (by omega) (by omega),
      wrap64_eq ((h : Int) * 3600) (by omega) (by omega),
      wrap64_eq ((m : Int) * 60) (by omega) (by omega),
      wrap64_eq ((d : Int) * 24 * 3600 + (h : Int) * 3600) (by omega) (by omega),
      wrap64_eq ((d : Int) * 24 * 3600 + (h : Int) * 3600 + (m : Int) * 60)
        (by omega) (by omega),
      wrap64_eq _ (by omega) (by omega)]
    omega
  · unfold parseDurationStringToSeconds
    rw [henv]
    decide
  · unfold parseDurationStringToSeconds
    rw [henv]
    decide

theorem C28_duration_string_to_seconds_witness :
    parseDurationStringToSeconds scanningSweepEnv "1 days 2 hours 3 minutes 4 seconds"
      = Sample.ofInt 93784 :=
  (C28_duration_string_to_seconds scanningSweepEnv rfl 1 2 3 4 (by decide)).1

theorem GoMap.lookup_set (m : GoMap String String) (k v : String) :
    List.lookup k (m.set k v) = some v := by
  unfold GoMap.set
  by_cases h : m.any (fun e => decide (e.1 = k)) = true
  · rw [if_pos h]
    induction m with
    | nil => simp at h
    | cons a m ih =>
      by_cases ha : a.1 = k
      · simp only [List.map_cons, if_pos ha]
        rw [List.lookup, beq_self_eq_true]
      · have hm : m.any (fun e => decide (e.1 = k)) = true := by
          simpa [List.any_cons, ha] using h
        have hne : (k == a.1) = false := by
          simp only [beq_eq_false_iff_ne, ne_eq]
          exact fun hc => ha hc.symm
        simp only [List.map_cons, if_neg ha]
        rw [show a = (a.1, a.2) from rfl, List.lookup, hne]
        exact ih hm
  · rw [if_neg h]
    induction m with
    | nil => simp [List.lookup]
    | cons a m ih =>
      have ha : ¬ a.1 = k := by
        intro hc
        exact h (by simp [List.any_cons, hc])
      have hm : ¬ m.any (fun e => decide (e.1 = k)) = true := by
        intro hc
        exact h (by simp only [List.any_cons, hc, Bool.or_true])
      have hne : (k == a.1) = false := by
        simp only [beq_eq_false_iff_ne, ne_eq]
        exact fun hc => ha hc.symm
      rw [List.cons_append, show a = (a.1, a.2) from rfl, List.lookup, hne]
      exact ih hm

/-- What `SendJSONResponse` leaves in a recorder whose header is not written yet, for a
status code that `WriteHeader` accepts. -/
theorem SendJSONResponse_ret {α : Type} (marshal : α → Except GoError String)
    (w : ResponseRecorder) (hw : w.wroteHeader = false) (statusCode : Int)
    (h1 : 100 ≤ statusCode) (h2 : statusCode ≤ 999) (v : α) :
    ∃ w1, SendJSONResponse marshal w statusCode v = Outcome.ret w1
      ∧ w1.Code = statusCode
      ∧ w1.HeaderGet "Content-Type" = "application/json"
      ∧ (∀ text, marshal v = Except.ok text → w1.Body = w.Body ++ (text ++ "\n"))
      ∧ (∀ err, marshal v = Except.error err → w1.Body = w.Body) := by
  have hwh : (w.HeaderSet "Content-Type" "application/json").WriteHeader statusCode
      = Outcome.ret { w with HeaderMap := w.HeaderMap.set "Content-Type" "application/json",
                             Code := statusCode, wroteHeader := true } := by
    unfold ResponseRecorder.WriteHeader ResponseRecorder.HeaderSet
    simp only [hw]
    rw [if_neg (by simp), if_neg (by omega)]
  unfold SendJSONResponse
  rw [hwh]
  simp only []
  unfold jsonEncode
  cases hm : marshal v with
  | error err =>
    refine ⟨_, rfl, rfl, ?_, ?_, ?_⟩
    · simp [ResponseRecorder.HeaderGet, GoMap.lookup_set]
    · intro text ht; simp at ht
    · intro _ _; rfl
  | ok text =>
    refine ⟨_, rfl, ?_, ?_, ?_, ?_⟩
    · simp [ResponseRecorder.Write]
    · simp [ResponseRecorder.HeaderGet, ResponseRecorder.Write, GoMap.lookup_set]
    · intro text' ht
      simp only [Except.ok.injEq] at ht
      simp [ResponseRecorder.Write, ht]
    · intro err he; simp at he

/-- C24, the claim fails as stated: with the status code 0 `WriteHeader` panics, so the call
does not leave a response with that status code. -/
theorem C24_status_code_zero_aborts :
    SendJSONResponse sampleMarshalOnuID NewRecorder 0 (OnuID.mk 2 8 1)
      = Outcome.abort "invalid WriteHeader code 0" := by
  decide

/-- C24, amended: for every status code in 100..999 and every response value,
`SendJSONResponse` on a response that nothing has been written to leaves that status code
and the Content-Type application/json; when the value can be encoded the body is its JSON
encoding followed by a newline, which decodes back to the value if the decoder reads the
encoding of the value back, and the body is empty when it cannot be encoded. -/
theorem C24_send_json_response {α : Type} (marshal : α → Except GoError String)
    (unmarshal : String → Except GoError α) (w : ResponseRecorder)
    (hw : w.wroteHeader = false) (hbody : w.Body = "") (statusCode : Int)
    (h1 : 100 ≤ statusCode) (h2 : statusCode ≤ 999) (v : α)
    (hround : ∀ text, marshal v = Except.ok text → unmarshal (text ++ "\n") = Except.ok v) :
    ∃ w1, SendJSONResponse marshal w statusCode v = Outcome.ret w1
      ∧ w1.Code = statusCode
      ∧ w1.HeaderGet "Content-Type" = "application/json"
      ∧ (∀ text, marshal v = Except.ok text →
          w1.Body = text ++ "\n" ∧ unmarshal w1.Body = Except.ok v)
      ∧ (∀ err, marshal v = Except.error err → w1.Body = "") := by
  obtain ⟨w1, hret, hcode, hct, hok, herr⟩ :=
    SendJSONResponse_ret marshal w hw statusCode h1 h2 v
  refine ⟨w1, hret, hcode, hct, ?_, ?_⟩
  · intro text ht
    have hb : w1.Body = text ++ "\n" := by
      rw [hok text ht, hbody, String.empty_append]
    exact ⟨hb, by rw [hb]; exact hround text ht⟩
  · intro err he
    rw [herr err he, hbody]

theorem C24_send_json_response_witness :
    ∃ w1, SendJSONResponse sampleMarshalOnuID NewRecorder 200 (OnuID.mk 2 8 1)
        = Outcome.ret w1
      ∧ w1.Code = 200
      ∧ w1.HeaderGet "Content-Type" = "application/json"
      ∧ w1.Body = "2|8|1\n"
      ∧ sampleUnmarshalOnuID w1.Body = Except.ok (OnuID.mk 2 8 1) := by
  obtain ⟨w1, hret, hcode, hct, hok, _⟩ :=
    C24_send_json_response sampleMarshalOnuID sampleUnmarshalOnuID NewRecorder rfl rfl 200
      (by decide) (by decide) (OnuID.mk 2 8 1)
      (fun text ht => by
        have : text = "2|8|1" := by
          simp only [sampleMarshalOnuID, Except.ok.injEq] at ht
          rw [← ht]; decide
        rw [this]; rfl)
  exact ⟨w1, hret, hcode, hct, (hok "2|8|1" rfl).1, (hok "2|8|1" rfl).2⟩

/-- C25: for every error, `ErrorBadRequest`, `ErrorInternalServerError` and `ErrorNotFound`
write the status 400, 500 and 404 with the Content-Type application/json, and the body is
the encoding of the `ErrorResponse` with that code, the status text "Bad Request",
"Internal Server Error" and "Not Found", and the message of the error, so it decodes to
that `ErrorResponse` (the encoder encodes these three responses and the decoder reads
them back). -/
theorem C25_error_helpers_write_status_and_error_response
    (marshal : ErrorResponse → Except GoError String)
    (unmarshal : String → Except GoError ErrorResponse)
    (w : ResponseRecorder) (hw : w.wroteHeader = false) (hbody : w.Body = "") (e : GoError)
    (hcodec : ∀ r ∈ [ErrorResponse.mk 400 "Bad Request" e.msg,
                      ErrorResponse.mk 500 "Internal Server Error" e.msg,
                      ErrorResponse.mk 404 "Not Found" e.msg],
        ∃ text, marshal r = Except.ok text ∧ unmarshal (text ++ "\n") = Except.ok r) :
    (∃ w1, ErrorBadRequest marshal w e = Outcome.ret w1 ∧ w1.Code = 400
      ∧ w1.HeaderGet "Content-Type" = "application/json"
      ∧ unmarshal w1.Body = Except.ok (ErrorResponse.mk 400 "Bad Request" e.msg))
    ∧ (∃ w1, ErrorInternalServerError marshal w e = Outcome.ret w1 ∧ w1.Code = 500
      ∧ w1.HeaderGet "Content-Type" = "application/json"
      ∧ unmarshal w1.Body = Except.ok (ErrorResponse.mk 500 "Internal Server Error" e.msg))
    ∧ (∃ w1, ErrorNotFound marshal w e = Outcome.ret w1 ∧ w1.Code = 404
      ∧ w1.HeaderGet "Content-Type" = "application/json"
      ∧ unmarshal w1.Body = Except.ok (ErrorResponse.mk 404 "Not Found" e.msg)) := by
  have key : ∀ (code : Int) (status : String), 100 ≤ code → code ≤ 999 →
      ErrorResponse.mk code status e.msg ∈
        [ErrorResponse.mk 400 "Bad Request" e.msg,
         ErrorResponse.mk 500 "Internal Server Error" e.msg,
         ErrorResponse.mk 404 "Not Found" e.msg] →
      ∃ w1, SendJSONResponse marshal w code (ErrorResponse.mk code status e.msg)
          = Outcome.ret w1 ∧ w1.Code = code
        ∧ w1.HeaderGet "Content-Type" = "application/json"
        ∧ unmarshal w1.Body = Except.ok (ErrorResponse.mk code status e.msg) := by
    intro code status h1 h2 hmem
    obtain ⟨text, hm, hu⟩ := hcodec _ hmem
    obtain ⟨w1, hret, hcode, hct, hok, _⟩ :=
      SendJSONResponse_ret marshal w hw code h1 h2 (ErrorResponse.mk code status e.msg)
    refine ⟨w1, hret, hcode, hct, ?_⟩
    rw [hok text hm, hbody, String.empty_append]
    exact hu
  exact ⟨key 400 "Bad Request" (by decide) (by decide) (by simp),
    key 500 "Internal Server Error" (by decide) (by decide) (by simp),
    key 404 "Not Found" (by decide) (by decide) (by simp)⟩

theorem C25_error_helpers_write_status_and_error_response_witness :
    (∃ w1, ErrorBadRequest sampleMarshalError NewRecorder ⟨"boom"⟩ = Outcome.ret w1
      ∧ w1.Code = 400 ∧ w1.HeaderGet "Content-Type" = "application/json"
      ∧ sampleUnmarshalError w1.Body = Except.ok (ErrorResponse.mk 400 "Bad Request" "boom"))
    ∧ (∃ w1, ErrorInternalServerError sampleMarshalError NewRecorder ⟨"boom"⟩ = Outcome.ret w1
      ∧ w1.Code = 500 ∧ w1.HeaderGet "Content-Type" = "application/json"
      ∧ sampleUnmarshalError w1.Body
          = Except.ok (ErrorResponse.mk 500 "Internal Server Error" "boom"))
    ∧ (∃ w1, ErrorNotFound sampleMarshalError NewRecorder ⟨"boom"⟩ = Outcome.ret w1
      ∧ w1.Code = 404 ∧ w1.HeaderGet "Content-Type" = "application/json"
      ∧ sampleUnmarshalError w1.Body = Except.ok (ErrorResponse.mk 404 "Not Found" "boom")) :=
  C25_error_helpers_write_status_and_error_response sampleMarshalError sampleUnmarshalError
    NewRecorder rfl rfl ⟨"boom"⟩
    (fun r hr => by
      simp only [List.mem_cons, List.mem_singleton, List.not_mem_nil, or_false] at hr
      rcases hr with rfl | rfl | rfl
      · exact ⟨"400|Bad Request|boom", congrArg Except.ok (by decide), rfl⟩
      · exact ⟨"500|Internal Server Error|boom", congrArg Except.ok (by decide), rfl⟩
      · exact ⟨"404|Not Found|boom", congrArg Except.ok (by decide), rfl⟩)

theorem getLastOnline_ret (env : Env) (lib : DetailLib) (t : Trace) (fieldOID id : String)
    (htyped : answersBytes env (env.cfg.OltCfg.BaseOID1 ++ fieldOID ++ "." ++ id)) :
    ∃ r t1, getLastOnline env lib t fieldOID id = (Outcome.ret r, t1) := by
  unfold getLastOnline getFromSNMPWithSingleflight
  simp only []
  cases hG : env.Get t (env.cfg.OltCfg.BaseOID1 ++ fieldOID ++ "." ++ id) with
  | error e => exact ⟨_, _, rfl⟩
  | ok packet =>
    simp only []
    by_cases hlen : packet.Variables.length = 0
    · rw [if_pos hlen]
      exact ⟨_, _, rfl⟩
    · rw [if_neg hlen]
      simp only []
      cases hV : packet.Variables with
      | nil => rw [hV] at hlen; exact absurd rfl hlen
      | cons v vs =>
        obtain ⟨bs, hbs⟩ := htyped t packet v vs hG hV
        have hf : packet.firstValue = SnmpValue.bytes bs := by
          unfold SnmpPacket.firstValue
          rw [hV]
          exact hbs
        rw [hf]
        exact ⟨_, _, rfl⟩

theorem getLastOffline_ret (env : Env) (lib : DetailLib) (t : Trace) (fieldOID id : String)
    (htyped : answersBytes env (env.cfg.OltCfg.BaseOID1 ++ fieldOID ++ "." ++ id)) :
    ∃ r t1, getLastOffline env lib t fieldOID id = (Outcome.ret r, t1) := by
  unfold getLastOffline
  simp only []
  cases hG : env.Get t (env.cfg.OltCfg.BaseOID1 ++ fieldOID ++ "." ++ id) with
  | error e => exact ⟨_, _, rfl⟩
  | ok packet =>
    simp only []
    cases hV : packet.Variables with
    | nil => exact ⟨_, _, rfl⟩
    | cons v vs =>
      obtain ⟨bs, hbs⟩ := htyped t packet v vs hG hV
      simp only [hbs]
      exact ⟨_, _, rfl⟩

/-- The loop body returns a record when both timestamp fetches are answered with byte
strings. -/
theorem customerInfoOfPdu_returns (env : Env) (lib : DetailLib) (oc : OltConfig) (b p : Int)
    (t : Trace) (pdu : SnmpPDU)
    (hon : answersBytes env (env.cfg.OltCfg.BaseOID1 ++ oc.OnuLastOnlineOID ++ "."
      ++ itoa (env.utils.ExtractIDOnuID pdu.Name)))
    (hoff : answersBytes env (env.cfg.OltCfg.BaseOID1 ++ oc.OnuLastOfflineOID ++ "."
      ++ itoa (env.utils.ExtractIDOnuID pdu.Name))) :
    ∃ r t1, customerInfoOfPdu env lib oc b p t pdu = (Outcome.ret r, t1) := by
  unfold customerInfoOfPdu
  simp only []
  rw [detailHead_ID]
  obtain ⟨r1, t1, h1⟩ := getLastOnline_ret env lib (detailHead env oc b p t pdu).2
    oc.OnuLastOnlineOID (itoa (env.utils.ExtractIDOnuID pdu.Name)) hon
  rw [h1]
  simp only []
  have hid : (storeIfNoError r1 (fun x v => { x with LastOnline := v })
      (detailHead env oc b p t pdu).1).ID = env.utils.ExtractIDOnuID pdu.Name := by
    exact (storeIfNoError_keep ONUCustomerInfo.ID r1 (fun x v => { x with LastOnline := v })
      (detailHead env oc b p t pdu).1 (fun _ _ => rfl)).trans (detailHead_ID env oc b p t pdu)
  rw [hid]
  obtain ⟨r2, t2, h2⟩ := getLastOffline_ret env lib t1
    oc.OnuLastOfflineOID (itoa (env.utils.ExtractIDOnuID pdu.Name)) hoff
  rw [h2]
  exact ⟨_, _, rfl⟩

/-- C29: for a valid board and port (the profile resolves), when the walk scoped to the
terminal succeeds without an entry, `GetByBoardIDPonIDAndOnuID` returns the all-zero record
with a nil error. When the walk delivers exactly one entry and the device answers the two
timestamp fetches of that terminal with byte strings, the operation returns, with a nil
error, a record whose `Board` and `PON` are the requested board and port; and whatever the
device answers, every record the operation returns for one entry carries them. -/
theorem C29_detail_of_empty_walk_and_of_one_entry (env : Env) (lib : DetailLib)
    (b p onuID : Int) (oc : OltConfig)
    (hcfg : getOltConfig env.cfg b p = (some oc, none))
    (hrange : ∀ m, (env.rangeOrder m).Perm m) :
    (b = 1 ∨ b = 2) ∧ 1 ≤ p ∧ p ≤ 16
    ∧ (env.Walk [] (oc.BaseOID ++ oc.OnuIDNameOID ++ "." ++ itoa onuID) = ([], none) →
        (GetByBoardIDPonIDAndOnuID env lib b p onuID).out
          = Outcome.ret (ONUCustomerInfo.mk 0 0 0 "" "" "" "" "" "" "" "" "" "" "" "" "" "" "",
              none))
    ∧ (∀ pdu, env.Walk [] (oc.BaseOID ++ oc.OnuIDNameOID ++ "." ++ itoa onuID)
          = ([pdu], none) →
        answersBytes env (env.cfg.OltCfg.BaseOID1 ++ oc.OnuLastOnlineOID ++ "."
          ++ itoa (env.utils.ExtractIDOnuID pdu.Name)) →
        answersBytes env (env.cfg.OltCfg.BaseOID1 ++ oc.OnuLastOfflineOID ++ "."
          ++ itoa (env.utils.ExtractIDOnuID pdu.Name)) →
        ∃ r, (GetByBoardIDPonIDAndOnuID env lib b p onuID).out = Outcome.ret (r, none)
          ∧ r.Board = b ∧ r.PON = p ∧ r.ID = env.utils.ExtractIDOnuID pdu.Name)
    ∧ (∀ pdu, env.Walk [] (oc.BaseOID ++ oc.OnuIDNameOID ++ "." ++ itoa onuID)
          = ([pdu], none) →
        ∀ r e, (GetByBoardIDPonIDAndOnuID env lib b p onuID).out = Outcome.ret (r, e) →
          e = none ∧ r.Board = b ∧ r.PON = p) := by
  obtain ⟨hb, hp1, hp2⟩ := (getOltConfig_resolves_iff env.cfg b p).1 ⟨oc, hcfg⟩
  have hone : ∀ pdu, env.Walk [] (oc.BaseOID ++ oc.OnuIDNameOID ++ "." ++ itoa onuID)
        = ([pdu], none) →
      (GetByBoardIDPonIDAndOnuID env lib b p onuID).out
        = match (customerInfoOfPdu env lib oc b p
            [Event.snmpWalk (oc.BaseOID ++ oc.OnuIDNameOID ++ "." ++ itoa onuID)] pdu).1 with
          | Outcome.abort reason => Outcome.abort reason
          | Outcome.ret r => Outcome.ret (r, none) := by
    intro pdu hw
    unfold GetByBoardIDPonIDAndOnuID
    rw [hcfg]
    simp only [hw, List.foldl_cons, List.foldl_nil]
    have h1 : env.rangeOrder (GoMap.set [] (env.utils.ExtractONUID pdu.Name) pdu)
        = [(env.utils.ExtractONUID pdu.Name, pdu)] :=
      List.perm_singleton.1 (hrange _)
    rw [h1]
    simp only [customerInfoLoop]
    rcases customerInfoOfPdu env lib oc b p
        [Event.snmpWalk (oc.BaseOID ++ oc.OnuIDNameOID ++ "." ++ itoa onuID)] pdu
      with ⟨o, t2⟩
    cases o <;> rfl
  refine ⟨hb, hp1, hp2, ?_, ?_, ?_⟩
  · intro hw
    unfold GetByBoardIDPonIDAndOnuID
    rw [hcfg]
    simp only [hw, List.foldl_nil]
    have h0 : env.rangeOrder [] = [] := List.Perm.eq_nil (hrange [])
    rw [h0]
    rfl
  · intro pdu hw hon hoff
    obtain ⟨r, t1, hr⟩ := customerInfoOfPdu_returns env lib oc b p
      [Event.snmpWalk (oc.BaseOID ++ oc.OnuIDNameOID ++ "." ++ itoa onuID)] pdu hon hoff
    have htag := customerInfoOfPdu_ret _ _ _ _ _ _ _ _ _ hr
    refine ⟨r, ?_, htag.2.2.2.1, htag.2.2.2.2.1, htag.2.2.2.2.2⟩
    rw [hone pdu hw, hr]
  · intro pdu hw r e hout
    rw [hone pdu hw] at hout
    rcases hc : customerInfoOfPdu env lib oc b p
        [Event.snmpWalk (oc.BaseOID ++ oc.OnuIDNameOID ++ "." ++ itoa onuID)] pdu
      with ⟨o, t2⟩
    rw [hc] at hout
    cases o with
    | abort reason => simp at hout
    | ret r0 =>
      simp only [Outcome.ret.injEq, Prod.mk.injEq] at hout
      have htag := customerInfoOfPdu_ret _ _ _ _ _ _ _ _ _ hc
      rw [← hout.1]
      exact ⟨hout.2.symm, htag.2.2.2.1, htag.2.2.2.2.1⟩

theorem C29_detail_of_empty_walk_and_of_one_entry_witness :
    (deviceEnv [] terminal5Dated).Walk [] "1.1.5" = ([], none)
    ∧ (GetByBoardIDPonIDAndOnuID (deviceEnv [] terminal5Dated) sampleLib 1 1 5).out
        = Outcome.ret (ONUCustomerInfo.mk 0 0 0 "" "" "" "" "" "" "" "" "" "" "" "" "" "" "",
            none)
    ∧ (deviceEnv [pdu5] terminal5Dated).Walk [] "1.1.5" = ([pdu5], none)
    ∧ ∃ r, (GetByBoardIDPonIDAndOnuID (deviceEnv [pdu5] terminal5Dated) sampleLib 1 1 5).out
          = Outcome.ret (r, none)
        ∧ r.Board = 1 ∧ r.PON = 1 ∧ r.ID = 5 := by
  have hbytes : ∀ oid bs, terminal5Dated.lookup oid = some (SnmpValue.bytes bs) →
      answersBytes (deviceEnv [pdu5] terminal5Dated) oid := by
    intro oid bs hl t packet v vs hG hV
    have hG2 : (deviceEnv [pdu5] terminal5Dated).Get t oid
        = Except.ok { Variables := [{ Name := oid, Value := SnmpValue.bytes bs }] } := by
      show (match terminal5Dated.lookup oid with
        | some v => (Except.ok (SnmpPacket.mk [SnmpPDU.mk oid v]) : Except GoError SnmpPacket)
        | none => Except.error (GoError.mk "timeout")) = _
      rw [hl]
    rw [hG2] at hG
    simp only [Except.ok.injEq] at hG
    rw [← hG] at hV
    simp only [List.cons.injEq] at hV
    exact ⟨bs, by rw [← hV.1]⟩
  exact ⟨rfl,
    (C29_detail_of_empty_walk_and_of_one_entry (deviceEnv [] terminal5Dated) sampleLib 1 1 5
      (oltConfigLiteral "1" sampleCfg.Board1Pon1) rfl (fun m => List.Perm.refl m)).2.2.2.1 rfl,
    rfl,
    (C29_detail_of_empty_walk_and_of_one_entry (deviceEnv [pdu5] terminal5Dated) sampleLib
      1 1 5 (oltConfigLiteral "1" sampleCfg.Board1Pon1) rfl
      (fun m => List.Perm.refl m)).2.2.2.2.1 pdu5 rfl
      (hbytes "1.9.5" [7, 232, 1, 1, 0, 0, 0, 0] (by decide))
      (hbytes "1.10.5" [7, 231, 12, 31, 20, 0, 0, 0] (by decide))⟩

end OltZte
